import Mathlib

/-! svmredlight: the Ruby binding of SVMLight (`ext/svmredlight.c`)

A shallow embedding of the configuration validator (`check_*_param`,
`setup_learn_params`, `setup_kernel_params`,
`check_kernel_and_learn_params_logic`), of document construction
(`doc_create`) and its accessors, of training (`model_learn_classification`)
and of loading a model (`model_read_from_file`), followed by theorems about
them.

Conventions of the embedding:

* a C function that writes through pointer arguments returns the written
  values next to its `int` result: `(result, target, error)`;
* a structure that the C code fills in place is passed in and returned, since
  the C structure is an uninitialised stack variable before the call;
* `rb_raise` is a non-local exit; functions that can raise return an `Outcome`.
-/

namespace SvmRedLight

/-! ## C doubles -/

/-- A C `double`: not-a-number, the two infinities, or a finite value given by
the rational it denotes (the two zeros are not told apart; they compare equal
in C as well). -/
inductive Dbl where
  | nan
  | ninf
  | fin (q : ℚ)
  | pinf
deriving DecidableEq, Repr

namespace Dbl

/-- C `a < b` on doubles: false as soon as one side is not a number. -/
def lt : Dbl → Dbl → Bool
  | nan, _ => false
  | _, nan => false
  | ninf, ninf => false
  | ninf, _ => true
  | _, ninf => false
  | pinf, _ => false
  | fin _, pinf => true
  | fin a, fin b => decide (a < b)

/-- C `a <= b` on doubles: false as soon as one side is not a number. -/
def le : Dbl → Dbl → Bool
  | nan, _ => false
  | _, nan => false
  | ninf, _ => true
  | _, pinf => true
  | pinf, _ => false
  | fin _, ninf => false
  | fin a, fin b => decide (a ≤ b)

/-- C `a > b` on doubles. -/
def gt (a b : Dbl) : Bool := lt b a

/-- Floor of the binary logarithm, by halving (`fuel` bounds the number of
halvings; `ilog2 n n` is the logarithm of `n`). -/
def ilog2 : Nat → Nat → Nat
  | 0, _ => 0
  | fuel + 1, n => if n < 2 then 0 else ilog2 fuel (n / 2) + 1

/-- The binary64 value nearest to the positive rational `n / d`, ties to even:
53 significant bits, gradual underflow below `2 ^ (-1022)`, overflow to
infinity. -/
def round_pos (n d : Nat) : Dbl :=
  let e0 : Int := (ilog2 n n : Int) - (ilog2 d d : Int)
  let below : Bool :=
    if 0 ≤ e0 then decide (n < d * 2 ^ e0.toNat) else decide (n * 2 ^ (-e0).toNat < d)
  let e : Int := if below then e0 - 1 else e0
  let u : Int := max (e - 52) (-1074)
  let num := n * 2 ^ (-u).toNat
  let den := d * 2 ^ u.toNat
  let m := num / den
  let r := num % den
  let m1 := if den < 2 * r ∨ (2 * r = den ∧ m % 2 = 1) then m + 1 else m
  if 971 < u ∨ (u = 971 ∧ 2 ^ 53 ≤ m1) then pinf
  else fin (mkRat (m1 * 2 ^ u.toNat) (2 ^ (-u).toNat))

/-- The double that the C decimal literal `m`e`x` denotes, for instance
`dec 1 (-3)` for `0.001` and `dec 10000000000000001 (-21)` for
`1.0000000000000001e-05`. -/
def dec (m : Int) (x : Int) : Dbl :=
  match m with
  | .ofNat 0 => fin 0
  | .ofNat k => round_pos (k * 10 ^ x.toNat) (10 ^ (-x).toNat)
  | .negSucc k =>
    match round_pos ((k + 1) * 10 ^ x.toNat) (10 ^ (-x).toNat) with
    | fin r => fin (-r)
    | pinf => ninf
    | y => y

end Dbl

/-- The C conversion `(double)n` of a `long`: exact up to `2 ^ 53` in absolute
value, rounded to the nearest double beyond. -/
def long_to_double (n : Int) : Dbl :=
  if n.natAbs ≤ 2 ^ 53 then Dbl.fin n else Dbl.dec n 0

/-! ## SVMLight data (the part of `svm_common.h` this file touches) -/

/-- The `FVAL` cast of a feature weight.
Modelled from the spec: the typedef is in `svm_light/svm_common.h`, which is
not among the sources; the specification calls the weight a floating point
number, so the cast keeps the double. -/
def FVAL (x : Dbl) : Dbl := x

/-- One entry of a sparse vector: feature number and weight. -/
structure WORD where
  wnum : Int
  weight : Dbl
deriving DecidableEq, Repr

/-- A sparse vector: a buffer of words ended by an entry with `wnum = 0`. -/
structure SVECTOR where
  words : List WORD
  userdefined : String
  factor : Dbl
deriving DecidableEq, Repr

/-- An example document. -/
structure DOC where
  docnum : Int
  queryid : Int
  slackid : Int
  costfactor : Dbl
  fvec : SVECTOR
deriving DecidableEq, Repr

/-- The kernel type `LINEAR`; `is_linear` tests `kernel_type == 0`. -/
def LINEAR : Int := 0

/-- The learning type `CLASSIFICATION`.
Modelled from the spec: the constant is defined in `svm_light/svm_common.h`,
which is not among the sources; the specification only says that the task type
is fixed to classification, and no theorem depends on the number chosen. -/
def CLASSIFICATION : Int := 1

/-- The fields of `LEARN_PARM` that this file reads or writes. -/
structure LEARN_PARM where
  type : Int
  predfile : String
  alphafile : String
  biased_hyperplane : Int
  sharedslack : Int
  remove_inconsistent : Int
  skip_final_opt_check : Int
  svm_newvarsinqp : Int
  compute_loo : Int
  svm_maxqpsize : Int
  svm_iter_to_shrink : Int
  maxiter : Int
  kernel_cache_size : Int
  xa_depth : Int
  svm_c : Dbl
  eps : Dbl
  transduction_posratio : Dbl
  svm_costratio : Dbl
  svm_costratio_unlab : Dbl
  svm_unlabbound : Dbl
  epsilon_crit : Dbl
  epsilon_a : Dbl
  rho : Dbl
deriving DecidableEq, Repr

/-- The fields of `KERNEL_PARM` that this file reads or writes. -/
structure KERNEL_PARM where
  kernel_type : Int
  poly_degree : Int
  rbf_gamma : Dbl
  coef_lin : Dbl
  coef_const : Dbl
  custom : String
deriving DecidableEq, Repr

/-! ## Ruby values -/

/-- A Ruby `VALUE`, by its `TYPE`: `nil`, `true`, `false`, a Fixnum, a Float
(with the machine word that represents the object, which is what `FIX2LONG`
shifts), a String (one character per byte), an Array, a Hash (its String-keyed
entries, which are all that a lookup with a String key can find; a Hash with a
default value or block is not covered), a `Data` object of class `Document`
wrapping a `DOC`, or an object of any other kind, taken to have no conversion
to Float or Integer (a Bignum, a Rational or an object that defines `to_f` is
not covered). -/
inductive VALUE where
  | Qnil
  | Qtrue
  | Qfalse
  | fixnum (n : Int)
  | float (x : Dbl) (word : Int)
  | string (s : String)
  | array (elems : List VALUE)
  | hash (entries : List (String × VALUE))
  | document (d : DOC)
  | other

/-- The String-keyed entries of a Ruby Hash. -/
abbrev Hash := List (String × VALUE)

/-- The call `rb_hash_aref(r_hash, rb_str_new2(key))`: the value stored under
`key`, `nil` when there is none. -/
def rb_hash_aref : Hash → String → VALUE
  | [], _ => .Qnil
  | (k, v) :: rest, key => if k = key then v else rb_hash_aref rest key

/-- BSD `strlcpy(target, src, size)`: the characters of `src` up to its first
NUL, cut to `size - 1` characters. -/
def strlcpy (src : String) (size : Nat) : String :=
  ⟨(src.data.takeWhile (fun ch => ch ≠ Char.ofNat 0)).take (size - 1)⟩

/-- The macro `INT2FIX`: the machine word that represents the Fixnum `n`. -/
def INT2FIX (n : Int) : Int := 2 * n + 1

/-- The macro `FIX2LONG`: the machine word of the value shifted right by one
bit, whatever the value is. -/
def FIX2LONG (word : Int) : Int := word / 2

/-! ## Per-field checks -/

/-- The C function `check_string_param`. -/
def check_string_param (new_val : VALUE) (default_val target name error : String) :
    Int × String × String :=
  match new_val with
  | .string s => (0, strlcpy s 199, error)
  | .Qnil => (0, strlcpy default_val 199, error)
  | _ => (1, target, "The value of the learning option '" ++ name ++ "' must be a string")

/-- The C function `check_long_param`: a Float and a Fixnum both pass the type
test and both go through `FIX2LONG`. -/
def check_long_param (new_val : VALUE) (default_val target : Int) (name error : String) :
    Int × Int × String :=
  match new_val with
  | .float _ word => (0, FIX2LONG word, error)
  | .fixnum n => (0, FIX2LONG (INT2FIX n), error)
  | .Qnil => (0, default_val, error)
  | _ => (1, target, "The value of the learning option '" ++ name ++ "' must be a numeric")

/-- The C function `check_double_param`; `NUM2DBL` gives the value of a Float
and `(double)n` for a Fixnum `n`. -/
def check_double_param (new_val : VALUE) (default_val target : Dbl) (name error : String) :
    Int × Dbl × String :=
  match new_val with
  | .float x _ => (0, x, error)
  | .fixnum n => (0, long_to_double n, error)
  | .Qnil => (0, default_val, error)
  | _ => (1, target, "The value of the learning option '" ++ name ++ "' must be a numeric")

/-- The C function `check_bool_param`. -/
def check_bool_param (new_val : VALUE) (default_val target : Int) (name error : String) :
    Int × Int × String :=
  match new_val with
  | .Qtrue => (0, 1, error)
  | .Qfalse => (0, 0, error)
  | .Qnil => (0, default_val, error)
  | _ => (1, target, "The value of the learning option '" ++ name ++ "' must be a true or false")

/-! ## Filling the parameter structures from the option hashes -/

/-- The C function `setup_learn_params`: one lookup and one per-field check
after the other, returning 1 at the first check that fails. -/
def setup_learn_params (c_learn_param : LEARN_PARM) (r_hash : Hash) (error_message : String) :
    Int × LEARN_PARM × String :=
  let inter_val := rb_hash_aref r_hash "predfile"
  let chk := check_string_param inter_val "trans_predictions" c_learn_param.predfile "predfile" error_message
  let c_learn_param := { c_learn_param with predfile := chk.2.1 }
  let error_message := chk.2.2
  if chk.1 = 1 then (1, c_learn_param, error_message) else
  let inter_val := rb_hash_aref r_hash "alphafile"
  let chk := check_string_param inter_val "" c_learn_param.alphafile "alphafile" error_message
  let c_learn_param := { c_learn_param with alphafile := chk.2.1 }
  let error_message := chk.2.2
  if chk.1 = 1 then (1, c_learn_param, error_message) else
  let inter_val := rb_hash_aref r_hash "biased_hyperplane"
  let chk := check_bool_param inter_val 1 c_learn_param.biased_hyperplane "biased_hyperplane" error_message
  let c_learn_param := { c_learn_param with biased_hyperplane := chk.2.1 }
  let error_message := chk.2.2
  if chk.1 = 1 then (1, c_learn_param, error_message) else
  let inter_val := rb_hash_aref r_hash "sharedslack"
  let chk := check_bool_param inter_val 0 c_learn_param.sharedslack "sharedslack" error_message
  let c_learn_param := { c_learn_param with sharedslack := chk.2.1 }
  let error_message := chk.2.2
  if chk.1 = 1 then (1, c_learn_param, error_message) else
  let inter_val := rb_hash_aref r_hash "remove_inconsistent"
  let chk := check_bool_param inter_val 0 c_learn_param.remove_inconsistent "remove_inconsistent" error_message
  let c_learn_param := { c_learn_param with remove_inconsistent := chk.2.1 }
  let error_message := chk.2.2
  if chk.1 = 1 then (1, c_learn_param, error_message) else
  let inter_val := rb_hash_aref r_hash "skip_final_opt_check"
  let chk := check_bool_param inter_val 0 c_learn_param.skip_final_opt_check "skip_final_opt_check" error_message
  let c_learn_param := { c_learn_param with skip_final_opt_check := chk.2.1 }
  let error_message := chk.2.2
  if chk.1 = 1 then (1, c_learn_param, error_message) else
  let inter_val := rb_hash_aref r_hash "svm_newvarsinqp"
  let chk := check_bool_param inter_val 0 c_learn_param.svm_newvarsinqp "svm_newvarsinqp" error_message
  let c_learn_param := { c_learn_param with svm_newvarsinqp := chk.2.1 }
  let error_message := chk.2.2
  if chk.1 = 1 then (1, c_learn_param, error_message) else
  let inter_val := rb_hash_aref r_hash "compute_loo"
  let chk := check_bool_param inter_val 0 c_learn_param.compute_loo "compute_loo" error_message
  let c_learn_param := { c_learn_param with compute_loo := chk.2.1 }
  let error_message := chk.2.2
  if chk.1 = 1 then (1, c_learn_param, error_message) else
  let inter_val := rb_hash_aref r_hash "svm_maxqpsize"
  let chk := check_long_param inter_val 10 c_learn_param.svm_maxqpsize "svm_maxqpsize" error_message
  let c_learn_param := { c_learn_param with svm_maxqpsize := chk.2.1 }
  let error_message := chk.2.2
  if chk.1 = 1 then (1, c_learn_param, error_message) else
  let inter_val := rb_hash_aref r_hash "svm_iter_to_shrink"
  let chk := check_long_param inter_val (-9999) c_learn_param.svm_iter_to_shrink "svm_iter_to_shrink" error_message
  let c_learn_param := { c_learn_param with svm_iter_to_shrink := chk.2.1 }
  let error_message := chk.2.2
  if chk.1 = 1 then (1, c_learn_param, error_message) else
  let inter_val := rb_hash_aref r_hash "maxiter"
  let chk := check_long_param inter_val 100000 c_learn_param.maxiter "maxiter" error_message
  let c_learn_param := { c_learn_param with maxiter := chk.2.1 }
  let error_message := chk.2.2
  if chk.1 = 1 then (1, c_learn_param, error_message) else
  let inter_val := rb_hash_aref r_hash "kernel_cache_size"
  let chk := check_long_param inter_val 40 c_learn_param.kernel_cache_size "kernel_cache_size" error_message
  let c_learn_param := { c_learn_param with kernel_cache_size := chk.2.1 }
  let error_message := chk.2.2
  if chk.1 = 1 then (1, c_learn_param, error_message) else
  let inter_val := rb_hash_aref r_hash "xa_depth"
  let chk := check_long_param inter_val 0 c_learn_param.xa_depth "xa_depth" error_message
  let c_learn_param := { c_learn_param with xa_depth := chk.2.1 }
  let error_message := chk.2.2
  if chk.1 = 1 then (1, c_learn_param, error_message) else
  let inter_val := rb_hash_aref r_hash "svm_c"
  let chk := check_double_param inter_val (Dbl.dec 0 0) c_learn_param.svm_c "svm_c" error_message
  let c_learn_param := { c_learn_param with svm_c := chk.2.1 }
  let error_message := chk.2.2
  if chk.1 = 1 then (1, c_learn_param, error_message) else
  let inter_val := rb_hash_aref r_hash "eps"
  let chk := check_double_param inter_val (Dbl.dec 1 (-1)) c_learn_param.eps "eps" error_message
  let c_learn_param := { c_learn_param with eps := chk.2.1 }
  let error_message := chk.2.2
  if chk.1 = 1 then (1, c_learn_param, error_message) else
  let inter_val := rb_hash_aref r_hash "transduction_posratio"
  let chk := check_double_param inter_val (Dbl.dec (-1) 0) c_learn_param.transduction_posratio "transduction_posratio" error_message
  let c_learn_param := { c_learn_param with transduction_posratio := chk.2.1 }
  let error_message := chk.2.2
  if chk.1 = 1 then (1, c_learn_param, error_message) else
  let inter_val := rb_hash_aref r_hash "svm_costratio"
  let chk := check_double_param inter_val (Dbl.dec 1 0) c_learn_param.svm_costratio "svm_costratio" error_message
  let c_learn_param := { c_learn_param with svm_costratio := chk.2.1 }
  let error_message := chk.2.2
  if chk.1 = 1 then (1, c_learn_param, error_message) else
  let inter_val := rb_hash_aref r_hash "svm_costratio_unlab"
  let chk := check_double_param inter_val (Dbl.dec 1 0) c_learn_param.svm_costratio_unlab "svm_costratio_unlab" error_message
  let c_learn_param := { c_learn_param with svm_costratio_unlab := chk.2.1 }
  let error_message := chk.2.2
  if chk.1 = 1 then (1, c_learn_param, error_message) else
  let inter_val := rb_hash_aref r_hash "svm_unlabbound"
  let chk := check_double_param inter_val (Dbl.dec 10000000000000001 (-21)) c_learn_param.svm_unlabbound "svm_unlabbound" error_message
  let c_learn_param := { c_learn_param with svm_unlabbound := chk.2.1 }
  let error_message := chk.2.2
  if chk.1 = 1 then (1, c_learn_param, error_message) else
  let inter_val := rb_hash_aref r_hash "epsilon_crit"
  let chk := check_double_param inter_val (Dbl.dec 1 (-3)) c_learn_param.epsilon_crit "epsilon_crit" error_message
  let c_learn_param := { c_learn_param with epsilon_crit := chk.2.1 }
  let error_message := chk.2.2
  if chk.1 = 1 then (1, c_learn_param, error_message) else
  let inter_val := rb_hash_aref r_hash "epsilon_a"
  let chk := check_double_param inter_val (Dbl.dec 1 (-15)) c_learn_param.epsilon_a "epsilon_a" error_message
  let c_learn_param := { c_learn_param with epsilon_a := chk.2.1 }
  let error_message := chk.2.2
  if chk.1 = 1 then (1, c_learn_param, error_message) else
  let c_learn_param := { c_learn_param with rho := Dbl.dec 1 0 }
  let inter_val := rb_hash_aref r_hash "rho"
  let chk := check_double_param inter_val (Dbl.dec 1 0) c_learn_param.rho "rho" error_message
  let c_learn_param := { c_learn_param with rho := chk.2.1 }
  let error_message := chk.2.2
  if chk.1 = 1 then (1, c_learn_param, error_message) else
  (0, c_learn_param, error_message)

/-- The C function `setup_kernel_params`; after the four checks the custom
kernel string is set to "empty". -/
def setup_kernel_params (c_kernel_param : KERNEL_PARM) (r_hash : Hash) (error_message : String) :
    Int × KERNEL_PARM × String :=
  let inter_val := rb_hash_aref r_hash "poly_degree"
  let chk := check_long_param inter_val 3 c_kernel_param.poly_degree "poly_degree" error_message
  let c_kernel_param := { c_kernel_param with poly_degree := chk.2.1 }
  let error_message := chk.2.2
  if chk.1 = 1 then (1, c_kernel_param, error_message) else
  let inter_val := rb_hash_aref r_hash "rbf_gamma"
  let chk := check_double_param inter_val (Dbl.dec 1 0) c_kernel_param.rbf_gamma "rbf_gamma" error_message
  let c_kernel_param := { c_kernel_param with rbf_gamma := chk.2.1 }
  let error_message := chk.2.2
  if chk.1 = 1 then (1, c_kernel_param, error_message) else
  let inter_val := rb_hash_aref r_hash "coef_lin"
  let chk := check_double_param inter_val (Dbl.dec 1 0) c_kernel_param.coef_lin "coef_lin" error_message
  let c_kernel_param := { c_kernel_param with coef_lin := chk.2.1 }
  let error_message := chk.2.2
  if chk.1 = 1 then (1, c_kernel_param, error_message) else
  let inter_val := rb_hash_aref r_hash "coef_const"
  let chk := check_double_param inter_val (Dbl.dec 1 0) c_kernel_param.coef_const "coef_const" error_message
  let c_kernel_param := { c_kernel_param with coef_const := chk.2.1 }
  let error_message := chk.2.2
  if chk.1 = 1 then (1, c_kernel_param, error_message) else
  (0, { c_kernel_param with custom := strlcpy "empty" 49 }, error_message)

/-! ## Cross-field checks -/

/-- The C function `check_kernel_and_learn_params_logic`. The format string of
the third rejection ends at the comma that follows its first literal, so its
single `%ld` prints the first variadic argument, which is the address of the
second literal; `lit` is that address. -/
def check_kernel_and_learn_params_logic (lit : Int) (c_kernel_param : KERNEL_PARM)
    (c_learn_param : LEARN_PARM) (error_msg : String) : Int × LEARN_PARM × String :=
  let c_learn_param :=
    if c_learn_param.svm_iter_to_shrink = -9999 then
      if c_kernel_param.kernel_type = LINEAR then
        { c_learn_param with svm_iter_to_shrink := 2 }
      else
        { c_learn_param with svm_iter_to_shrink := 100 }
    else c_learn_param
  let c_learn_param :=
    if c_learn_param.skip_final_opt_check ≠ 0 ∧ c_kernel_param.kernel_type = LINEAR then
      { c_learn_param with skip_final_opt_check := 0 }
    else c_learn_param
  if c_learn_param.skip_final_opt_check ≠ 0 ∧ c_learn_param.remove_inconsistent ≠ 0 then
    (1, c_learn_param, "It is necessary to do the final optimality " ++
      "check when removing inconsistent examples.")
  else if c_learn_param.svm_maxqpsize < 2 then
    (1, c_learn_param, "Maximum size of QP-subproblems " ++
      "not in valid range: " ++ toString c_learn_param.svm_maxqpsize ++ " [2..]")
  else if c_learn_param.svm_maxqpsize < c_learn_param.svm_newvarsinqp then
    (1, c_learn_param, "Maximum size of QP-subproblems [" ++ toString lit ++
      "] must be larger than the number of")
  else if c_learn_param.svm_iter_to_shrink < 1 then
    (1, c_learn_param, "Maximum number of iterations for shrinking not" ++
      " in valid range: " ++ toString c_learn_param.svm_iter_to_shrink ++ " [1,..]")
  else if Dbl.lt c_learn_param.svm_c (Dbl.fin 0) then
    (1, c_learn_param, "The C parameter must be greater than zero")
  else if Dbl.gt c_learn_param.transduction_posratio (Dbl.fin 1) then
    (1, c_learn_param, "The fraction of unlabeled examples to classify as positives must" ++
      "be less than 1.0")
  else if Dbl.le c_learn_param.svm_costratio (Dbl.fin 0) then
    (1, c_learn_param, "The COSTRATIO parameter must be greater than zero")
  else if Dbl.le c_learn_param.epsilon_crit (Dbl.fin 0) then
    (1, c_learn_param, "The epsilon parameter must be greater than zero")
  else if Dbl.lt c_learn_param.rho (Dbl.fin 0) then
    (1, c_learn_param, "The parameter rho for xi/alpha-estimates and leave-one-out pruning must" ++
      "be greater than zero (typically 1.0 or 2.0, see T. Joachims, Estimating the" ++
      "Generalization Performance of an SVM Efficiently, ICML, 2000.)!")
  else if c_learn_param.xa_depth < 0 ∨ c_learn_param.xa_depth > 100 then
    (1, c_learn_param, "The parameter depth for ext. xi/alpha-estimates must be in [0..100] (zero) " ++
      "for switching to the conventional xa/estimates described in T. Joachims," ++
      "Estimating the Generalization Performance of an SVM Efficiently, ICML, 2000.)")
  else
    (0, c_learn_param, error_msg)

/-! ## Document construction -/

/-- The Ruby exceptions this file can raise: `TypeError` (from `Check_Type`
and the numeric conversions, with the type that was expected, or from
`rb_raise(rb_eTypeError, ...)`, with its message), `ArgumentError` (from
`rb_raise(rb_eArgError, ...)`, with its message) and `RangeError` (from
`FIX2INT`). -/
inductive RubyError where
  | TypeError (what : String)
  | ArgError (msg : String)
  | RangeError
deriving DecidableEq, Repr

/-- What a call that may raise comes back with: a result, a raised exception,
or `undefined` when the C code reads an array slot past the array's length. -/
inductive Outcome (α : Type) where
  | ok (a : α)
  | raise (e : RubyError)
  | undefined
deriving DecidableEq, Repr

/-- Sequencing: the continuation runs only after a result. -/
def Outcome.bind {α β : Type} : Outcome α → (α → Outcome β) → Outcome β
  | .ok a, f => f a
  | .raise e, _ => .raise e
  | .undefined, _ => .undefined

/-- The macro `NUM2DBL` on an arbitrary value: the value of a Float, `(double)n`
for a Fixnum, `TypeError` for `nil`, `true`, `false`, a String, an Array and
any object without a conversion to Float. -/
def NUM2DBL : VALUE → Outcome Dbl
  | .float x _ => .ok x
  | .fixnum n => .ok (long_to_double n)
  | _ => .raise (.TypeError "Float")

/-- The macro `FIX2INT` (with a 64-bit `long` it is `rb_fix2int`): a Fixnum or
the truncation of a Float when it fits an `int`, `RangeError` when it does not,
`TypeError` for a value without a conversion to Integer. -/
def FIX2INT : VALUE → Outcome Int
  | .fixnum n => if -2 ^ 31 ≤ n ∧ n < 2 ^ 31 then .ok n else .raise .RangeError
  | .float (.fin q) _ =>
    let t := Int.tdiv q.num q.den
    if -2 ^ 31 ≤ t ∧ t < 2 ^ 31 then .ok t else .raise .RangeError
  | .float _ _ => .raise .RangeError
  | _ => .raise (.TypeError "Integer")

/-- SVMLight's `create_svector`, which copies the words up to and including
the first one with `wnum = 0`.
Modelled from the spec: `create_svector` is in `svm_light/svm_common.c`, which
is not among the sources; the specification describes the vector as a flat
buffer of (index, weight) pairs ended by a sentinel with index 0. -/
def create_svector (words : List WORD) (userdefined : String) (factor : Dbl) : SVECTOR :=
  let rec copy : List WORD → List WORD
    | [] => []
    | w :: rest => if w.wnum = 0 then [w] else w :: copy rest
  { words := copy words, userdefined := userdefined, factor := factor }

/-- SVMLight's `create_example(docnum, queryid, slackid, costfactor, fvec)`,
which stores each argument in the field of its name.
Modelled from the spec: `create_example` is in `svm_light/svm_common.c`, which
is not among the sources; the specification gives a Document a document
identifier, a query-group identifier, a slack-group identifier, a cost factor
and a feature vector. -/
def create_example (docnum queryid slackid : Int) (costfactor : Dbl) (fvec : SVECTOR) : DOC :=
  { docnum := docnum, queryid := queryid, slackid := slackid,
    costfactor := costfactor, fvec := fvec }

/-- The `for` loop of `doc_create` over the entries of `words_ary`, giving the
words written to `words[0 .. n-1]`. Each entry is checked in the order of the
C code: the entry is an Array, its slot 0 is a Fixnum, its slot 1 is a Float
or a Fixnum, slot 0 is positive. -/
def doc_create_words : List VALUE → Outcome (List WORD)
  | [] => .ok []
  | inner_array :: rest =>
    match inner_array with
    | .array [] => .undefined
    | .array (.fixnum _ :: []) => .undefined
    | .array (.fixnum n :: .float x _ :: _) =>
      if FIX2LONG (INT2FIX n) ≤ 0 then
        .raise (.ArgError "Feature number has to be greater than zero")
      else
        (doc_create_words rest).bind fun words =>
          .ok ({ wnum := FIX2LONG (INT2FIX n), weight := FVAL x } :: words)
    | .array (.fixnum n :: .fixnum w :: _) =>
      if FIX2LONG (INT2FIX n) ≤ 0 then
        .raise (.ArgError "Feature number has to be greater than zero")
      else
        (doc_create_words rest).bind fun words =>
          .ok ({ wnum := FIX2LONG (INT2FIX n), weight := FVAL (long_to_double w) } :: words)
    | .array (.fixnum _ :: _ :: _) => .raise (.ArgError "Feature weights must be numeric")
    | .array (_ :: _) => .raise (.TypeError "Fixnum")
    | _ => .raise (.TypeError "Array")

/-- The C function `doc_create`. The result stands for the `DOC` that the
returned Ruby object wraps; `junk` is the weight that the freshly allocated
buffer happens to hold in the slot of the final word, of which only `wnum` is
written. -/
def doc_create (id cost slackid queryid words_ary : VALUE) (junk : Dbl) : Outcome DOC :=
  match words_ary with
  | .array elems =>
    match slackid with
    | .fixnum c_slackid =>
      match queryid with
      | .fixnum c_queryid =>
        if elems.length = 0 then
          .raise (.ArgError "Cannot create Document from empty arrays")
        else
          (doc_create_words elems).bind fun filled =>
          let words := filled ++ [{ wnum := 0, weight := junk }]
          let vec := create_svector words "" (Dbl.dec 1 0)
          (NUM2DBL cost).bind fun c =>
          (FIX2INT id).bind fun docnum =>
          .ok (create_example docnum (FIX2LONG (INT2FIX c_queryid))
            (FIX2LONG (INT2FIX c_slackid)) c vec)
      | _ => .raise (.TypeError "Fixnum")
    | _ => .raise (.TypeError "Fixnum")
  | _ => .raise (.TypeError "Array")

/-! ## Training -/

/-- The arguments with which `svm_learn_classification` is called. -/
structure SolverCall where
  docs : List DOC
  labels : List Dbl
  totdocs : Int
  totwords : Int
  learn_parm : LEARN_PARM
  kernel_parm : KERNEL_PARM
  alpha_in : Option (List Dbl)
deriving DecidableEq, Repr

/-- The loop of `model_learn_classification` over the elements of `alpha`:
the converted values, or `none` at the first element that is neither a Float
nor a Fixnum. -/
def alpha_values : List VALUE → Option (List Dbl)
  | [] => some []
  | .float x _ :: rest => (alpha_values rest).map fun xs => x :: xs
  | .fixnum n :: rest => (alpha_values rest).map fun xs => long_to_double n :: xs
  | _ :: _ => none

/-- The scan `while(words[fnum].wnum) fnum++` started at `fnum`: the position
of the first word with `wnum = 0`, `none` when the buffer holds no such word
and the scan leaves it. -/
def scan_words : List WORD → Nat → Option Nat
  | [], _ => none
  | w :: rest, fnum => if w.wnum ≠ 0 then scan_words rest (fnum + 1) else some fnum

/-- The loop of `model_learn_classification` over the examples, from the
running `totwords`: the documents, the labels and the final `totwords`.
`MAXFEATNUM` is the constant of that name in `svm_light/svm_common.h`. -/
def learn_examples (MAXFEATNUM : Int) : List VALUE → Int → Outcome (List DOC × List Dbl × Int)
  | [], totwords => .ok ([], [], totwords)
  | temp_ary :: rest, totwords =>
    let bad : Outcome (List DOC × List Dbl × Int) :=
      .raise (.ArgError ("All elements of documents and labels should be arrays," ++
        "where the first element is a document and the second a number"))
    let step (d : DOC) (label : Dbl) : Outcome (List DOC × List Dbl × Int) :=
      match scan_words d.fvec.words 0 with
      | none => .undefined
      | some 0 => .undefined
      | some (k + 1) =>
        match d.fvec.words.get? k with
        | none => .undefined
        | some last =>
          let totwords := if last.wnum > totwords then last.wnum else totwords
          if totwords > MAXFEATNUM then
            .raise (.ArgError ("The number of features exceeds MAXFEATNUM the maximun " ++
              "number of features defined for this version of SVMLight"))
          else
            (learn_examples MAXFEATNUM rest totwords).bind fun r =>
              .ok (d :: r.1, label :: r.2.1, r.2.2)
    match temp_ary with
    | .array (.document d :: .float x _ :: _) => step d x
    | .array (.document d :: .fixnum n :: _) => step d (long_to_double n)
    | _ => bad

/-- The C function `model_learn_classification`, up to and including the call
of the solver: the result is the argument list of `svm_learn_classification`.
`c_learn_param`, `c_kernel_param` and `error_msg` stand for the contents of the
three uninitialised local variables; `lit` and `MAXFEATNUM` are as in
`check_kernel_and_learn_params_logic` and `learn_examples`. Every `goto bail`
ends in `rb_raise(rb_eArgError, error_msg, "%s")`. -/
def model_learn_classification (lit MAXFEATNUM : Int) (c_learn_param : LEARN_PARM)
    (c_kernel_param : KERNEL_PARM) (error_msg : String)
    (r_docs_and_classes learn_params kernel_params use_cache alpha : VALUE) :
    Outcome SolverCall :=
  let _ := use_cache
  match r_docs_and_classes with
  | .array examples =>
    match learn_params with
    | .hash learn_hash =>
      match kernel_params with
      | .hash kernel_hash =>
        let continue_with (alpha_in : Option (List Dbl)) : Outcome SolverCall :=
          let s := setup_learn_params c_learn_param learn_hash error_msg
          if s.1 ≠ 0 then .raise (.ArgError s.2.2) else
          let c_learn_param := { s.2.1 with type := CLASSIFICATION }
          let t := setup_kernel_params c_kernel_param kernel_hash s.2.2
          if t.1 ≠ 0 then .raise (.ArgError t.2.2) else
          let c_kernel_param := { t.2.1 with kernel_type := LINEAR }
          let r := check_kernel_and_learn_params_logic lit c_kernel_param c_learn_param t.2.2
          if r.1 ≠ 0 then .raise (.ArgError r.2.2) else
          let c_learn_param := r.2.1
          let totdocs : Int := examples.length
          if totdocs = 0 then
            .raise (.ArgError "Cannot create Model from empty Documents array")
          else
            (learn_examples MAXFEATNUM examples 0).bind fun e =>
              .ok { docs := e.1, labels := e.2.1, totdocs := totdocs, totwords := e.2.2,
                    learn_parm := c_learn_param, kernel_parm := c_kernel_param,
                    alpha_in := alpha_in }
        match alpha with
        | .array elems =>
          match alpha_values elems with
          | none => .raise (.ArgError "All elements of the alpha array must be numeric ")
          | some xs => continue_with (some xs)
        | .Qnil => continue_with none
        | _ => .raise (.TypeError "alpha must be an numeric array or nil")
      | _ => .raise (.TypeError "Hash")
    | _ => .raise (.TypeError "Hash")
  | _ => .raise (.TypeError "Array")

/-- The calls into SVMLight that create or change a `MODEL`. -/
inductive ModelCall where
  | read_model (file : String)
  | add_weight_vector_to_linear_model
  | svm_learn_classification (call : SolverCall)
deriving DecidableEq, Repr

/-- The calls into SVMLight that `model_learn_classification` makes on the
model it returns: the call of the solver, after which the function frees
`alpha_in` and `labels` and wraps the model. -/
def model_learn_classification_calls (lit MAXFEATNUM : Int) (c_learn_param : LEARN_PARM)
    (c_kernel_param : KERNEL_PARM) (error_msg : String)
    (r_docs_and_classes learn_params kernel_params use_cache alpha : VALUE) :
    Outcome (List ModelCall) :=
  (model_learn_classification lit MAXFEATNUM c_learn_param c_kernel_param error_msg
    r_docs_and_classes learn_params kernel_params use_cache alpha).bind fun call =>
      .ok [.svm_learn_classification call]

/-! ## Loading a model and reading a document -/

/-- The fields of `MODEL` that this file reads. -/
structure MODEL where
  kernel_parm : KERNEL_PARM
  sv_num : Int
  totwords : Int
  totdoc : Int
  maxdiff : Dbl
deriving DecidableEq, Repr

/-- The C function `is_linear`. -/
def is_linear (model : MODEL) : Bool :=
  model.kernel_parm.kernel_type == 0

/-- The C string that `StringValuePtr` hands to a C function: the characters
before the first NUL. -/
def c_string (s : String) : String :=
  ⟨s.data.takeWhile (fun ch => ch ≠ Char.ofNat 0)⟩

/-- The C function `model_read_from_file`, as the calls into SVMLight that it
makes on the model it returns; `read_model` stands for SVMLight's function of
that name. -/
def model_read_from_file (read_model : String → MODEL) (filename : VALUE) :
    Outcome (List ModelCall) :=
  match filename with
  | .string s =>
    let m := read_model (c_string s)
    if is_linear m then
      .ok [.read_model (c_string s), .add_weight_vector_to_linear_model]
    else
      .ok [.read_model (c_string s)]
  | _ => .raise (.TypeError "String")

/-- A machine word read as a signed 64-bit integer (`SIGNED_VALUE`). -/
def signed64 (word : Int) : Int :=
  (word + 2 ^ 63) % 2 ^ 64 - 2 ^ 63

/-- The Fixnum that `INT2FIX(i)` denotes for a `long` `i`: the word
`2 * i + 1` is cut to 64 bits, so the Fixnum is `i` when `i` lies in the
Fixnum range. -/
def fixnum_of_long (i : Int) : VALUE :=
  .fixnum (FIX2LONG (signed64 (INT2FIX i)))

/-- The C function `doc_get_docnum`; `Data_Get_Struct` raises on a receiver
that is not a `Data` object. -/
def doc_get_docnum (self : VALUE) : Outcome VALUE :=
  match self with
  | .document d => .ok (fixnum_of_long d.docnum)
  | _ => .raise (.TypeError "Data")

/-- The C function `doc_get_slackid`. -/
def doc_get_slackid (self : VALUE) : Outcome VALUE :=
  match self with
  | .document d => .ok (fixnum_of_long d.slackid)
  | _ => .raise (.TypeError "Data")

/-- The C function `doc_get_queryid`. -/
def doc_get_queryid (self : VALUE) : Outcome VALUE :=
  match self with
  | .document d => .ok (fixnum_of_long d.queryid)
  | _ => .raise (.TypeError "Data")

/-- The C function `doc_get_costfactor`; `word` is the machine word of the
Float object that `DBL2NUM` makes. -/
def doc_get_costfactor (self : VALUE) (word : Int) : Outcome VALUE :=
  match self with
  | .document d => .ok (.float d.costfactor word)
  | _ => .raise (.TypeError "Data")

/-! ## The cross-field rules as the specification lists them -/

/-- Rules 1 and 2 of the specification: an unset shrinking threshold becomes 2
for a linear kernel and 100 otherwise; then skipping the final optimality
check is switched off for a linear kernel. -/
def derive_and_normalise (k : KERNEL_PARM) (l : LEARN_PARM) : LEARN_PARM :=
  let l1 : LEARN_PARM :=
    if l.svm_iter_to_shrink = -9999 then
      { l with svm_iter_to_shrink := if k.kernel_type = LINEAR then 2 else 100 }
    else l
  if l1.skip_final_opt_check ≠ 0 ∧ k.kernel_type = LINEAR then
    { l1 with skip_final_opt_check := 0 }
  else l1

/-- The rejecting rules 3 to 12 of the specification. -/
inductive Rule where
  | skip_and_remove
  | qp_size
  | qp_newvars
  | shrink
  | cost_c
  | pos_fraction
  | cost_factor
  | epsilon
  | rho
  | xa_depth
deriving DecidableEq, Repr

/-- The number of a rule in the specification's list. -/
def Rule.number : Rule → Nat
  | .skip_and_remove => 3
  | .qp_size => 4
  | .qp_newvars => 5
  | .shrink => 6
  | .cost_c => 7
  | .pos_fraction => 8
  | .cost_factor => 9
  | .epsilon => 10
  | .rho => 11
  | .xa_depth => 12

/-- Whether a learning configuration breaks a rule, in the specification's
words. -/
def Rule.violated : Rule → LEARN_PARM → Bool
  | .skip_and_remove, l => decide (l.skip_final_opt_check ≠ 0 ∧ l.remove_inconsistent ≠ 0)
  | .qp_size, l => decide (l.svm_maxqpsize < 2)
  | .qp_newvars, l => decide (l.svm_maxqpsize < l.svm_newvarsinqp)
  | .shrink, l => decide (l.svm_iter_to_shrink < 1)
  | .cost_c, l => Dbl.lt l.svm_c (Dbl.fin 0)
  | .pos_fraction, l => Dbl.gt l.transduction_posratio (Dbl.fin 1)
  | .cost_factor, l => Dbl.le l.svm_costratio (Dbl.fin 0)
  | .epsilon, l => Dbl.le l.epsilon_crit (Dbl.fin 0)
  | .rho, l => Dbl.lt l.rho (Dbl.fin 0)
  | .xa_depth, l => decide (l.xa_depth < 0 ∨ 100 < l.xa_depth)

/-- The message with which a rule is rejected (`lit` as in
`check_kernel_and_learn_params_logic`). -/
def Rule.message (lit : Int) : Rule → LEARN_PARM → String
  | .skip_and_remove, _ =>
    "It is necessary to do the final optimality check when removing inconsistent examples."
  | .qp_size, l =>
    "Maximum size of QP-subproblems " ++ "not in valid range: " ++ toString l.svm_maxqpsize ++
      " [2..]"
  | .qp_newvars, _ =>
    "Maximum size of QP-subproblems [" ++ toString lit ++ "] must be larger than the number of"
  | .shrink, l =>
    "Maximum number of iterations for shrinking not" ++ " in valid range: " ++
      toString l.svm_iter_to_shrink ++ " [1,..]"
  | .cost_c, _ => "The C parameter must be greater than zero"
  | .pos_fraction, _ =>
    "The fraction of unlabeled examples to classify as positives mustbe less than 1.0"
  | .cost_factor, _ => "The COSTRATIO parameter must be greater than zero"
  | .epsilon, _ => "The epsilon parameter must be greater than zero"
  | .rho, _ =>
    "The parameter rho for xi/alpha-estimates and leave-one-out pruning mustbe greater than zero (typically 1.0 or 2.0, see T. Joachims, Estimating theGeneralization Performance of an SVM Efficiently, ICML, 2000.)!"
  | .xa_depth, _ =>
    "The parameter depth for ext. xi/alpha-estimates must be in [0..100] (zero) for switching to the conventional xa/estimates described in T. Joachims,Estimating the Generalization Performance of an SVM Efficiently, ICML, 2000.)"

/-- The rejecting rules in the order of the specification. -/
def rejecting_rules : List Rule :=
  [.skip_and_remove, .qp_size, .qp_newvars, .shrink, .cost_c, .pos_fraction, .cost_factor,
   .epsilon, .rho, .xa_depth]

/-- The first rule of the list that a configuration breaks, if any. -/
def first_violated (l : LEARN_PARM) : Option Rule :=
  rejecting_rules.find? fun r => r.violated l

/-! ## The per-field contract in table form -/

/-- The type an option is expected to have. -/
inductive FieldKind where
  | string
  | numeric
  | boolean
deriving DecidableEq, Repr

/-- A value passes for an option when it is `nil` or of the expected type
(Float or Fixnum for a numeric option, `true` or `false` for a boolean one). -/
def FieldKind.accepts : FieldKind → VALUE → Bool
  | _, .Qnil => true
  | .string, .string _ => true
  | .numeric, .float _ _ => true
  | .numeric, .fixnum _ => true
  | .boolean, .Qtrue => true
  | .boolean, .Qfalse => true
  | _, _ => false

/-- How the error message words the expected type. -/
def FieldKind.expected : FieldKind → String
  | .string => "a string"
  | .numeric => "a numeric"
  | .boolean => "a true or false"

/-- The message of a type error: the offending option and the expected type. -/
def type_error_message (name : String) (kind : FieldKind) : String :=
  "The value of the learning option '" ++ name ++ "' must be " ++ kind.expected

/-- The learning options in validation order, each with its expected type. -/
def learn_fields : List (String × FieldKind) :=
  [("predfile", .string), ("alphafile", .string), ("biased_hyperplane", .boolean),
   ("sharedslack", .boolean), ("remove_inconsistent", .boolean), ("skip_final_opt_check", .boolean),
   ("svm_newvarsinqp", .boolean), ("compute_loo", .boolean), ("svm_maxqpsize", .numeric),
   ("svm_iter_to_shrink", .numeric), ("maxiter", .numeric), ("kernel_cache_size", .numeric),
   ("xa_depth", .numeric), ("svm_c", .numeric), ("eps", .numeric),
   ("transduction_posratio", .numeric), ("svm_costratio", .numeric), ("svm_costratio_unlab", .numeric),
   ("svm_unlabbound", .numeric), ("epsilon_crit", .numeric), ("epsilon_a", .numeric),
   ("rho", .numeric)]

/-- The kernel options in validation order, each with its expected type. -/
def kernel_fields : List (String × FieldKind) :=
  [("poly_degree", .numeric), ("rbf_gamma", .numeric),
   ("coef_lin", .numeric), ("coef_const", .numeric)]

/-- The first option of the list whose value in the hash does not pass. -/
def first_bad (fields : List (String × FieldKind)) (h : Hash) : Option (String × FieldKind) :=
  fields.find? fun f => !f.2.accepts (rb_hash_aref h f.1)

/-- The options that validation looks at: those up to and including the first
one whose value does not pass. -/
def examined : List (String × FieldKind) → Hash → List String
  | [], _ => []
  | f :: rest, h =>
    if f.2.accepts (rb_hash_aref h f.1) then f.1 :: examined rest h else [f.1]

/-- One step of a setup function: the option looked up, and the check with the
store of its result. -/
abbrev Step (σ : Type) := String × (VALUE → σ → String → Int × σ × String)

/-- Steps run one after the other, stopping at the first that returns 1. -/
def run_steps {σ : Type} : List (Step σ) → σ → Hash → String → Int × σ × String
  | [], c, _, e => (0, c, e)
  | st :: rest, c, h, e =>
    let r := st.2 (rb_hash_aref h st.1) c e
    if r.1 = 1 then (1, r.2.1, r.2.2) else run_steps rest r.2.1 h r.2.2

/-- The steps of `setup_learn_params`. -/
def learn_steps : List (Step LEARN_PARM) :=
  [("predfile", fun v c e =>
      let chk := check_string_param v "trans_predictions" c.predfile "predfile" e
      (chk.1, { c with predfile := chk.2.1 }, chk.2.2)),
   ("alphafile", fun v c e =>
      let chk := check_string_param v "" c.alphafile "alphafile" e
      (chk.1, { c with alphafile := chk.2.1 }, chk.2.2)),
   ("biased_hyperplane", fun v c e =>
      let chk := check_bool_param v 1 c.biased_hyperplane "biased_hyperplane" e
      (chk.1, { c with biased_hyperplane := chk.2.1 }, chk.2.2)),
   ("sharedslack", fun v c e =>
      let chk := check_bool_param v 0 c.sharedslack "sharedslack" e
      (chk.1, { c with sharedslack := chk.2.1 }, chk.2.2)),
   ("remove_inconsistent", fun v c e =>
      let chk := check_bool_param v 0 c.remove_inconsistent "remove_inconsistent" e
      (chk.1, { c with remove_inconsistent := chk.2.1 }, chk.2.2)),
   ("skip_final_opt_check", fun v c e =>
      let chk := check_bool_param v 0 c.skip_final_opt_check "skip_final_opt_check" e
      (chk.1, { c with skip_final_opt_check := chk.2.1 }, chk.2.2)),
   ("svm_newvarsinqp", fun v c e =>
      let chk := check_bool_param v 0 c.svm_newvarsinqp "svm_newvarsinqp" e
      (chk.1, { c with svm_newvarsinqp := chk.2.1 }, chk.2.2)),
   ("compute_loo", fun v c e =>
      let chk := check_bool_param v 0 c.compute_loo "compute_loo" e
      (chk.1, { c with compute_loo := chk.2.1 }, chk.2.2)),
   ("svm_maxqpsize", fun v c e =>
      let chk := check_long_param v 10 c.svm_maxqpsize "svm_maxqpsize" e
      (chk.1, { c with svm_maxqpsize := chk.2.1 }, chk.2.2)),
   ("svm_iter_to_shrink", fun v c e =>
      let chk := check_long_param v (-9999) c.svm_iter_to_shrink "svm_iter_to_shrink" e
      (chk.1, { c with svm_iter_to_shrink := chk.2.1 }, chk.2.2)),
   ("maxiter", fun v c e =>
      let chk := check_long_param v 100000 c.maxiter "maxiter" e
      (chk.1, { c with maxiter := chk.2.1 }, chk.2.2)),
   ("kernel_cache_size", fun v c e =>
      let chk := check_long_param v 40 c.kernel_cache_size "kernel_cache_size" e
      (chk.1, { c with kernel_cache_size := chk.2.1 }, chk.2.2)),
   ("xa_depth", fun v c e =>
      let chk := check_long_param v 0 c.xa_depth "xa_depth" e
      (chk.1, { c with xa_depth := chk.2.1 }, chk.2.2)),
   ("svm_c", fun v c e =>
      let chk := check_double_param v (Dbl.dec 0 0) c.svm_c "svm_c" e
      (chk.1, { c with svm_c := chk.2.1 }, chk.2.2)),
   ("eps", fun v c e =>
      let chk := check_double_param v (Dbl.dec 1 (-1)) c.eps "eps" e
      (chk.1, { c with eps := chk.2.1 }, chk.2.2)),
   ("transduction_posratio", fun v c e =>
      let chk := check_double_param v (Dbl.dec (-1) 0) c.transduction_posratio "transduction_posratio" e
      (chk.1, { c with transduction_posratio := chk.2.1 }, chk.2.2)),
   ("svm_costratio", fun v c e =>
      let chk := check_double_param v (Dbl.dec 1 0) c.svm_costratio "svm_costratio" e
      (chk.1, { c with svm_costratio := chk.2.1 }, chk.2.2)),
   ("svm_costratio_unlab", fun v c e =>
      let chk := check_double_param v (Dbl.dec 1 0) c.svm_costratio_unlab "svm_costratio_unlab" e
      (chk.1, { c with svm_costratio_unlab := chk.2.1 }, chk.2.2)),
   ("svm_unlabbound", fun v c e =>
      let chk := check_double_param v (Dbl.dec 10000000000000001 (-21)) c.svm_unlabbound "svm_unlabbound" e
      (chk.1, { c with svm_unlabbound := chk.2.1 }, chk.2.2)),
   ("epsilon_crit", fun v c e =>
      let chk := check_double_param v (Dbl.dec 1 (-3)) c.epsilon_crit "epsilon_crit" e
      (chk.1, { c with epsilon_crit := chk.2.1 }, chk.2.2)),
   ("epsilon_a", fun v c e =>
      let chk := check_double_param v (Dbl.dec 1 (-15)) c.epsilon_a "epsilon_a" e
      (chk.1, { c with epsilon_a := chk.2.1 }, chk.2.2)),
   ("rho", fun v c e =>
      let c : LEARN_PARM := { c with rho := Dbl.dec 1 0 }
      let chk := check_double_param v (Dbl.dec 1 0) c.rho "rho" e
      (chk.1, { c with rho := chk.2.1 }, chk.2.2))]

/-- The steps of `setup_kernel_params` (the final store of `custom` apart). -/
def kernel_steps : List (Step KERNEL_PARM) :=
  [("poly_degree", fun v c e =>
      let chk := check_long_param v 3 c.poly_degree "poly_degree" e
      (chk.1, { c with poly_degree := chk.2.1 }, chk.2.2)),
   ("rbf_gamma", fun v c e =>
      let chk := check_double_param v (Dbl.dec 1 0) c.rbf_gamma "rbf_gamma" e
      (chk.1, { c with rbf_gamma := chk.2.1 }, chk.2.2)),
   ("coef_lin", fun v c e =>
      let chk := check_double_param v (Dbl.dec 1 0) c.coef_lin "coef_lin" e
      (chk.1, { c with coef_lin := chk.2.1 }, chk.2.2)),
   ("coef_const", fun v c e =>
      let chk := check_double_param v (Dbl.dec 1 0) c.coef_const "coef_const" e
      (chk.1, { c with coef_const := chk.2.1 }, chk.2.2))]

/-- A step implements the contract of an option: it looks up that option,
returns 0 and leaves the message alone when the value passes, and returns 1
with the type error message when it does not. -/
def StepOk {σ : Type} (st : Step σ) (f : String × FieldKind) : Prop :=
  st.1 = f.1 ∧ ∀ v c e,
    (f.2.accepts v = true → (st.2 v c e).1 = 0 ∧ (st.2 v c e).2.2 = e) ∧
    (f.2.accepts v = false →
      (st.2 v c e).1 = 1 ∧ (st.2 v c e).2.2 = type_error_message f.1 f.2)

/-- The string an accepted value leaves in a string option. -/
def coerce_string (v : VALUE) (default_val : String) : String :=
  match v with
  | .string s => strlcpy s 199
  | _ => strlcpy default_val 199

/-- The number an accepted value leaves in an integer option. -/
def coerce_long (v : VALUE) (default_val : Int) : Int :=
  match v with
  | .fixnum n => FIX2LONG (INT2FIX n)
  | .float _ word => FIX2LONG word
  | _ => default_val

/-- The number an accepted value leaves in a real option. -/
def coerce_double (v : VALUE) (default_val : Dbl) : Dbl :=
  match v with
  | .float x _ => x
  | .fixnum n => long_to_double n
  | _ => default_val

/-- The number an accepted value leaves in a boolean option. -/
def coerce_bool (v : VALUE) (default_val : Int) : Int :=
  match v with
  | .Qtrue => 1
  | .Qfalse => 0
  | _ => default_val

/-- The learning configuration that the option hash describes: each option
coerced from its value, or at its default when the value is `nil`. -/
def learn_of_hash (type : Int) (h : Hash) : LEARN_PARM :=
  { type := type
    predfile := coerce_string (rb_hash_aref h "predfile") "trans_predictions"
    alphafile := coerce_string (rb_hash_aref h "alphafile") ""
    biased_hyperplane := coerce_bool (rb_hash_aref h "biased_hyperplane") 1
    sharedslack := coerce_bool (rb_hash_aref h "sharedslack") 0
    remove_inconsistent := coerce_bool (rb_hash_aref h "remove_inconsistent") 0
    skip_final_opt_check := coerce_bool (rb_hash_aref h "skip_final_opt_check") 0
    svm_newvarsinqp := coerce_bool (rb_hash_aref h "svm_newvarsinqp") 0
    compute_loo := coerce_bool (rb_hash_aref h "compute_loo") 0
    svm_maxqpsize := coerce_long (rb_hash_aref h "svm_maxqpsize") 10
    svm_iter_to_shrink := coerce_long (rb_hash_aref h "svm_iter_to_shrink") (-9999)
    maxiter := coerce_long (rb_hash_aref h "maxiter") 100000
    kernel_cache_size := coerce_long (rb_hash_aref h "kernel_cache_size") 40
    xa_depth := coerce_long (rb_hash_aref h "xa_depth") 0
    svm_c := coerce_double (rb_hash_aref h "svm_c") (Dbl.dec 0 0)
    eps := coerce_double (rb_hash_aref h "eps") (Dbl.dec 1 (-1))
    transduction_posratio := coerce_double (rb_hash_aref h "transduction_posratio") (Dbl.dec (-1) 0)
    svm_costratio := coerce_double (rb_hash_aref h "svm_costratio") (Dbl.dec 1 0)
    svm_costratio_unlab := coerce_double (rb_hash_aref h "svm_costratio_unlab") (Dbl.dec 1 0)
    svm_unlabbound := coerce_double (rb_hash_aref h "svm_unlabbound") (Dbl.dec 10000000000000001 (-21))
    epsilon_crit := coerce_double (rb_hash_aref h "epsilon_crit") (Dbl.dec 1 (-3))
    epsilon_a := coerce_double (rb_hash_aref h "epsilon_a") (Dbl.dec 1 (-15))
    rho := coerce_double (rb_hash_aref h "rho") (Dbl.dec 1 0) }

/-- The kernel configuration that the option hash describes. -/
def kernel_of_hash (kernel_type : Int) (h : Hash) : KERNEL_PARM :=
  { kernel_type := kernel_type
    poly_degree := coerce_long (rb_hash_aref h "poly_degree") 3
    rbf_gamma := coerce_double (rb_hash_aref h "rbf_gamma") (Dbl.dec 1 0)
    coef_lin := coerce_double (rb_hash_aref h "coef_lin") (Dbl.dec 1 0)
    coef_const := coerce_double (rb_hash_aref h "coef_const") (Dbl.dec 1 0)
    custom := strlcpy "empty" 49 }

/-! ## Feature lists as the caller writes them -/

/-- A Float or a Fixnum. -/
def is_numeric : VALUE → Bool
  | .float _ _ => true
  | .fixnum _ => true
  | _ => false

/-- An entry on which the loop of `doc_create` reads a slot that the entry
does not have: the empty Array, or a one-element Array holding a Fixnum. -/
def reads_past_end : VALUE → Bool
  | .array [] => true
  | .array [.fixnum _] => true
  | _ => false

/-- An entry `[n, weight, ...]` whose feature number `n` is a Fixnum that is
not positive. -/
def entry_bad_index : VALUE → Bool
  | .array (.fixnum n :: _ :: _) => decide (n ≤ 0)
  | _ => false

/-- An entry `[index, weight, ...]` whose weight is neither a Float nor a
Fixnum. -/
def entry_bad_weight : VALUE → Bool
  | .array (_ :: b :: _) => !is_numeric b
  | _ => false

/-- An entry that is an Array whose first slot holds a Fixnum. -/
def entry_has_index : VALUE → Bool
  | .array (.fixnum _ :: _) => true
  | _ => false

/-- The feature number of an entry `[n, weight, ...]`. -/
def entry_index : VALUE → Int
  | .array (.fixnum n :: _) => n
  | _ => 0

/-- The weight of an entry `[n, weight, ...]` as a double. -/
def entry_weight : VALUE → Dbl
  | .array (_ :: .float x _ :: _) => x
  | .array (_ :: .fixnum w :: _) => long_to_double w
  | _ => Dbl.nan

/-- The word that an entry `[n, weight, ...]` describes. -/
def entry_word (w : VALUE) : WORD :=
  { wnum := entry_index w, weight := FVAL (entry_weight w) }

/-! ## Training sets as the caller writes them -/

/-- A Fixnum as Ruby has them with a 64-bit `long`: 63 bits. -/
def FIXABLE (n : Int) : Prop :=
  -2 ^ 62 ≤ n ∧ n < 2 ^ 62

/-- A document that some call of `doc_create` has built. -/
def produced_by_doc_create (d : DOC) : Prop :=
  ∃ (id cost slackid queryid words_ary : VALUE) (junk : Dbl),
    doc_create id cost slackid queryid words_ary junk = .ok d

/-- An example `[document, label, ...]`: an Array whose first element is a
Document and whose second element is a Float or a Fixnum. -/
def example_ok : VALUE → Bool
  | .array (.document _ :: b :: _) => is_numeric b
  | _ => false

/-- The label of an example `[document, label, ...]` as a double. -/
def example_label : VALUE → Dbl
  | .array (_ :: .float x _ :: _) => x
  | .array (_ :: .fixnum n :: _) => long_to_double n
  | _ => Dbl.nan

/-- The documents of the examples `[document, label, ...]`. -/
def example_docs : List VALUE → List DOC
  | [] => []
  | .array (.document d :: _) :: rest => d :: example_docs rest
  | _ :: rest => example_docs rest

/-- The feature numbers stored in a document, the sentinel left out. -/
def doc_indices (d : DOC) : List Int :=
  d.fvec.words.dropLast.map WORD.wnum

/-- The largest feature number stored in any of the documents (0 when there
is none). -/
def max_index (docs : List DOC) : Int :=
  (docs.map fun d => (doc_indices d).foldl max 0).foldl max 0

/-- The feature number of the last feature of a document, the one before the
sentinel (0 when the document has no feature). -/
def last_index (d : DOC) : Int :=
  match (doc_indices d).getLast? with
  | some i => i
  | none => 0

/-- The largest of the last feature numbers of the documents and `start`:
the running maximum that the loop over the examples keeps. -/
def max_last_index (docs : List DOC) (start : Int) : Int :=
  (docs.map last_index).foldl max start

/-- A warm-start argument that passes the first stage: `nil`, or an Array of
Floats and Fixnums. -/
def alpha_ok (alpha : VALUE) : Prop :=
  alpha = .Qnil ∨ ∃ elems xs, alpha = .array elems ∧ alpha_values elems = some xs

/-- Option hashes that pass the three configuration stages of
`model_learn_classification`: both setup functions and the cross-field
checks return 0. -/
def params_ok (lit : Int) (c : LEARN_PARM) (kc : KERNEL_PARM) (e : String) (lh kh : Hash) :
    Prop :=
  (setup_learn_params c lh e).1 = 0 ∧
  (setup_kernel_params kc kh (setup_learn_params c lh e).2.2).1 = 0 ∧
  (check_kernel_and_learn_params_logic lit
    { (setup_kernel_params kc kh (setup_learn_params c lh e).2.2).2.1 with
      kernel_type := LINEAR }
    { (setup_learn_params c lh e).2.1 with type := CLASSIFICATION }
    (setup_kernel_params kc kh (setup_learn_params c lh e).2.2).2.2).1 = 0

/-- The message for an example that is not `[document, number, ...]`. -/
def invalid_label_message : String :=
  "All elements of documents and labels should be arrays,where the first element is a document and the second a number"

/-- The message for a feature number beyond `MAXFEATNUM`. -/
def feature_overflow_message : String :=
  "The number of features exceeds MAXFEATNUM the maximun number of features defined for this version of SVMLight"

/-! ## The documented defaults -/

/-- The learning configuration with every option at its documented default
(`type` is not an option; it is whatever the structure held). -/
def default_learn_parm (type : Int) : LEARN_PARM :=
  { type := type
    predfile := "trans_predictions"
    alphafile := ""
    biased_hyperplane := 1
    sharedslack := 0
    remove_inconsistent := 0
    skip_final_opt_check := 0
    svm_newvarsinqp := 0
    compute_loo := 0
    svm_maxqpsize := 10
    svm_iter_to_shrink := -9999
    maxiter := 100000
    kernel_cache_size := 40
    xa_depth := 0
    svm_c := Dbl.dec 0 0
    eps := Dbl.dec 1 (-1)
    transduction_posratio := Dbl.dec (-1) 0
    svm_costratio := Dbl.dec 1 0
    svm_costratio_unlab := Dbl.dec 1 0
    svm_unlabbound := Dbl.dec 1 (-5)
    epsilon_crit := Dbl.dec 1 (-3)
    epsilon_a := Dbl.dec 1 (-15)
    rho := Dbl.dec 1 0 }

/-- The kernel configuration with every option at its documented default
(`kernel_type` is not an option; it is whatever the structure held). -/
def default_kernel_parm (kernel_type : Int) : KERNEL_PARM :=
  { kernel_type := kernel_type
    poly_degree := 3
    rbf_gamma := Dbl.dec 1 0
    coef_lin := Dbl.dec 1 0
    coef_const := Dbl.dec 1 0
    custom := "empty" }

/-- A validation result that is a failure with the given message. -/
def rejects_with {α : Type} (res : Int × α × String) (msg : String) : Prop :=
  res.1 = 1 ∧ res.2.2 = msg

/-! ## Sample inputs -/

/-- The document with the single feature `1:1.0`, as `doc_create` builds it. -/
def sample_doc : DOC :=
  { docnum := 1, queryid := 0, slackid := 0, costfactor := Dbl.fin 1,
    fvec := { words := [{ wnum := 1, weight := Dbl.fin 1 }, { wnum := 0, weight := Dbl.nan }],
              userdefined := "", factor := Dbl.fin 1 } }

/-- A training set of one example: `sample_doc` with label 1. -/
def sample_examples : VALUE :=
  .array [.array [.document sample_doc, .fixnum 1]]

/-- A feature list that is not in ascending order: `[[2, 1], [1, 1]]`. -/
def unsorted_features : VALUE :=
  .array [.array [.fixnum 2, .fixnum 1], .array [.fixnum 1, .fixnum 1]]

/-- The solver call that training on `sample_examples` with empty option
hashes leads to. -/
def sample_call : SolverCall :=
  { docs := [sample_doc], labels := [Dbl.fin 1], totdocs := 1, totwords := 1,
    learn_parm := { (default_learn_parm CLASSIFICATION) with svm_iter_to_shrink := 2 },
    kernel_parm := default_kernel_parm LINEAR, alpha_in := none }

/-- The document that `doc_create` builds from `unsorted_features`. -/
def unsorted_doc : DOC :=
  { docnum := 1, queryid := 0, slackid := 0, costfactor := Dbl.fin 1,
    fvec := { words := [{ wnum := 2, weight := Dbl.fin 1 }, { wnum := 1, weight := Dbl.fin 1 },
                        { wnum := 0, weight := Dbl.nan }],
              userdefined := "", factor := Dbl.fin 1 } }

/-- A feature list whose first feature number is 100000000, one more than
SVMLight's `MAXFEATNUM` of 99999999, and whose last is 1. -/
def wide_features : VALUE :=
  .array [.array [.fixnum 100000000, .fixnum 1], .array [.fixnum 1, .fixnum 1]]

/-- The document that `doc_create` builds from `wide_features`. -/
def wide_doc : DOC :=
  { docnum := 1, queryid := 0, slackid := 0, costfactor := Dbl.fin 1,
    fvec := { words := [{ wnum := 100000000, weight := Dbl.fin 1 },
                        { wnum := 1, weight := Dbl.fin 1 }, { wnum := 0, weight := Dbl.nan }],
              userdefined := "", factor := Dbl.fin 1 } }

/-- The document with the single feature `100000000:1.0`, whose feature
number is one more than SVMLight's `MAXFEATNUM` of 99999999. -/
def far_doc : DOC :=
  { docnum := 1, queryid := 0, slackid := 0, costfactor := Dbl.fin 1,
    fvec := { words := [{ wnum := 100000000, weight := Dbl.fin 1 },
                        { wnum := 0, weight := Dbl.nan }],
              userdefined := "", factor := Dbl.fin 1 } }

/-- A learning hash that gives `Float::NAN` for the option `svm_c`; the word
is the address of the Float object. -/
def nan_hash : Hash :=
  [("svm_c", .float Dbl.nan 0x00007f0000001000)]

/-- A linear model as `read_model` may return it. -/
def sample_model : MODEL :=
  { kernel_parm := default_kernel_parm LINEAR, sv_num := 2, totwords := 1, totdoc := 1,
    maxdiff := Dbl.fin 0 }

/-! ## Theorems: the cross-field checks -/

/-- The first two steps of `check_kernel_and_learn_params_logic` are rules 1
and 2, and what follows is the first broken rule of the list. -/
theorem check_logic_eq (lit : Int) (k : KERNEL_PARM) (l : LEARN_PARM) (e : String) :
    check_kernel_and_learn_params_logic lit k l e =
      match first_violated (derive_and_normalise k l) with
      | some r => (1, derive_and_normalise k l, r.message lit (derive_and_normalise k l))
      | none => (0, derive_and_normalise k l, e) := by
  unfold check_kernel_and_learn_params_logic
  lift_lets
  extract_lets c1 c2
  have h2 : c2 = derive_and_normalise k l := by
    simp only [c2, c1, derive_and_normalise]
    split_ifs <;> rfl
  clear_value c2
  subst h2
  generalize derive_and_normalise k l = c
  simp only [first_violated, rejecting_rules, List.find?, Rule.violated, gt_iff_lt]
  by_cases h3 : c.skip_final_opt_check ≠ 0 ∧ c.remove_inconsistent ≠ 0
  · rw [if_pos h3, decide_eq_true h3]; rfl
  rw [if_neg h3, decide_eq_false h3]
  by_cases h4 : c.svm_maxqpsize < 2
  · rw [if_pos h4, decide_eq_true h4]; rfl
  rw [if_neg h4, decide_eq_false h4]
  by_cases h5 : c.svm_maxqpsize < c.svm_newvarsinqp
  · rw [if_pos h5, decide_eq_true h5]; rfl
  rw [if_neg h5, decide_eq_false h5]
  by_cases h6 : c.svm_iter_to_shrink < 1
  · rw [if_pos h6, decide_eq_true h6]; rfl
  rw [if_neg h6, decide_eq_false h6]
  by_cases h7 : c.svm_c.lt (Dbl.fin 0) = true
  · rw [if_pos h7, h7]; rfl
  rw [if_neg h7, Bool.eq_false_iff.mpr h7]
  by_cases h8 : c.transduction_posratio.gt (Dbl.fin 1) = true
  · rw [if_pos h8, h8]; rfl
  rw [if_neg h8, Bool.eq_false_iff.mpr h8]
  by_cases h9 : c.svm_costratio.le (Dbl.fin 0) = true
  · rw [if_pos h9, h9]; rfl
  rw [if_neg h9, Bool.eq_false_iff.mpr h9]
  by_cases h10 : c.epsilon_crit.le (Dbl.fin 0) = true
  · rw [if_pos h10, h10]; rfl
  rw [if_neg h10, Bool.eq_false_iff.mpr h10]
  by_cases h11 : c.rho.lt (Dbl.fin 0) = true
  · rw [if_pos h11, h11]; rfl
  rw [if_neg h11, Bool.eq_false_iff.mpr h11]
  by_cases h12 : c.xa_depth < 0 ∨ c.xa_depth > 100
  · rw [if_pos h12, decide_eq_true h12]; rfl
  rw [if_neg h12, decide_eq_false h12]

/-- A broken rule all of whose predecessors hold is the first broken rule. -/
theorem first_violated_of_least (c : LEARN_PARM) (r : Rule) (hr : r.violated c = true)
    (hmin : ∀ r' : Rule, r'.number < r.number → r'.violated c = false) :
    first_violated c = some r := by
  unfold first_violated rejecting_rules
  cases r
  · simp only [List.find?]; rw [hr]
  · simp only [List.find?]; rw [hmin .skip_and_remove (by decide), hr]
  · simp only [List.find?]; rw [hmin .skip_and_remove (by decide), hmin .qp_size (by decide), hr]
  · simp only [List.find?]; rw [hmin .skip_and_remove (by decide), hmin .qp_size (by decide), hmin .qp_newvars (by decide), hr]
  · simp only [List.find?]; rw [hmin .skip_and_remove (by decide), hmin .qp_size (by decide), hmin .qp_newvars (by decide), hmin .shrink (by decide), hr]
  · simp only [List.find?]; rw [hmin .skip_and_remove (by decide), hmin .qp_size (by decide), hmin .qp_newvars (by decide), hmin .shrink (by decide), hmin .cost_c (by decide), hr]
  · simp only [List.find?]; rw [hmin .skip_and_remove (by decide), hmin .qp_size (by decide), hmin .qp_newvars (by decide), hmin .shrink (by decide), hmin .cost_c (by decide), hmin .pos_fraction (by decide), hr]
  · simp only [List.find?]; rw [hmin .skip_and_remove (by decide), hmin .qp_size (by decide), hmin .qp_newvars (by decide), hmin .shrink (by decide), hmin .cost_c (by decide), hmin .pos_fraction (by decide), hmin .cost_factor (by decide), hr]
  · simp only [List.find?]; rw [hmin .skip_and_remove (by decide), hmin .qp_size (by decide), hmin .qp_newvars (by decide), hmin .shrink (by decide), hmin .cost_c (by decide), hmin .pos_fraction (by decide), hmin .cost_factor (by decide), hmin .epsilon (by decide), hr]
  · simp only [List.find?]; rw [hmin .skip_and_remove (by decide), hmin .qp_size (by decide), hmin .qp_newvars (by decide), hmin .shrink (by decide), hmin .cost_c (by decide), hmin .pos_fraction (by decide), hmin .cost_factor (by decide), hmin .epsilon (by decide), hmin .rho (by decide), hr]

theorem derive_and_normalise_fields (k : KERNEL_PARM) (l : LEARN_PARM) :
    derive_and_normalise k l =
      { l with
        svm_iter_to_shrink :=
          if l.svm_iter_to_shrink = -9999 then (if k.kernel_type = LINEAR then 2 else 100)
          else l.svm_iter_to_shrink
        skip_final_opt_check :=
          if k.kernel_type = LINEAR then 0 else l.skip_final_opt_check } := by
  cases l
  unfold derive_and_normalise
  dsimp only
  split_ifs <;> simp_all

theorem check_logic_state (lit : Int) (k : KERNEL_PARM) (l : LEARN_PARM) (e : String) :
    (check_kernel_and_learn_params_logic lit k l e).2.1 = derive_and_normalise k l := by
  rw [check_logic_eq]
  cases first_violated (derive_and_normalise k l) <;> rfl

theorem check_logic_result (lit : Int) (k : KERNEL_PARM) (l : LEARN_PARM) (e : String) :
    (check_kernel_and_learn_params_logic lit k l e).1 =
      if first_violated (derive_and_normalise k l) = none then 0 else 1 := by
  rw [check_logic_eq]
  cases first_violated (derive_and_normalise k l) <;> rfl

theorem first_violated_none_iff (c : LEARN_PARM) :
    first_violated c = none ↔ ∀ r : Rule, r.violated c = false := by
  unfold first_violated
  rw [List.find?_eq_none]
  constructor
  · intro h r
    have := h r (by cases r <;> simp [rejecting_rules])
    simpa using this
  · intro h r _
    simp [h r]

/-- C1. `check_kernel_and_learn_params_logic` accepts exactly the valid
configurations. Rules 1 and 2 turn the configuration given into the one
returned: the shrinking threshold is derived when it is unset (-9999) and the
skip flag is cleared under a linear kernel, every other field is kept. The
result is 0 exactly when none of the ten rejecting conditions holds of that
configuration, read here on the fields of the configuration given, and 1
otherwise. The boundary values `svm_c = 0`, `rho = 0`,
`transduction_posratio = 1`, `xa_depth = 0` and `xa_depth = 100` pass: putting
them into an accepted configuration leaves it accepted. -/
theorem check_logic_accepts_iff (lit : Int) (k : KERNEL_PARM) (l : LEARN_PARM) (e : String) :
    (check_kernel_and_learn_params_logic lit k l e).2.1 =
      { l with
        svm_iter_to_shrink :=
          if l.svm_iter_to_shrink = -9999 then (if k.kernel_type = LINEAR then 2 else 100)
          else l.svm_iter_to_shrink
        skip_final_opt_check :=
          if k.kernel_type = LINEAR then 0 else l.skip_final_opt_check } ∧
    ((check_kernel_and_learn_params_logic lit k l e).1 = 0 ↔
      ¬ ((if k.kernel_type = LINEAR then 0 else l.skip_final_opt_check) ≠ 0 ∧
          l.remove_inconsistent ≠ 0) ∧
      ¬ l.svm_maxqpsize < 2 ∧
      ¬ l.svm_maxqpsize < l.svm_newvarsinqp ∧
      ¬ (if l.svm_iter_to_shrink = -9999 then (if k.kernel_type = LINEAR then 2 else 100)
          else l.svm_iter_to_shrink) < 1 ∧
      Dbl.lt l.svm_c (Dbl.fin 0) = false ∧
      Dbl.gt l.transduction_posratio (Dbl.fin 1) = false ∧
      Dbl.le l.svm_costratio (Dbl.fin 0) = false ∧
      Dbl.le l.epsilon_crit (Dbl.fin 0) = false ∧
      Dbl.lt l.rho (Dbl.fin 0) = false ∧
      ¬ (l.xa_depth < 0 ∨ l.xa_depth > 100)) ∧
    ((check_kernel_and_learn_params_logic lit k l e).1 = 0 ↔
      ¬ ((check_kernel_and_learn_params_logic lit k l e).2.1.skip_final_opt_check ≠ 0 ∧
          (check_kernel_and_learn_params_logic lit k l e).2.1.remove_inconsistent ≠ 0) ∧
      ¬ (check_kernel_and_learn_params_logic lit k l e).2.1.svm_maxqpsize < 2 ∧
      ¬ (check_kernel_and_learn_params_logic lit k l e).2.1.svm_maxqpsize <
          (check_kernel_and_learn_params_logic lit k l e).2.1.svm_newvarsinqp ∧
      ¬ (check_kernel_and_learn_params_logic lit k l e).2.1.svm_iter_to_shrink < 1 ∧
      Dbl.lt (check_kernel_and_learn_params_logic lit k l e).2.1.svm_c (Dbl.fin 0) = false ∧
      Dbl.gt (check_kernel_and_learn_params_logic lit k l e).2.1.transduction_posratio
          (Dbl.fin 1) = false ∧
      Dbl.le (check_kernel_and_learn_params_logic lit k l e).2.1.svm_costratio (Dbl.fin 0) = false ∧
      Dbl.le (check_kernel_and_learn_params_logic lit k l e).2.1.epsilon_crit (Dbl.fin 0) = false ∧
      Dbl.lt (check_kernel_and_learn_params_logic lit k l e).2.1.rho (Dbl.fin 0) = false ∧
      ¬ ((check_kernel_and_learn_params_logic lit k l e).2.1.xa_depth < 0 ∨
          (check_kernel_and_learn_params_logic lit k l e).2.1.xa_depth > 100)) ∧
    ((check_kernel_and_learn_params_logic lit k l e).1 = 0 ∨
      (check_kernel_and_learn_params_logic lit k l e).1 = 1) ∧
    ((check_kernel_and_learn_params_logic lit k l e).1 = 0 →
      ∀ depth : Int, depth = 0 ∨ depth = 100 →
        (check_kernel_and_learn_params_logic lit k
          { l with
            svm_c := Dbl.fin 0, rho := Dbl.fin 0, transduction_posratio := Dbl.fin 1,
            xa_depth := depth } e).1 = 0) := by
  have key : ∀ l' : LEARN_PARM, (check_kernel_and_learn_params_logic lit k l' e).1 = 0 ↔
      ∀ r : Rule, r.violated (derive_and_normalise k l') = false := by
    intro l'
    rw [check_logic_result, ← first_violated_none_iff]
    split_ifs with h <;> simp [h]
  have rules : ∀ c : LEARN_PARM, (∀ r : Rule, r.violated c = false) ↔
      ¬ (c.skip_final_opt_check ≠ 0 ∧ c.remove_inconsistent ≠ 0) ∧
      ¬ c.svm_maxqpsize < 2 ∧ ¬ c.svm_maxqpsize < c.svm_newvarsinqp ∧
      ¬ c.svm_iter_to_shrink < 1 ∧ Dbl.lt c.svm_c (Dbl.fin 0) = false ∧
      Dbl.gt c.transduction_posratio (Dbl.fin 1) = false ∧
      Dbl.le c.svm_costratio (Dbl.fin 0) = false ∧
      Dbl.le c.epsilon_crit (Dbl.fin 0) = false ∧ Dbl.lt c.rho (Dbl.fin 0) = false ∧
      ¬ (c.xa_depth < 0 ∨ c.xa_depth > 100) := by
    intro c
    constructor
    · intro h
      have h3 := h .skip_and_remove
      have h4 := h .qp_size
      have h5 := h .qp_newvars
      have h6 := h .shrink
      have h12 := h .xa_depth
      simp only [Rule.violated, decide_eq_false_iff_not] at h3 h4 h5 h6 h12
      exact ⟨h3, h4, h5, h6, h .cost_c, h .pos_fraction, h .cost_factor, h .epsilon, h .rho, h12⟩
    · rintro ⟨h3, h4, h5, h6, h7, h8, h9, h10, h11, h12⟩ r
      cases r <;> simp only [Rule.violated, decide_eq_false_iff_not] <;> assumption
  refine ⟨?_, ?_, ?_, ?_, ?_⟩
  · rw [check_logic_state, derive_and_normalise_fields]
  · rw [key, rules, derive_and_normalise_fields]
  · rw [key, check_logic_state, rules]
  · rw [check_logic_result]
    split_ifs <;> simp
  · intro h depth hd
    rw [key] at h ⊢
    rw [derive_and_normalise_fields] at h ⊢
    intro r
    have hr := h r
    cases r <;> simp only [Rule.violated] at hr ⊢ <;> try exact hr
    · simp [Dbl.lt]
    · simp [Dbl.gt, Dbl.lt]
    · simp [Dbl.lt]
    · rcases hd with hd | hd <;> simp [hd]

/-- C2. First failure wins: when the configuration left by rules 1 and 2
breaks a rejecting rule and no rejecting rule of a lower number, then
`check_kernel_and_learn_params_logic` returns 1 with the message of that rule,
whatever later rules are broken as well. -/
theorem check_logic_first_failure_wins (lit : Int) (k : KERNEL_PARM) (l : LEARN_PARM) (e : String)
    (r : Rule) (hr : r.violated (derive_and_normalise k l) = true)
    (hmin : ∀ r' : Rule, r'.number < r.number →
      r'.violated (derive_and_normalise k l) = false) :
    check_kernel_and_learn_params_logic lit k l e =
      (1, derive_and_normalise k l, r.message lit (derive_and_normalise k l)) := by
  rw [check_logic_eq, first_violated_of_least _ r hr hmin]

/-- Witness of C1: under a linear kernel the default configuration is
accepted, also with the boundary values `svm_c = 0`, `rho = 0`,
`transduction_posratio = 1` and `xa_depth = 100`; with `svm_c = -1` it is
rejected, and so it is with `xa_depth = 101`. -/
theorem check_logic_accepts_iff_witness :
    (check_kernel_and_learn_params_logic 0 (default_kernel_parm LINEAR)
      (default_learn_parm 1) "").1 = 0 ∧
    (check_kernel_and_learn_params_logic 0 (default_kernel_parm LINEAR)
      { (default_learn_parm 1) with
        svm_c := Dbl.fin 0, rho := Dbl.fin 0, transduction_posratio := Dbl.fin 1,
        xa_depth := 100 } "").1 = 0 ∧
    (check_kernel_and_learn_params_logic 0 (default_kernel_parm LINEAR)
      { (default_learn_parm 1) with svm_c := Dbl.fin (-1) } "").1 = 1 ∧
    (check_kernel_and_learn_params_logic 0 (default_kernel_parm LINEAR)
      { (default_learn_parm 1) with xa_depth := 101 } "").1 = 1 :=
  ⟨(check_logic_accepts_iff 0 (default_kernel_parm LINEAR) (default_learn_parm 1) "").2.1.mpr
     (by decide),
   (check_logic_accepts_iff 0 (default_kernel_parm LINEAR) (default_learn_parm 1) "").2.2.2.2
     (by decide) 100 (Or.inr rfl),
   ((check_logic_accepts_iff 0 (default_kernel_parm LINEAR)
      { (default_learn_parm 1) with svm_c := Dbl.fin (-1) } "").2.2.2.1).resolve_left
     (fun h0 => absurd
       ((check_logic_accepts_iff 0 (default_kernel_parm LINEAR)
          { (default_learn_parm 1) with svm_c := Dbl.fin (-1) } "").2.1.mp h0).2.2.2.2.1
       (by decide)),
   ((check_logic_accepts_iff 0 (default_kernel_parm LINEAR)
      { (default_learn_parm 1) with xa_depth := 101 } "").2.2.2.1).resolve_left
     (fun h0 =>
       ((check_logic_accepts_iff 0 (default_kernel_parm LINEAR)
          { (default_learn_parm 1) with xa_depth := 101 } "").2.1.mp h0).2.2.2.2.2.2.2.2.2
       (by decide))⟩

/-- Witness of C2: with `svm_maxqpsize = 1` (rule 4) and `svm_c = -1` (rule 7)
both broken, the message is that of rule 4. -/
theorem check_logic_first_failure_wins_witness :
    Rule.violated .cost_c (derive_and_normalise (default_kernel_parm LINEAR)
      { (default_learn_parm 1) with svm_maxqpsize := 1, svm_c := Dbl.fin (-1) }) = true ∧
    check_kernel_and_learn_params_logic 0 (default_kernel_parm LINEAR)
      { (default_learn_parm 1) with svm_maxqpsize := 1, svm_c := Dbl.fin (-1) } "" =
      (1, derive_and_normalise (default_kernel_parm LINEAR)
            { (default_learn_parm 1) with svm_maxqpsize := 1, svm_c := Dbl.fin (-1) },
        Rule.message 0 .qp_size (derive_and_normalise (default_kernel_parm LINEAR)
            { (default_learn_parm 1) with svm_maxqpsize := 1, svm_c := Dbl.fin (-1) })) ∧
    Rule.message 0 .qp_size (derive_and_normalise (default_kernel_parm LINEAR)
        { (default_learn_parm 1) with svm_maxqpsize := 1, svm_c := Dbl.fin (-1) }) =
      "Maximum size of QP-subproblems not in valid range: 1 [2..]" :=
  ⟨by decide,
   check_logic_first_failure_wins 0 (default_kernel_parm LINEAR)
     { (default_learn_parm 1) with svm_maxqpsize := 1, svm_c := Dbl.fin (-1) } "" .qp_size
     (by decide) (by intro r' h; cases r' <;> first | rfl | (exact absurd h (by decide))),
   by decide⟩

set_option maxRecDepth 8192 in
theorem setup_learn_params_empty (c : LEARN_PARM) (e : String) :
    setup_learn_params c [] e = (0, default_learn_parm c.type, e) := by
  rfl

theorem setup_kernel_params_empty (c : KERNEL_PARM) (e : String) :
    setup_kernel_params c [] e = (0, default_kernel_parm c.kernel_type, e) := by
  rfl

theorem default_first_violated (t : Int) (k : KERNEL_PARM) (hk : k.kernel_type = LINEAR) :
    first_violated (derive_and_normalise k (default_learn_parm t)) = none := by
  rw [derive_and_normalise_fields, if_pos hk, if_pos hk]
  simp only [first_violated, rejecting_rules, List.find?, Rule.violated, default_learn_parm]
  rfl

theorem check_logic_rejects_with (lit : Int) (k : KERNEL_PARM) (l : LEARN_PARM) (e : String)
    (r : Rule) (msg : String) (hr : r.violated (derive_and_normalise k l) = true)
    (hmin : ∀ r' : Rule, r'.number < r.number →
      r'.violated (derive_and_normalise k l) = false)
    (hmsg : r.message lit (derive_and_normalise k l) = msg) :
    rejects_with (check_kernel_and_learn_params_logic lit k l e) msg := by
  rw [check_logic_eq, first_violated_of_least _ r hr hmin]
  exact ⟨rfl, hmsg⟩

theorem default_svm_c : Dbl.lt (Dbl.dec 0 0) (Dbl.fin 0) = false := by decide
theorem default_posratio : Dbl.gt (Dbl.dec (-1) 0) (Dbl.fin 1) = false := by decide
theorem default_one_le : Dbl.le (Dbl.dec 1 0) (Dbl.fin 0) = false := by decide
theorem default_epsilon_crit : Dbl.le (Dbl.dec 1 (-3)) (Dbl.fin 0) = false := by decide
theorem default_one_lt : Dbl.lt (Dbl.dec 1 0) (Dbl.fin 0) = false := by decide

/-- C3 (amended). Starting from the all-default configuration under a linear
kernel: the configuration itself is accepted; breaking one of the rules 4 to
12 alone is rejected with the message of that rule; switching on both
`skip_final_opt_check` and `remove_inconsistent` (rule 3) is accepted, because
rule 2 clears the skip flag first, and is rejected with the message of rule 3
only when the kernel is not linear. -/
theorem isolated_rule_violations (lit t : Int) (k : KERNEL_PARM) (e : String)
    (hk : k.kernel_type = LINEAR) :
    check_kernel_and_learn_params_logic lit k (default_learn_parm t) e =
      (0, { (default_learn_parm t) with svm_iter_to_shrink := 2 }, e) ∧
    (∀ s r : Int, (check_kernel_and_learn_params_logic lit k
      { (default_learn_parm t) with skip_final_opt_check := s, remove_inconsistent := r } e).1
        = 0) ∧
    (∀ k' : KERNEL_PARM, k'.kernel_type ≠ LINEAR → ∀ s r : Int, s ≠ 0 → r ≠ 0 →
      rejects_with (check_kernel_and_learn_params_logic lit k'
        { (default_learn_parm t) with skip_final_opt_check := s, remove_inconsistent := r } e)
        "It is necessary to do the final optimality check when removing inconsistent examples.") ∧
    (∀ n : Int, n < 2 →
      rejects_with (check_kernel_and_learn_params_logic lit k
        { (default_learn_parm t) with svm_maxqpsize := n } e)
        ("Maximum size of QP-subproblems not in valid range: " ++ toString n ++ " [2..]")) ∧
    (∀ m : Int, 10 < m →
      rejects_with (check_kernel_and_learn_params_logic lit k
        { (default_learn_parm t) with svm_newvarsinqp := m } e)
        ("Maximum size of QP-subproblems [" ++ toString lit ++
          "] must be larger than the number of")) ∧
    (∀ n : Int, n < 1 → n ≠ -9999 →
      rejects_with (check_kernel_and_learn_params_logic lit k
        { (default_learn_parm t) with svm_iter_to_shrink := n } e)
        ("Maximum number of iterations for shrinking not in valid range: " ++ toString n ++
          " [1,..]")) ∧
    (∀ x : Dbl, Dbl.lt x (Dbl.fin 0) = true →
      rejects_with (check_kernel_and_learn_params_logic lit k
        { (default_learn_parm t) with svm_c := x } e)
        "The C parameter must be greater than zero") ∧
    (∀ x : Dbl, Dbl.gt x (Dbl.fin 1) = true →
      rejects_with (check_kernel_and_learn_params_logic lit k
        { (default_learn_parm t) with transduction_posratio := x } e)
        "The fraction of unlabeled examples to classify as positives mustbe less than 1.0") ∧
    (∀ x : Dbl, Dbl.le x (Dbl.fin 0) = true →
      rejects_with (check_kernel_and_learn_params_logic lit k
        { (default_learn_parm t) with svm_costratio := x } e)
        "The COSTRATIO parameter must be greater than zero") ∧
    (∀ x : Dbl, Dbl.le x (Dbl.fin 0) = true →
      rejects_with (check_kernel_and_learn_params_logic lit k
        { (default_learn_parm t) with epsilon_crit := x } e)
        "The epsilon parameter must be greater than zero") ∧
    (∀ x : Dbl, Dbl.lt x (Dbl.fin 0) = true →
      rejects_with (check_kernel_and_learn_params_logic lit k
        { (default_learn_parm t) with rho := x } e)
        ("The parameter rho for xi/alpha-estimates and leave-one-out pruning must" ++
          "be greater than zero (typically 1.0 or 2.0, see T. Joachims, Estimating the" ++
          "Generalization Performance of an SVM Efficiently, ICML, 2000.)!")) ∧
    (∀ n : Int, n < 0 ∨ 100 < n →
      rejects_with (check_kernel_and_learn_params_logic lit k
        { (default_learn_parm t) with xa_depth := n } e)
        ("The parameter depth for ext. xi/alpha-estimates must be in [0..100] (zero) " ++
          "for switching to the conventional xa/estimates described in T. Joachims," ++
          "Estimating the Generalization Performance of an SVM Efficiently, ICML, 2000.)")) := by
  refine ⟨?_, ?_, ?_, ?_, ?_, ?_, ?_, ?_, ?_, ?_, ?_, ?_⟩
  · rw [check_logic_eq, default_first_violated t k hk, derive_and_normalise_fields]
    simp [hk, default_learn_parm]
  · intro s r
    rw [check_logic_result, if_pos]
    rw [first_violated_none_iff]
    intro q
    rw [derive_and_normalise_fields]
    cases q <;> simp [Rule.violated, default_learn_parm, hk, default_svm_c, default_posratio,
      default_one_le, default_epsilon_crit, default_one_lt]
  · intro k' hk' s r hs hr
    apply check_logic_rejects_with lit k' _ e .skip_and_remove
    · rw [derive_and_normalise_fields]; simp [Rule.violated, hk', hs, hr]
    · intro q hq; cases q <;> simp [Rule.number] at hq
    · rfl
  · intro n hn
    apply check_logic_rejects_with lit k _ e .qp_size
    · rw [derive_and_normalise_fields]
      simp [Rule.violated, default_learn_parm, hk, hn]
    · intro q hq
      rw [derive_and_normalise_fields]
      cases q <;> simp [Rule.number] at hq
      simp [Rule.violated, default_learn_parm, hk, default_svm_c, default_posratio,
        default_one_le, default_epsilon_crit, default_one_lt, hn]
    · rw [derive_and_normalise_fields]
      simp [Rule.message, default_learn_parm, hk, hn]
  · intro m hm
    apply check_logic_rejects_with lit k _ e .qp_newvars
    · rw [derive_and_normalise_fields]
      simp [Rule.violated, default_learn_parm, hk, hm]
    · intro q hq
      rw [derive_and_normalise_fields]
      cases q <;> simp [Rule.number] at hq <;>
        simp [Rule.violated, default_learn_parm, hk, default_svm_c, default_posratio,
        default_one_le, default_epsilon_crit, default_one_lt, hm]
    · rw [derive_and_normalise_fields]
      simp [Rule.message, default_learn_parm, hk, hm]
  · intro n hn hs
    apply check_logic_rejects_with lit k _ e .shrink
    · rw [derive_and_normalise_fields]
      simp [Rule.violated, default_learn_parm, hk, hn, hs]
    · intro q hq
      rw [derive_and_normalise_fields]
      cases q <;> simp [Rule.number] at hq <;>
        simp [Rule.violated, default_learn_parm, hk, default_svm_c, default_posratio,
        default_one_le, default_epsilon_crit, default_one_lt, hn, hs]
    · rw [derive_and_normalise_fields]
      simp [Rule.message, default_learn_parm, hk, hn, hs]
  · intro x hx
    apply check_logic_rejects_with lit k _ e .cost_c
    · rw [derive_and_normalise_fields]
      simp [Rule.violated, default_learn_parm, hk, hx]
    · intro q hq
      rw [derive_and_normalise_fields]
      cases q <;> simp [Rule.number] at hq <;>
        simp [Rule.violated, default_learn_parm, hk, default_svm_c, default_posratio,
        default_one_le, default_epsilon_crit, default_one_lt, hx]
    · rw [derive_and_normalise_fields]
      simp [Rule.message, default_learn_parm, hk, hx]
  · intro x hx
    apply check_logic_rejects_with lit k _ e .pos_fraction
    · rw [derive_and_normalise_fields]
      simp [Rule.violated, default_learn_parm, hk, hx]
    · intro q hq
      rw [derive_and_normalise_fields]
      cases q <;> simp [Rule.number] at hq <;>
        simp [Rule.violated, default_learn_parm, hk, default_svm_c, default_posratio,
        default_one_le, default_epsilon_crit, default_one_lt, hx]
    · rw [derive_and_normalise_fields]
      simp [Rule.message, default_learn_parm, hk, hx]
  · intro x hx
    apply check_logic_rejects_with lit k _ e .cost_factor
    · rw [derive_and_normalise_fields]
      simp [Rule.violated, default_learn_parm, hk, hx]
    · intro q hq
      rw [derive_and_normalise_fields]
      cases q <;> simp [Rule.number] at hq <;>
        simp [Rule.violated, default_learn_parm, hk, default_svm_c, default_posratio,
        default_one_le, default_epsilon_crit, default_one_lt, hx]
    · rw [derive_and_normalise_fields]
      simp [Rule.message, default_learn_parm, hk, hx]
  · intro x hx
    apply check_logic_rejects_with lit k _ e .epsilon
    · rw [derive_and_normalise_fields]
      simp [Rule.violated, default_learn_parm, hk, hx]
    · intro q hq
      rw [derive_and_normalise_fields]
      cases q <;> simp [Rule.number] at hq <;>
        simp [Rule.violated, default_learn_parm, hk, default_svm_c, default_posratio,
        default_one_le, default_epsilon_crit, default_one_lt, hx]
    · rw [derive_and_normalise_fields]
      simp [Rule.message, default_learn_parm, hk, hx]
  · intro x hx
    apply check_logic_rejects_with lit k _ e .rho
    · rw [derive_and_normalise_fields]
      simp [Rule.violated, default_learn_parm, hk, hx]
    · intro q hq
      rw [derive_and_normalise_fields]
      cases q <;> simp [Rule.number] at hq <;>
        simp [Rule.violated, default_learn_parm, hk, default_svm_c, default_posratio,
        default_one_le, default_epsilon_crit, default_one_lt, hx]
    · rw [derive_and_normalise_fields]
      simp [Rule.message, default_learn_parm, hk, hx]
  · intro n hn
    apply check_logic_rejects_with lit k _ e .xa_depth
    · rw [derive_and_normalise_fields]
      simp [Rule.violated, default_learn_parm, hk, hn]
    · intro q hq
      rw [derive_and_normalise_fields]
      cases q <;> simp [Rule.number] at hq <;>
        simp [Rule.violated, default_learn_parm, hk, default_svm_c, default_posratio,
        default_one_le, default_epsilon_crit, default_one_lt, hn]
    · rw [derive_and_normalise_fields]
      simp [Rule.message, default_learn_parm, hk, hn]

/-- Witness of C3 (amended): under a linear kernel the default configuration
with `svm_maxqpsize = 1` is rejected with the message of rule 4. -/
theorem isolated_rule_violations_witness :
    (default_kernel_parm LINEAR).kernel_type = LINEAR ∧
    rejects_with (check_kernel_and_learn_params_logic 0 (default_kernel_parm LINEAR)
        { (default_learn_parm 1) with svm_maxqpsize := 1 } "")
      "Maximum size of QP-subproblems not in valid range: 1 [2..]" :=
  ⟨rfl, (isolated_rule_violations 0 1 (default_kernel_parm LINEAR) "" rfl).2.2.2.1 1 (by decide)⟩

/-- Counterexample to C3 as stated: the configuration that breaks rule 3 alone
(both `skip_final_opt_check` and `remove_inconsistent` set, every other option
at its default, linear kernel) is accepted, both as a structure and when it is
read from the option hash. -/
theorem isolated_rule3_accepted :
    Rule.violated .skip_and_remove
      { (default_learn_parm 1) with skip_final_opt_check := 1, remove_inconsistent := 1 } = true ∧
    (check_kernel_and_learn_params_logic 0 (default_kernel_parm LINEAR)
      { (default_learn_parm 1) with skip_final_opt_check := 1, remove_inconsistent := 1 } "").1
        = 0 ∧
    (setup_learn_params (default_learn_parm 1)
        [("skip_final_opt_check", .Qtrue), ("remove_inconsistent", .Qtrue)] "").2.1 =
      { (default_learn_parm 1) with skip_final_opt_check := 1, remove_inconsistent := 1 } ∧
    (check_kernel_and_learn_params_logic 0 (default_kernel_parm LINEAR)
      (setup_learn_params (default_learn_parm 1)
        [("skip_final_opt_check", .Qtrue), ("remove_inconsistent", .Qtrue)] "").2.1 "").1 = 0 := by
  decide

theorem head_append (a b : String) (c : Char) (cs : List Char) (h : a.data = c :: cs) :
    (a ++ b).data.head? = some c := by
  rw [String.data_append, h]; rfl

/-- No rule other than rule 3 produces the message of rule 3. -/
theorem message_ne_rule3 (lit : Int) (r : Rule) (c : LEARN_PARM) (h : r ≠ .skip_and_remove) :
    r.message lit c ≠
      "It is necessary to do the final optimality check when removing inconsistent examples." := by
  intro hm
  have h1 := congrArg (fun s => s.data.head?) hm
  cases r
  · exact h rfl
  · simp only [Rule.message, String.append_assoc] at h1
    rw [head_append _ _ 'M' _ rfl] at h1
    revert h1; decide
  · simp only [Rule.message, String.append_assoc] at h1
    rw [head_append _ _ 'M' _ rfl] at h1
    revert h1; decide
  · simp only [Rule.message, String.append_assoc] at h1
    rw [head_append _ _ 'M' _ rfl] at h1
    revert h1; decide
  all_goals (simp only [Rule.message] at h1; revert h1; decide)

theorem bind_eq_ok {α β : Type} (o : Outcome α) (f : α → Outcome β) (b : β)
    (h : o.bind f = .ok b) : ∃ a, o = .ok a ∧ f a = .ok b := by
  cases o with
  | ok a => exact ⟨a, rfl, h⟩
  | raise e => simp [Outcome.bind] at h
  | undefined => simp [Outcome.bind] at h

/-- What a training call that reaches the solver has gone through. -/
theorem model_learn_classification_ok (lit maxfeat : Int) (c : LEARN_PARM) (kc : KERNEL_PARM)
    (e : String) (docs lp kp use_cache alpha : VALUE) (call : SolverCall)
    (h : model_learn_classification lit maxfeat c kc e docs lp kp use_cache alpha = .ok call) :
    ∃ (examples : List VALUE) (lh kh : Hash),
      docs = .array examples ∧ lp = .hash lh ∧ kp = .hash kh ∧
      (setup_learn_params c lh e).1 = 0 ∧
      (setup_kernel_params kc kh (setup_learn_params c lh e).2.2).1 = 0 ∧
      (check_kernel_and_learn_params_logic lit
        { (setup_kernel_params kc kh (setup_learn_params c lh e).2.2).2.1 with
          kernel_type := LINEAR }
        { (setup_learn_params c lh e).2.1 with type := CLASSIFICATION }
        (setup_kernel_params kc kh (setup_learn_params c lh e).2.2).2.2).1 = 0 ∧
      call.learn_parm = (check_kernel_and_learn_params_logic lit
        { (setup_kernel_params kc kh (setup_learn_params c lh e).2.2).2.1 with
          kernel_type := LINEAR }
        { (setup_learn_params c lh e).2.1 with type := CLASSIFICATION }
        (setup_kernel_params kc kh (setup_learn_params c lh e).2.2).2.2).2.1 ∧
      call.kernel_parm =
        { (setup_kernel_params kc kh (setup_learn_params c lh e).2.2).2.1 with
          kernel_type := LINEAR } ∧
      examples ≠ [] ∧
      learn_examples maxfeat examples 0 = .ok (call.docs, call.labels, call.totwords) ∧
      call.totdocs = examples.length ∧
      ((alpha = .Qnil ∧ call.alpha_in = none) ∨
        ∃ elems xs, alpha = .array elems ∧ alpha_values elems = some xs ∧
          call.alpha_in = some xs) := by
  unfold model_learn_classification at h
  rcases docs with _ | _ | _ | _ | _ | _ | examples | _ | _ | _ <;>
    first
      | exact absurd h (fun h' => Outcome.noConfusion h')
      | skip
  rcases lp with _ | _ | _ | _ | _ | _ | _ | lh | _ | _ <;>
    first
      | exact absurd h (fun h' => Outcome.noConfusion h')
      | skip
  rcases kp with _ | _ | _ | _ | _ | _ | _ | kh | _ | _ <;>
    first
      | exact absurd h (fun h' => Outcome.noConfusion h')
      | skip
  refine ⟨examples, lh, kh, rfl, rfl, rfl, ?_⟩
  have main : ∀ a : Option (List Dbl),
      (let s := setup_learn_params c lh e
       if s.1 ≠ 0 then (Outcome.raise (.ArgError s.2.2) : Outcome SolverCall) else
       let c_learn_param : LEARN_PARM := { s.2.1 with type := CLASSIFICATION }
       let t := setup_kernel_params kc kh s.2.2
       if t.1 ≠ 0 then .raise (.ArgError t.2.2) else
       let c_kernel_param : KERNEL_PARM := { t.2.1 with kernel_type := LINEAR }
       let r := check_kernel_and_learn_params_logic lit c_kernel_param c_learn_param t.2.2
       if r.1 ≠ 0 then .raise (.ArgError r.2.2) else
       let c_learn_param := r.2.1
       let totdocs : Int := examples.length
       if totdocs = 0 then
         .raise (.ArgError "Cannot create Model from empty Documents array")
       else
         (learn_examples maxfeat examples 0).bind fun e =>
           .ok { docs := e.1, labels := e.2.1, totdocs := totdocs, totwords := e.2.2,
                 learn_parm := c_learn_param, kernel_parm := c_kernel_param,
                 alpha_in := a }) = .ok call →
      (setup_learn_params c lh e).1 = 0 ∧
      (setup_kernel_params kc kh (setup_learn_params c lh e).2.2).1 = 0 ∧
      (check_kernel_and_learn_params_logic lit
        { (setup_kernel_params kc kh (setup_learn_params c lh e).2.2).2.1 with
          kernel_type := LINEAR }
        { (setup_learn_params c lh e).2.1 with type := CLASSIFICATION }
        (setup_kernel_params kc kh (setup_learn_params c lh e).2.2).2.2).1 = 0 ∧
      call.learn_parm = (check_kernel_and_learn_params_logic lit
        { (setup_kernel_params kc kh (setup_learn_params c lh e).2.2).2.1 with
          kernel_type := LINEAR }
        { (setup_learn_params c lh e).2.1 with type := CLASSIFICATION }
        (setup_kernel_params kc kh (setup_learn_params c lh e).2.2).2.2).2.1 ∧
      call.kernel_parm =
        { (setup_kernel_params kc kh (setup_learn_params c lh e).2.2).2.1 with
          kernel_type := LINEAR } ∧
      examples ≠ [] ∧
      learn_examples maxfeat examples 0 = .ok (call.docs, call.labels, call.totwords) ∧
      call.totdocs = examples.length ∧ call.alpha_in = a := by
    intro a
    generalize setup_learn_params c lh e = s
    intro hs
    dsimp only at hs
    generalize setup_kernel_params kc kh s.2.2 = t at hs ⊢
    generalize check_kernel_and_learn_params_logic lit _ _ t.2.2 = r at hs ⊢
    split_ifs at hs with h1 h2 h3 h4
    obtain ⟨res, hres, hcall⟩ := bind_eq_ok _ _ _ hs
    have hc : call = _ := (Outcome.ok.inj hcall).symm
    subst hc
    refine ⟨not_not.mp h1, not_not.mp h2, not_not.mp h3, rfl, rfl, ?_, ?_, rfl, rfl⟩
    · intro hnil; apply h4; simp [hnil]
    · rw [hres]
  rcases alpha with _ | _ | _ | _ | _ | _ | elems | _ | _ | _ <;>
    first
      | exact absurd h (fun h' => Outcome.noConfusion h')
      | skip
  · obtain ⟨a1, a2, a3, a4, a5, a6, a7, a8, a9⟩ := main none h
    exact ⟨a1, a2, a3, a4, a5, a6, a7, a8, Or.inl ⟨rfl, a9⟩⟩
  · dsimp only at h
    cases hv : alpha_values elems with
    | none => rw [hv] at h; exact absurd h (by simp)
    | some xs =>
      rw [hv] at h
      obtain ⟨a1, a2, a3, a4, a5, a6, a7, a8, a9⟩ := main (some xs) h
      exact ⟨a1, a2, a3, a4, a5, a6, a7, a8, Or.inr ⟨elems, xs, rfl, hv, a9⟩⟩

/-- C7. Rule 1: an unset shrinking threshold (-9999) becomes 2 under a linear
kernel and 100 otherwise, and any other value is left as it is; so a training
call with empty option hashes hands the solver `svm_iter_to_shrink = 2`. -/
theorem shrink_threshold_derivation (lit : Int) (k : KERNEL_PARM) (l : LEARN_PARM) (e : String) :
    (l.svm_iter_to_shrink = -9999 →
      (check_kernel_and_learn_params_logic lit k l e).2.1.svm_iter_to_shrink =
        if k.kernel_type = LINEAR then 2 else 100) ∧
    (l.svm_iter_to_shrink ≠ -9999 →
      (check_kernel_and_learn_params_logic lit k l e).2.1.svm_iter_to_shrink =
        l.svm_iter_to_shrink) ∧
    (∀ (maxfeat : Int) (kc : KERNEL_PARM) (docs use_cache alpha : VALUE) (call : SolverCall),
      model_learn_classification lit maxfeat l kc e docs (.hash []) (.hash []) use_cache alpha
          = .ok call →
        call.learn_parm.svm_iter_to_shrink = 2) := by
  refine ⟨?_, ?_, ?_⟩
  · intro h
    rw [check_logic_state, derive_and_normalise_fields]
    simp [h]
  · intro h
    rw [check_logic_state, derive_and_normalise_fields]
    simp [h]
  · intro maxfeat kc docs use_cache alpha call h
    obtain ⟨examples, lh, kh, -, hl, hkk, -, -, -, hlearn, -⟩ :=
      model_learn_classification_ok _ _ _ _ _ _ _ _ _ _ _ h
    cases hl
    cases hkk
    rw [hlearn, check_logic_state, derive_and_normalise_fields, setup_learn_params_empty]
    simp [default_learn_parm]

/-- Witness of C7: a training call with one example and empty option hashes
reaches the solver, with `svm_iter_to_shrink = 2`. -/
theorem shrink_threshold_derivation_witness :
    model_learn_classification 0 99999999 (default_learn_parm 0) (default_kernel_parm 7) ""
        sample_examples (.hash []) (.hash []) .Qfalse .Qnil = .ok sample_call ∧
    sample_call.learn_parm.svm_iter_to_shrink = 2 :=
  ⟨by decide,
   (shrink_threshold_derivation 0 (default_kernel_parm 7) (default_learn_parm 0) "").2.2
     99999999 (default_kernel_parm 7) sample_examples .Qfalse .Qnil sample_call (by decide)⟩

/-- C8. Rule 2 is a normalisation: under a linear kernel the skip flag comes
out as 0, the outcome is that of the same configuration with the flag already
0, and the rejection of rule 3 is never produced, whatever
`remove_inconsistent` holds; under any other kernel the flag is left as it
was. -/
theorem skip_final_check_normalised (lit : Int) (k : KERNEL_PARM) (l : LEARN_PARM) (e : String) :
    (k.kernel_type = LINEAR →
      (check_kernel_and_learn_params_logic lit k l e).2.1.skip_final_opt_check = 0 ∧
      check_kernel_and_learn_params_logic lit k l e =
        check_kernel_and_learn_params_logic lit k { l with skip_final_opt_check := 0 } e ∧
      ¬ rejects_with (check_kernel_and_learn_params_logic lit k l e)
        "It is necessary to do the final optimality check when removing inconsistent examples.") ∧
    (k.kernel_type ≠ LINEAR →
      (check_kernel_and_learn_params_logic lit k l e).2.1.skip_final_opt_check =
        l.skip_final_opt_check) := by
  constructor
  · intro hk
    have hd : derive_and_normalise k { l with skip_final_opt_check := 0 } =
        derive_and_normalise k l := by
      rw [derive_and_normalise_fields, derive_and_normalise_fields]
      simp [hk]
    have hskip : (derive_and_normalise k l).skip_final_opt_check = 0 := by
      rw [derive_and_normalise_fields]; simp [hk]
    refine ⟨?_, ?_, ?_⟩
    · rw [check_logic_state]; exact hskip
    · rw [check_logic_eq, check_logic_eq, hd]
    · rw [check_logic_eq]
      cases hf : first_violated (derive_and_normalise k l) with
      | none => intro hrej; exact absurd (show (0 : Int) = 1 from hrej.1) (by decide)
      | some r =>
        intro hrej
        have hne : r ≠ .skip_and_remove := by
          intro hr
          subst hr
          have hv := List.find?_some hf
          simp [Rule.violated, hskip] at hv
        exact message_ne_rule3 lit r _ hne hrej.2
  · intro hk
    rw [check_logic_state, derive_and_normalise_fields]
    simp [hk]

/-- Witness of C8: under a linear kernel the default configuration with both
`skip_final_opt_check` and `remove_inconsistent` set is accepted and comes out
with the skip flag cleared. -/
theorem skip_final_check_normalised_witness :
    (default_kernel_parm LINEAR).kernel_type = LINEAR ∧
    (check_kernel_and_learn_params_logic 0 (default_kernel_parm LINEAR)
      { (default_learn_parm 1) with skip_final_opt_check := 1, remove_inconsistent := 1 }
      "").2.1.skip_final_opt_check = 0 ∧
    (check_kernel_and_learn_params_logic 0 (default_kernel_parm LINEAR)
      { (default_learn_parm 1) with skip_final_opt_check := 1, remove_inconsistent := 1 }
      "").1 = 0 :=
  ⟨rfl,
   ((skip_final_check_normalised 0 (default_kernel_parm LINEAR)
      { (default_learn_parm 1) with skip_final_opt_check := 1, remove_inconsistent := 1 }
      "").1 rfl).1,
   by decide⟩

/-! ## Theorems: the per-field checks -/

set_option maxRecDepth 8192 in
theorem setup_learn_params_eq_run (c : LEARN_PARM) (h : Hash) (e : String) :
    setup_learn_params c h e = run_steps learn_steps c h e := by
  rfl

theorem setup_kernel_params_eq_run (c : KERNEL_PARM) (h : Hash) (e : String) :
    setup_kernel_params c h e =
      ((run_steps kernel_steps c h e).1,
       if (run_steps kernel_steps c h e).1 = 1 then (run_steps kernel_steps c h e).2.1
       else { (run_steps kernel_steps c h e).2.1 with custom := strlcpy "empty" 49 },
       (run_steps kernel_steps c h e).2.2) := by
  simp only [setup_kernel_params, run_steps, kernel_steps]
  split_ifs <;> first | rfl | simp_all

theorem run_steps_spec {σ : Type} (steps : List (Step σ)) (fields : List (String × FieldKind))
    (hok : List.Forall₂ StepOk steps fields) (c : σ) (h : Hash) (e : String) :
    match first_bad fields h with
    | none => (run_steps steps c h e).1 = 0 ∧ (run_steps steps c h e).2.2 = e
    | some f => rejects_with (run_steps steps c h e) (type_error_message f.1 f.2) := by
  induction hok generalizing c e with
  | nil => exact ⟨rfl, rfl⟩
  | @cons st f steps fields hst _ ih =>
    obtain ⟨hname, hspec⟩ := hst
    unfold first_bad at ih ⊢
    rw [List.find?_cons]
    unfold run_steps
    rw [hname]
    cases hacc : f.2.accepts (rb_hash_aref h f.1) with
    | true =>
      obtain ⟨h0, he⟩ := (hspec (rb_hash_aref h f.1) c e).1 hacc
      simp only [Bool.not_true]
      rw [if_neg (by rw [h0]; decide), he]
      exact ih _ _
    | false =>
      obtain ⟨h1, hm⟩ := (hspec (rb_hash_aref h f.1) c e).2 hacc
      simp only [Bool.not_false]
      rw [if_pos h1]
      exact ⟨rfl, hm⟩

theorem run_steps_examined {σ : Type} (steps : List (Step σ))
    (fields : List (String × FieldKind)) (hok : List.Forall₂ StepOk steps fields)
    (c : σ) (h h' : Hash) (e : String)
    (hagree : ∀ name ∈ examined fields h, rb_hash_aref h' name = rb_hash_aref h name) :
    run_steps steps c h' e = run_steps steps c h e := by
  induction hok generalizing c e with
  | nil => rfl
  | @cons st f steps fields hst _ ih =>
    obtain ⟨hname, hspec⟩ := hst
    have hhead : rb_hash_aref h' f.1 = rb_hash_aref h f.1 := by
      apply hagree
      unfold examined
      split_ifs <;> simp
    unfold run_steps
    rw [hname, hhead]
    cases hacc : f.2.accepts (rb_hash_aref h f.1) with
    | true =>
      obtain ⟨h0, _⟩ := (hspec (rb_hash_aref h f.1) c e).1 hacc
      rw [if_neg (by rw [h0]; decide), if_neg (by rw [h0]; decide)]
      apply ih
      intro name hn
      apply hagree
      unfold examined
      rw [if_pos hacc]
      exact List.mem_cons_of_mem _ hn
    | false =>
      obtain ⟨h1, _⟩ := (hspec (rb_hash_aref h f.1) c e).2 hacc
      rw [if_pos h1, if_pos h1]

theorem learn_steps_ok : List.Forall₂ StepOk learn_steps learn_fields := by
  unfold learn_steps learn_fields
  repeat (first
    | exact List.Forall₂.nil
    | (refine List.Forall₂.cons ⟨rfl, ?_⟩ ?_; swap))
  all_goals
    intro v c e
    cases v <;>
      simp [check_string_param, check_long_param, check_double_param, check_bool_param,
        FieldKind.accepts, type_error_message, FieldKind.expected]

theorem kernel_steps_ok : List.Forall₂ StepOk kernel_steps kernel_fields := by
  unfold kernel_steps kernel_fields
  repeat (first
    | exact List.Forall₂.nil
    | (refine List.Forall₂.cons ⟨rfl, ?_⟩ ?_; swap))
  all_goals
    intro v c e
    cases v <;>
      simp [check_string_param, check_long_param, check_double_param, check_bool_param,
        FieldKind.accepts, type_error_message, FieldKind.expected]

theorem check_string_param_of_accepts (v : VALUE) (d t n e : String)
    (h : FieldKind.string.accepts v = true) :
    check_string_param v d t n e = (0, coerce_string v d, e) := by
  cases v <;> first | rfl | (simp [FieldKind.accepts] at h)

theorem check_long_param_of_accepts (v : VALUE) (d t : Int) (n e : String)
    (h : FieldKind.numeric.accepts v = true) :
    check_long_param v d t n e = (0, coerce_long v d, e) := by
  cases v <;> first | rfl | (simp [FieldKind.accepts] at h)

theorem check_double_param_of_accepts (v : VALUE) (d t : Dbl) (n e : String)
    (h : FieldKind.numeric.accepts v = true) :
    check_double_param v d t n e = (0, coerce_double v d, e) := by
  cases v <;> first | rfl | (simp [FieldKind.accepts] at h)

theorem check_bool_param_of_accepts (v : VALUE) (d t : Int) (n e : String)
    (h : FieldKind.boolean.accepts v = true) :
    check_bool_param v d t n e = (0, coerce_bool v d, e) := by
  cases v <;> first | rfl | (simp [FieldKind.accepts] at h)

set_option maxRecDepth 8192 in
/-- When every learning option passes, `setup_learn_params` succeeds with the
configuration that the hash describes. -/
theorem setup_learn_params_closed (c : LEARN_PARM) (h : Hash) (e : String)
    (hacc : ∀ f ∈ learn_fields, f.2.accepts (rb_hash_aref h f.1) = true) :
    setup_learn_params c h e = (0, learn_of_hash c.type h, e) := by
  have a0 := hacc ("predfile", .string) (by simp [learn_fields])
  have a1 := hacc ("alphafile", .string) (by simp [learn_fields])
  have a2 := hacc ("biased_hyperplane", .boolean) (by simp [learn_fields])
  have a3 := hacc ("sharedslack", .boolean) (by simp [learn_fields])
  have a4 := hacc ("remove_inconsistent", .boolean) (by simp [learn_fields])
  have a5 := hacc ("skip_final_opt_check", .boolean) (by simp [learn_fields])
  have a6 := hacc ("svm_newvarsinqp", .boolean) (by simp [learn_fields])
  have a7 := hacc ("compute_loo", .boolean) (by simp [learn_fields])
  have a8 := hacc ("svm_maxqpsize", .numeric) (by simp [learn_fields])
  have a9 := hacc ("svm_iter_to_shrink", .numeric) (by simp [learn_fields])
  have a10 := hacc ("maxiter", .numeric) (by simp [learn_fields])
  have a11 := hacc ("kernel_cache_size", .numeric) (by simp [learn_fields])
  have a12 := hacc ("xa_depth", .numeric) (by simp [learn_fields])
  have a13 := hacc ("svm_c", .numeric) (by simp [learn_fields])
  have a14 := hacc ("eps", .numeric) (by simp [learn_fields])
  have a15 := hacc ("transduction_posratio", .numeric) (by simp [learn_fields])
  have a16 := hacc ("svm_costratio", .numeric) (by simp [learn_fields])
  have a17 := hacc ("svm_costratio_unlab", .numeric) (by simp [learn_fields])
  have a18 := hacc ("svm_unlabbound", .numeric) (by simp [learn_fields])
  have a19 := hacc ("epsilon_crit", .numeric) (by simp [learn_fields])
  have a20 := hacc ("epsilon_a", .numeric) (by simp [learn_fields])
  have a21 := hacc ("rho", .numeric) (by simp [learn_fields])
  simp only at *
  unfold setup_learn_params
  simp only [check_string_param_of_accepts _ _ _ _ _ a0, check_string_param_of_accepts _ _ _ _ _ a1, check_bool_param_of_accepts _ _ _ _ _ a2, check_bool_param_of_accepts _ _ _ _ _ a3, check_bool_param_of_accepts _ _ _ _ _ a4, check_bool_param_of_accepts _ _ _ _ _ a5, check_bool_param_of_accepts _ _ _ _ _ a6, check_bool_param_of_accepts _ _ _ _ _ a7, check_long_param_of_accepts _ _ _ _ _ a8, check_long_param_of_accepts _ _ _ _ _ a9, check_long_param_of_accepts _ _ _ _ _ a10, check_long_param_of_accepts _ _ _ _ _ a11, check_long_param_of_accepts _ _ _ _ _ a12, check_double_param_of_accepts _ _ _ _ _ a13, check_double_param_of_accepts _ _ _ _ _ a14, check_double_param_of_accepts _ _ _ _ _ a15, check_double_param_of_accepts _ _ _ _ _ a16, check_double_param_of_accepts _ _ _ _ _ a17, check_double_param_of_accepts _ _ _ _ _ a18, check_double_param_of_accepts _ _ _ _ _ a19, check_double_param_of_accepts _ _ _ _ _ a20, check_double_param_of_accepts _ _ _ _ _ a21]
  rfl

/-- When every kernel option passes, `setup_kernel_params` succeeds with the
configuration that the hash describes. -/
theorem setup_kernel_params_closed (c : KERNEL_PARM) (h : Hash) (e : String)
    (hacc : ∀ f ∈ kernel_fields, f.2.accepts (rb_hash_aref h f.1) = true) :
    setup_kernel_params c h e = (0, kernel_of_hash c.kernel_type h, e) := by
  have a0 := hacc ("poly_degree", .numeric) (by simp [kernel_fields])
  have a1 := hacc ("rbf_gamma", .numeric) (by simp [kernel_fields])
  have a2 := hacc ("coef_lin", .numeric) (by simp [kernel_fields])
  have a3 := hacc ("coef_const", .numeric) (by simp [kernel_fields])
  simp only at *
  unfold setup_kernel_params
  simp only [check_long_param_of_accepts _ _ _ _ _ a0, check_double_param_of_accepts _ _ _ _ _ a1, check_double_param_of_accepts _ _ _ _ _ a2, check_double_param_of_accepts _ _ _ _ _ a3]
  rfl

theorem first_bad_eq_none_iff (fields : List (String × FieldKind)) (h : Hash) :
    first_bad fields h = none ↔ ∀ f ∈ fields, f.2.accepts (rb_hash_aref h f.1) = true := by
  unfold first_bad
  rw [List.find?_eq_none]
  simp

theorem first_bad_eq_some (fields : List (String × FieldKind)) (h : Hash)
    (f : String × FieldKind) (hf : first_bad fields h = some f) :
    f ∈ fields ∧ f.2.accepts (rb_hash_aref h f.1) = false := by
  unfold first_bad at hf
  refine ⟨List.mem_of_find?_eq_some hf, ?_⟩
  have := List.find?_some hf
  simpa using this

theorem setup_learn_params_spec (c : LEARN_PARM) (h : Hash) (e : String) :
    match first_bad learn_fields h with
    | none => (setup_learn_params c h e).1 = 0 ∧ (setup_learn_params c h e).2.2 = e
    | some f => rejects_with (setup_learn_params c h e) (type_error_message f.1 f.2) := by
  rw [setup_learn_params_eq_run]
  exact run_steps_spec learn_steps learn_fields learn_steps_ok c h e

theorem setup_kernel_params_spec (c : KERNEL_PARM) (h : Hash) (e : String) :
    match first_bad kernel_fields h with
    | none => (setup_kernel_params c h e).1 = 0 ∧ (setup_kernel_params c h e).2.2 = e
    | some f => rejects_with (setup_kernel_params c h e) (type_error_message f.1 f.2) := by
  rw [setup_kernel_params_eq_run]
  exact run_steps_spec kernel_steps kernel_fields kernel_steps_ok c h e

theorem setup_learn_params_accepts (c : LEARN_PARM) (h : Hash) (e : String)
    (hs : (setup_learn_params c h e).1 = 0) :
    ∀ f ∈ learn_fields, f.2.accepts (rb_hash_aref h f.1) = true := by
  rw [← first_bad_eq_none_iff]
  have hspec := setup_learn_params_spec c h e
  cases hf : first_bad learn_fields h with
  | none => rfl
  | some f =>
    rw [hf] at hspec
    rw [hspec.1] at hs
    exact absurd hs (by decide)

theorem setup_kernel_params_accepts (c : KERNEL_PARM) (h : Hash) (e : String)
    (hs : (setup_kernel_params c h e).1 = 0) :
    ∀ f ∈ kernel_fields, f.2.accepts (rb_hash_aref h f.1) = true := by
  rw [← first_bad_eq_none_iff]
  have hspec := setup_kernel_params_spec c h e
  cases hf : first_bad kernel_fields h with
  | none => rfl
  | some f =>
    rw [hf] at hspec
    rw [hspec.1] at hs
    exact absurd hs (by decide)

theorem accepts_nil (k : FieldKind) : k.accepts .Qnil = true := by
  cases k <;> rfl

/-- C4. Defaults: with the empty hash, and with any hash in which every
recognised key is absent or `nil`, `setup_learn_params` and
`setup_kernel_params` succeed and leave exactly the documented defaults; when
a setup function succeeds on an arbitrary hash, every option whose key is
absent or `nil` holds its documented default; `custom` is always "empty"; and
no per-field check fails on `nil`. -/
theorem defaults_assigned (c : LEARN_PARM) (kc : KERNEL_PARM) (h : Hash) (e : String) :
    setup_learn_params c [] e = (0, default_learn_parm c.type, e) ∧
    setup_kernel_params kc [] e = (0, default_kernel_parm kc.kernel_type, e) ∧
    ((∀ f ∈ learn_fields, rb_hash_aref h f.1 = .Qnil) →
      setup_learn_params c h e = (0, default_learn_parm c.type, e)) ∧
    ((∀ f ∈ kernel_fields, rb_hash_aref h f.1 = .Qnil) →
      setup_kernel_params kc h e = (0, default_kernel_parm kc.kernel_type, e)) ∧
    ((setup_learn_params c h e).1 = 0 →
      (rb_hash_aref h "predfile" = .Qnil →
        (setup_learn_params c h e).2.1.predfile = "trans_predictions") ∧
      (rb_hash_aref h "alphafile" = .Qnil →
        (setup_learn_params c h e).2.1.alphafile = "") ∧
      (rb_hash_aref h "biased_hyperplane" = .Qnil →
        (setup_learn_params c h e).2.1.biased_hyperplane = 1) ∧
      (rb_hash_aref h "sharedslack" = .Qnil →
        (setup_learn_params c h e).2.1.sharedslack = 0) ∧
      (rb_hash_aref h "remove_inconsistent" = .Qnil →
        (setup_learn_params c h e).2.1.remove_inconsistent = 0) ∧
      (rb_hash_aref h "skip_final_opt_check" = .Qnil →
        (setup_learn_params c h e).2.1.skip_final_opt_check = 0) ∧
      (rb_hash_aref h "svm_newvarsinqp" = .Qnil →
        (setup_learn_params c h e).2.1.svm_newvarsinqp = 0) ∧
      (rb_hash_aref h "compute_loo" = .Qnil →
        (setup_learn_params c h e).2.1.compute_loo = 0) ∧
      (rb_hash_aref h "svm_maxqpsize" = .Qnil →
        (setup_learn_params c h e).2.1.svm_maxqpsize = 10) ∧
      (rb_hash_aref h "svm_iter_to_shrink" = .Qnil →
        (setup_learn_params c h e).2.1.svm_iter_to_shrink = -9999) ∧
      (rb_hash_aref h "maxiter" = .Qnil →
        (setup_learn_params c h e).2.1.maxiter = 100000) ∧
      (rb_hash_aref h "kernel_cache_size" = .Qnil →
        (setup_learn_params c h e).2.1.kernel_cache_size = 40) ∧
      (rb_hash_aref h "xa_depth" = .Qnil →
        (setup_learn_params c h e).2.1.xa_depth = 0) ∧
      (rb_hash_aref h "svm_c" = .Qnil →
        (setup_learn_params c h e).2.1.svm_c = Dbl.dec 0 0) ∧
      (rb_hash_aref h "eps" = .Qnil →
        (setup_learn_params c h e).2.1.eps = Dbl.dec 1 (-1)) ∧
      (rb_hash_aref h "transduction_posratio" = .Qnil →
        (setup_learn_params c h e).2.1.transduction_posratio = Dbl.dec (-1) 0) ∧
      (rb_hash_aref h "svm_costratio" = .Qnil →
        (setup_learn_params c h e).2.1.svm_costratio = Dbl.dec 1 0) ∧
      (rb_hash_aref h "svm_costratio_unlab" = .Qnil →
        (setup_learn_params c h e).2.1.svm_costratio_unlab = Dbl.dec 1 0) ∧
      (rb_hash_aref h "svm_unlabbound" = .Qnil →
        (setup_learn_params c h e).2.1.svm_unlabbound = Dbl.dec 1 (-5)) ∧
      (rb_hash_aref h "epsilon_crit" = .Qnil →
        (setup_learn_params c h e).2.1.epsilon_crit = Dbl.dec 1 (-3)) ∧
      (rb_hash_aref h "epsilon_a" = .Qnil →
        (setup_learn_params c h e).2.1.epsilon_a = Dbl.dec 1 (-15)) ∧
      (rb_hash_aref h "rho" = .Qnil →
        (setup_learn_params c h e).2.1.rho = Dbl.dec 1 0)) ∧
    ((setup_kernel_params kc h e).1 = 0 →
      (rb_hash_aref h "poly_degree" = .Qnil →
        (setup_kernel_params kc h e).2.1.poly_degree = 3) ∧
      (rb_hash_aref h "rbf_gamma" = .Qnil →
        (setup_kernel_params kc h e).2.1.rbf_gamma = Dbl.dec 1 0) ∧
      (rb_hash_aref h "coef_lin" = .Qnil →
        (setup_kernel_params kc h e).2.1.coef_lin = Dbl.dec 1 0) ∧
      (rb_hash_aref h "coef_const" = .Qnil →
        (setup_kernel_params kc h e).2.1.coef_const = Dbl.dec 1 0) ∧
      (setup_kernel_params kc h e).2.1.custom = "empty") ∧
    (∀ d t n e', check_string_param .Qnil d t n e' = (0, strlcpy d 199, e')) ∧
    (∀ d t n e', check_long_param .Qnil d t n e' = (0, d, e')) ∧
    (∀ d t n e', check_double_param .Qnil d t n e' = (0, d, e')) ∧
    (∀ d t n e', check_bool_param .Qnil d t n e' = (0, d, e')) := by
  have hl : ∀ h' : Hash, (∀ f ∈ learn_fields, rb_hash_aref h' f.1 = .Qnil) →
      setup_learn_params c h' e = (0, default_learn_parm c.type, e) := by
    intro h' hnil
    rw [setup_learn_params_closed c h' e (fun f hf => by rw [hnil f hf]; exact accepts_nil _)]
    have n0 := hnil ("predfile", .string) (by simp [learn_fields])
    have n1 := hnil ("alphafile", .string) (by simp [learn_fields])
    have n2 := hnil ("biased_hyperplane", .boolean) (by simp [learn_fields])
    have n3 := hnil ("sharedslack", .boolean) (by simp [learn_fields])
    have n4 := hnil ("remove_inconsistent", .boolean) (by simp [learn_fields])
    have n5 := hnil ("skip_final_opt_check", .boolean) (by simp [learn_fields])
    have n6 := hnil ("svm_newvarsinqp", .boolean) (by simp [learn_fields])
    have n7 := hnil ("compute_loo", .boolean) (by simp [learn_fields])
    have n8 := hnil ("svm_maxqpsize", .numeric) (by simp [learn_fields])
    have n9 := hnil ("svm_iter_to_shrink", .numeric) (by simp [learn_fields])
    have n10 := hnil ("maxiter", .numeric) (by simp [learn_fields])
    have n11 := hnil ("kernel_cache_size", .numeric) (by simp [learn_fields])
    have n12 := hnil ("xa_depth", .numeric) (by simp [learn_fields])
    have n13 := hnil ("svm_c", .numeric) (by simp [learn_fields])
    have n14 := hnil ("eps", .numeric) (by simp [learn_fields])
    have n15 := hnil ("transduction_posratio", .numeric) (by simp [learn_fields])
    have n16 := hnil ("svm_costratio", .numeric) (by simp [learn_fields])
    have n17 := hnil ("svm_costratio_unlab", .numeric) (by simp [learn_fields])
    have n18 := hnil ("svm_unlabbound", .numeric) (by simp [learn_fields])
    have n19 := hnil ("epsilon_crit", .numeric) (by simp [learn_fields])
    have n20 := hnil ("epsilon_a", .numeric) (by simp [learn_fields])
    have n21 := hnil ("rho", .numeric) (by simp [learn_fields])
    simp only at *
    simp only [learn_of_hash, n0, n1, n2, n3, n4, n5, n6, n7, n8, n9, n10, n11, n12, n13, n14,
      n15, n16, n17, n18, n19, n20, n21]
    rfl
  have hk : ∀ h' : Hash, (∀ f ∈ kernel_fields, rb_hash_aref h' f.1 = .Qnil) →
      setup_kernel_params kc h' e = (0, default_kernel_parm kc.kernel_type, e) := by
    intro h' hnil
    rw [setup_kernel_params_closed kc h' e (fun f hf => by rw [hnil f hf]; exact accepts_nil _)]
    have n0 := hnil ("poly_degree", .numeric) (by simp [kernel_fields])
    have n1 := hnil ("rbf_gamma", .numeric) (by simp [kernel_fields])
    have n2 := hnil ("coef_lin", .numeric) (by simp [kernel_fields])
    have n3 := hnil ("coef_const", .numeric) (by simp [kernel_fields])
    simp only at *
    simp only [kernel_of_hash, n0, n1, n2, n3]
    rfl
  refine ⟨hl [] (fun _ _ => rfl), hk [] (fun _ _ => rfl), hl h, hk h, ?_, ?_,
    fun _ _ _ _ => rfl, fun _ _ _ _ => rfl, fun _ _ _ _ => rfl, fun _ _ _ _ => rfl⟩
  · intro hs
    rw [setup_learn_params_closed c h e (setup_learn_params_accepts c h e hs)]
    simp only [learn_of_hash]
    refine ⟨?_, ?_, ?_, ?_, ?_, ?_, ?_, ?_, ?_, ?_, ?_, ?_, ?_, ?_, ?_, ?_, ?_, ?_, ?_, ?_,
      ?_, ?_⟩
    · intro hn; rw [hn]; rfl
    · intro hn; rw [hn]; rfl
    · intro hn; rw [hn]; rfl
    · intro hn; rw [hn]; rfl
    · intro hn; rw [hn]; rfl
    · intro hn; rw [hn]; rfl
    · intro hn; rw [hn]; rfl
    · intro hn; rw [hn]; rfl
    · intro hn; rw [hn]; rfl
    · intro hn; rw [hn]; rfl
    · intro hn; rw [hn]; rfl
    · intro hn; rw [hn]; rfl
    · intro hn; rw [hn]; rfl
    · intro hn; rw [hn]; rfl
    · intro hn; rw [hn]; rfl
    · intro hn; rw [hn]; rfl
    · intro hn; rw [hn]; rfl
    · intro hn; rw [hn]; rfl
    · intro hn; rw [hn]; rfl
    · intro hn; rw [hn]; rfl
    · intro hn; rw [hn]; rfl
    · intro hn; rw [hn]; rfl
  · intro hs
    rw [setup_kernel_params_closed kc h e (setup_kernel_params_accepts kc h e hs)]
    simp only [kernel_of_hash]
    refine ⟨?_, ?_, ?_, ?_, ?_⟩
    · intro hn; rw [hn]; rfl
    · intro hn; rw [hn]; rfl
    · intro hn; rw [hn]; rfl
    · intro hn; rw [hn]; rfl
    · decide

/-- Witness of C4: with only `svm_c` given, `setup_learn_params` succeeds and
`predfile`, whose key is absent, holds its default. -/
theorem defaults_assigned_witness :
    (setup_learn_params (default_learn_parm 0) [("svm_c", .fixnum 2)] "").1 = 0 ∧
    rb_hash_aref [("svm_c", .fixnum 2)] "predfile" = .Qnil ∧
    (setup_learn_params (default_learn_parm 0) [("svm_c", .fixnum 2)] "").2.1.predfile =
      "trans_predictions" :=
  ⟨by decide, rfl,
   ((defaults_assigned (default_learn_parm 0) (default_kernel_parm 0)
      [("svm_c", .fixnum 2)] "").2.2.2.2.1 (by decide)).1 rfl⟩

/-- C5. Type errors are fail-fast. `setup_learn_params` returns 1 exactly when
some learning option has a value that is neither `nil` nor of the expected
type (a String for `predfile` and `alphafile`; `true` or `false` for the six
flags from `biased_hyperplane` to `compute_loo`, `svm_newvarsinqp` among them;
a Float or a Fixnum for the others), and returns 0 otherwise; on failure the
message names the first such option in validation order and the expected type;
and the result does not depend on the value of any option after that one.
The same holds of `setup_kernel_params` and the kernel options. -/
theorem type_errors_fail_fast (c : LEARN_PARM) (kc : KERNEL_PARM) (h : Hash) (e : String) :
    ((setup_learn_params c h e).1 = 1 ↔
      ∃ f ∈ learn_fields, f.2.accepts (rb_hash_aref h f.1) = false) ∧
    ((setup_learn_params c h e).1 = 0 ↔
      ∀ f ∈ learn_fields, f.2.accepts (rb_hash_aref h f.1) = true) ∧
    (∀ f, first_bad learn_fields h = some f →
      rejects_with (setup_learn_params c h e) (type_error_message f.1 f.2)) ∧
    (∀ h' : Hash,
      (∀ name ∈ examined learn_fields h, rb_hash_aref h' name = rb_hash_aref h name) →
      setup_learn_params c h' e = setup_learn_params c h e) ∧
    ((setup_kernel_params kc h e).1 = 1 ↔
      ∃ f ∈ kernel_fields, f.2.accepts (rb_hash_aref h f.1) = false) ∧
    ((setup_kernel_params kc h e).1 = 0 ↔
      ∀ f ∈ kernel_fields, f.2.accepts (rb_hash_aref h f.1) = true) ∧
    (∀ f, first_bad kernel_fields h = some f →
      rejects_with (setup_kernel_params kc h e) (type_error_message f.1 f.2)) ∧
    (∀ h' : Hash,
      (∀ name ∈ examined kernel_fields h, rb_hash_aref h' name = rb_hash_aref h name) →
      setup_kernel_params kc h' e = setup_kernel_params kc h e) := by
  have gen : ∀ (fields : List (String × FieldKind)) (res : Int × String),
      (match first_bad fields h with
        | none => res.1 = 0 ∧ res.2 = e
        | some f => res.1 = 1 ∧ res.2 = type_error_message f.1 f.2) →
      (res.1 = 1 ↔ ∃ f ∈ fields, f.2.accepts (rb_hash_aref h f.1) = false) ∧
      (res.1 = 0 ↔ ∀ f ∈ fields, f.2.accepts (rb_hash_aref h f.1) = true) ∧
      (∀ f, first_bad fields h = some f → res.1 = 1 ∧ res.2 = type_error_message f.1 f.2) := by
    intro fields res hspec
    cases hf : first_bad fields h with
    | none =>
      rw [hf] at hspec
      have hall := (first_bad_eq_none_iff fields h).mp hf
      refine ⟨?_, ?_, ?_⟩
      · rw [hspec.1]
        constructor
        · intro h01; exact absurd h01 (by decide)
        · rintro ⟨f, hmem, hacc⟩
          rw [hall f hmem] at hacc
          exact absurd hacc (by decide)
      · rw [hspec.1]
        exact ⟨fun _ => hall, fun _ => rfl⟩
      · intro f hsome
        exact absurd hsome (by simp)
    | some f =>
      rw [hf] at hspec
      obtain ⟨hmem, hacc⟩ := first_bad_eq_some fields h f hf
      refine ⟨?_, ?_, ?_⟩
      · rw [hspec.1]
        exact ⟨fun _ => ⟨f, hmem, hacc⟩, fun _ => rfl⟩
      · rw [hspec.1]
        constructor
        · intro h10; exact absurd h10 (by decide)
        · intro hall
          rw [hall f hmem] at hacc
          exact absurd hacc (by decide)
      · intro g hg
        cases Option.some.inj hg
        exact hspec
  obtain ⟨l1, l2, l3⟩ := gen learn_fields
    ((setup_learn_params c h e).1, (setup_learn_params c h e).2.2)
    (setup_learn_params_spec c h e)
  obtain ⟨k1, k2, k3⟩ := gen kernel_fields
    ((setup_kernel_params kc h e).1, (setup_kernel_params kc h e).2.2)
    (setup_kernel_params_spec kc h e)
  refine ⟨l1, l2, l3, ?_, k1, k2, k3, ?_⟩
  · intro h' hagree
    rw [setup_learn_params_eq_run, setup_learn_params_eq_run]
    exact run_steps_examined learn_steps learn_fields learn_steps_ok c h h' e hagree
  · intro h' hagree
    rw [setup_kernel_params_eq_run, setup_kernel_params_eq_run,
      run_steps_examined kernel_steps kernel_fields kernel_steps_ok kc h h' e hagree]

/-- Witness of C5: with a String for `sharedslack` and an Array for `maxiter`,
the message names `sharedslack`, the first of the two in validation order, and
replacing the value of `maxiter` changes nothing. -/
theorem type_errors_fail_fast_witness :
    first_bad learn_fields [("maxiter", .array []), ("sharedslack", .string "yes")] =
      some ("sharedslack", .boolean) ∧
    rejects_with
      (setup_learn_params (default_learn_parm 0)
        [("maxiter", .array []), ("sharedslack", .string "yes")] "")
      "The value of the learning option 'sharedslack' must be a true or false" :=
  ⟨by decide,
   (type_errors_fail_fast (default_learn_parm 0) (default_kernel_parm 0)
      [("maxiter", .array []), ("sharedslack", .string "yes")] "").2.2.1
      ("sharedslack", .boolean) (by decide)⟩

theorem FIX2LONG_INT2FIX (n : Int) : FIX2LONG (INT2FIX n) = n := by
  unfold FIX2LONG INT2FIX
  omega

theorem strlcpy_eq_self (s : String) (size : Nat) (hlen : s.length + 1 ≤ size)
    (hnul : ∀ ch ∈ s.data, ch ≠ Char.ofNat 0) : strlcpy s size = s := by
  unfold strlcpy
  have h1 : s.data.takeWhile (fun ch => decide (ch ≠ Char.ofNat 0)) = s.data := by
    rw [List.takeWhile_eq_self_iff]
    intro ch hch
    simpa using hnul ch hch
  rw [h1, List.take_of_length_le]
  have : s.data.length = s.length := rfl
  omega

/-- What `check_long_param` stores for the Float `10.0`, whose machine word
as an immediate value is `0x0120000000000002`: half of that word, not 10. -/
theorem check_long_param_float :
    check_long_param (.float (Dbl.fin 10) 0x0120000000000002) 10 0 "svm_maxqpsize" "" =
      (0, 40532396646334465, "") := by
  decide

set_option maxRecDepth 100000 in
/-- Counterexample to C6 as stated: a String of 250 characters is of the
expected type for `predfile`, the check succeeds, and the field holds only its
first 198 characters. -/
theorem string_option_truncated :
    (check_string_param (.string ⟨List.replicate 250 'a'⟩) "trans_predictions" ""
      "predfile" "").1 = 0 ∧
    (check_string_param (.string ⟨List.replicate 250 'a'⟩) "trans_predictions" ""
      "predfile" "").2.1 = ⟨List.replicate 198 'a'⟩ ∧
    (check_string_param (.string ⟨List.replicate 250 'a'⟩) "trans_predictions" ""
      "predfile" "").2.1 ≠ ⟨List.replicate 250 'a'⟩ := by
  decide

/-- C6 (amended). A present value of the expected type passes its check and is
stored coerced: `true` as 1 and `false` as 0; a Fixnum `n` as `n` in an integer
option; a Float as its value and a Fixnum `n` as `(double)n` in a real option,
which is `n` itself up to `2 ^ 53` in absolute value; a String as its
characters before the first NUL, cut to 198 characters, which is the String
itself when it is that short and holds no NUL; a `nil` value stores the
default; and when `setup_learn_params` or `setup_kernel_params` succeeds,
every field holds the value coerced in this way. -/
theorem coerce_and_assign :
    (∀ (d t : Int) (n e : String), check_bool_param .Qtrue d t n e = (0, 1, e)) ∧
    (∀ (d t : Int) (n e : String), check_bool_param .Qfalse d t n e = (0, 0, e)) ∧
    (∀ (m d t : Int) (n e : String), check_long_param (.fixnum m) d t n e = (0, m, e)) ∧
    (∀ (x : Dbl) (w : Int) (d t : Dbl) (n e : String),
      check_double_param (.float x w) d t n e = (0, x, e)) ∧
    (∀ (m : Int) (d t : Dbl) (n e : String),
      check_double_param (.fixnum m) d t n e = (0, long_to_double m, e)) ∧
    (∀ m : Int, m.natAbs ≤ 2 ^ 53 → long_to_double m = Dbl.fin m) ∧
    (∀ (s d t n e : String), check_string_param (.string s) d t n e = (0, strlcpy s 199, e)) ∧
    (∀ s : String, s.length ≤ 198 → (∀ ch ∈ s.data, ch ≠ Char.ofNat 0) → strlcpy s 199 = s) ∧
    (∀ (d t : Int) (n e : String), check_bool_param .Qnil d t n e = (0, d, e)) ∧
    (∀ (d t : Int) (n e : String), check_long_param .Qnil d t n e = (0, d, e)) ∧
    (∀ (d t : Dbl) (n e : String), check_double_param .Qnil d t n e = (0, d, e)) ∧
    (∀ (d t n e : String), check_string_param .Qnil d t n e = (0, strlcpy d 199, e)) ∧
    (∀ (c : LEARN_PARM) (h : Hash) (e : String), (setup_learn_params c h e).1 = 0 →
      (setup_learn_params c h e).2.1 = learn_of_hash c.type h) ∧
    (∀ (c : KERNEL_PARM) (h : Hash) (e : String), (setup_kernel_params c h e).1 = 0 →
      (setup_kernel_params c h e).2.1 = kernel_of_hash c.kernel_type h) := by
  refine ⟨fun _ _ _ _ => rfl, fun _ _ _ _ => rfl, ?_, fun _ _ _ _ _ _ => rfl,
    fun _ _ _ _ _ => rfl, ?_, fun _ _ _ _ _ => rfl, ?_, fun _ _ _ _ => rfl,
    fun _ _ _ _ => rfl, fun _ _ _ _ => rfl, fun _ _ _ _ => rfl, ?_, ?_⟩
  · intro m d t n e
    simp only [check_long_param, FIX2LONG_INT2FIX]
  · intro m hm
    unfold long_to_double
    rw [if_pos hm]
  · intro s hlen hnul
    exact strlcpy_eq_self s 199 (by omega) hnul
  · intro c h e hs
    rw [setup_learn_params_closed c h e (setup_learn_params_accepts c h e hs)]
  · intro c h e hs
    rw [setup_kernel_params_closed c h e (setup_kernel_params_accepts c h e hs)]

/-- Witness of C6 (amended): the Fixnum 7 is stored as the double 7, the
String "model.alpha" is stored whole, and `setup_learn_params` on a hash that
gives `maxiter` holds that value in the field. -/
theorem coerce_and_assign_witness :
    long_to_double 7 = Dbl.fin 7 ∧
    strlcpy "model.alpha" 199 = "model.alpha" ∧
    (setup_learn_params (default_learn_parm 0) [("maxiter", .fixnum 500)] "").2.1 =
      learn_of_hash 0 [("maxiter", .fixnum 500)] ∧
    (learn_of_hash 0 [("maxiter", .fixnum 500)]).maxiter = 500 :=
  ⟨coerce_and_assign.2.2.2.2.2.1 7 (by decide),
   coerce_and_assign.2.2.2.2.2.2.2.1 "model.alpha" (by decide) (by decide),
   coerce_and_assign.2.2.2.2.2.2.2.2.2.2.2.2.1 (default_learn_parm 0)
     [("maxiter", .fixnum 500)] "" (by decide),
   by decide⟩

/-! ## Theorems: document construction -/

theorem doc_create_words_ok (ws : List VALUE) (words : List WORD)
    (h : doc_create_words ws = .ok words) :
    words = ws.map entry_word ∧ ∀ w ∈ ws, 0 < entry_index w := by
  induction ws generalizing words with
  | nil =>
    unfold doc_create_words at h
    cases Outcome.ok.inj h
    exact ⟨rfl, by simp⟩
  | cons w rest ih =>
    unfold doc_create_words at h
    split at h
    · exact absurd h (fun h' => Outcome.noConfusion h')
    · exact absurd h (fun h' => Outcome.noConfusion h')
    · rename_i n x word tl
      split_ifs at h with hn
      obtain ⟨tlw, htl, hok⟩ := bind_eq_ok _ _ _ h
      obtain ⟨ih1, ih2⟩ := ih tlw htl
      cases Outcome.ok.inj hok
      rw [FIX2LONG_INT2FIX] at hn ⊢
      refine ⟨by rw [ih1]; rfl, ?_⟩
      intro w' hw'
      rcases List.mem_cons.mp hw' with hw' | hw'
      · subst hw'; simp only [entry_index]; omega
      · exact ih2 w' hw'
    · rename_i n wt tl
      split_ifs at h with hn
      obtain ⟨tlw, htl, hok⟩ := bind_eq_ok _ _ _ h
      obtain ⟨ih1, ih2⟩ := ih tlw htl
      cases Outcome.ok.inj hok
      rw [FIX2LONG_INT2FIX] at hn ⊢
      refine ⟨by rw [ih1]; rfl, ?_⟩
      intro w' hw'
      rcases List.mem_cons.mp hw' with hw' | hw'
      · subst hw'; simp only [entry_index]; omega
      · exact ih2 w' hw'
    · exact absurd h (fun h' => Outcome.noConfusion h')
    · exact absurd h (fun h' => Outcome.noConfusion h')
    · exact absurd h (fun h' => Outcome.noConfusion h')

/-- How the loop of `doc_create` ends on a feature list none of whose entries
makes it read past the entry: with the words, and then no entry is faulty; or
with the error of a faulty entry. -/
theorem doc_create_words_cases (ws : List VALUE)
    (hshape : ∀ w ∈ ws, reads_past_end w = false) :
    ((∃ words, doc_create_words ws = .ok words) ∧
      ∀ w ∈ ws, entry_bad_index w = false ∧ entry_bad_weight w = false) ∨
    (doc_create_words ws = .raise (.ArgError "Feature weights must be numeric") ∧
      ∃ w ∈ ws, entry_bad_weight w = true) ∨
    (doc_create_words ws = .raise (.ArgError "Feature number has to be greater than zero") ∧
      ∃ w ∈ ws, entry_bad_index w = true) ∨
    (∃ t, doc_create_words ws = .raise (.TypeError t) ∧
      ∃ w ∈ ws, entry_has_index w = false) := by
  induction ws with
  | nil => exact Or.inl ⟨⟨[], rfl⟩, by simp⟩
  | cons w rest ih =>
    have hrest : ∀ w' ∈ rest, reads_past_end w' = false :=
      fun w' hw' => hshape w' (List.mem_cons_of_mem _ hw')
    have hhead := hshape w (List.mem_cons_self _ _)
    have lift : ∀ (f : List WORD → Outcome (List WORD)),
        (∀ tl, ∃ r, f tl = .ok r) →
        entry_bad_index w = false → entry_bad_weight w = false →
        ((∃ words, (doc_create_words rest).bind f = .ok words) ∧
          ∀ w' ∈ w :: rest, entry_bad_index w' = false ∧ entry_bad_weight w' = false) ∨
        ((doc_create_words rest).bind f = .raise (.ArgError "Feature weights must be numeric") ∧
          ∃ w' ∈ w :: rest, entry_bad_weight w' = true) ∨
        ((doc_create_words rest).bind f =
            .raise (.ArgError "Feature number has to be greater than zero") ∧
          ∃ w' ∈ w :: rest, entry_bad_index w' = true) ∨
        (∃ t, (doc_create_words rest).bind f = .raise (.TypeError t) ∧
          ∃ w' ∈ w :: rest, entry_has_index w' = false) := by
      intro f hf hi hw
      rcases ih hrest with ⟨⟨words, hok⟩, hall⟩ | ⟨hr, w', hm, hb⟩ | ⟨hr, w', hm, hb⟩ |
        ⟨t, hr, w', hm, hb⟩
      · left
        refine ⟨?_, ?_⟩
        · rw [hok]; exact hf words
        · intro w' hw'
          rcases List.mem_cons.mp hw' with hw' | hw'
          · subst hw'; exact ⟨hi, hw⟩
          · exact hall w' hw'
      · right; left
        exact ⟨by rw [hr]; rfl, w', List.mem_cons_of_mem _ hm, hb⟩
      · right; right; left
        exact ⟨by rw [hr]; rfl, w', List.mem_cons_of_mem _ hm, hb⟩
      · right; right; right
        exact ⟨t, by rw [hr]; rfl, w', List.mem_cons_of_mem _ hm, hb⟩
    unfold doc_create_words
    split
    · exact absurd hhead (by simp [reads_past_end])
    · exact absurd hhead (by simp [reads_past_end])
    · rename_i n x word tl
      rw [FIX2LONG_INT2FIX]
      split_ifs with hn
      · right; right; left
        exact ⟨rfl, _, List.mem_cons_self _ _, by simp [entry_bad_index, hn]⟩
      · exact lift _ (fun tl => ⟨_, rfl⟩) (by simp [entry_bad_index, hn])
          (by simp [entry_bad_weight, is_numeric])
    · rename_i n wt tl
      rw [FIX2LONG_INT2FIX]
      split_ifs with hn
      · right; right; left
        exact ⟨rfl, _, List.mem_cons_self _ _, by simp [entry_bad_index, hn]⟩
      · exact lift _ (fun tl => ⟨_, rfl⟩) (by simp [entry_bad_index, hn])
          (by simp [entry_bad_weight, is_numeric])
    · rename_i n b tl h1 h2
      right; left
      refine ⟨rfl, _, List.mem_cons_self _ _, ?_⟩
      cases b <;> simp [entry_bad_weight, is_numeric] <;> simp_all
    · rename_i inner a tl h2 h3 h4 h5
      right; right; right
      refine ⟨_, rfl, _, List.mem_cons_self _ _, ?_⟩
      cases a <;> first | rfl | skip
      cases tl with
      | nil => exact (h2 _ rfl rfl).elim
      | cons b tl' => exact (h5 _ _ _ rfl rfl).elim
    · rename_i inner h1 h2 h3 h4 h5 h6
      right; right; right
      refine ⟨_, rfl, _, List.mem_cons_self _ _, ?_⟩
      cases w <;> first | rfl | skip
      rename_i elems
      cases elems with
      | nil => exact (h1 rfl).elim
      | cons a tl => exact (h6 _ _ rfl).elim

theorem copy_through_sentinel (l : List WORD) (junk : Dbl) (h : ∀ w ∈ l, w.wnum ≠ 0) :
    create_svector.copy (l ++ [{ wnum := 0, weight := junk }]) =
      l ++ [{ wnum := 0, weight := junk }] := by
  induction l with
  | nil => rfl
  | cons w rest ih =>
    have hw : w.wnum ≠ 0 := h w (List.mem_cons_self _ _)
    have hrest : ∀ w' ∈ rest, w'.wnum ≠ 0 := fun w' hw' => h w' (List.mem_cons_of_mem _ hw')
    have ih' := ih hrest
    simp only [List.cons_append, create_svector.copy, if_neg hw]
    exact congrArg (List.cons w) ih'

/-- C9. With Fixnum `slackid` and `queryid`, `doc_create` raises
"Cannot create Document from empty arrays" on the empty feature list; and on a
feature list in which some entry has a feature number `<= 0` or a weight that
is neither Float nor Fixnum (no entry being so short that the loop reads past
it), it raises and builds no Document: either "Feature weights must be
numeric", and then some entry has such a weight; or "Feature number has to be
greater than zero", and then some entry has such a number; or a `TypeError`,
and then some entry is not an Array starting with a Fixnum. -/
theorem doc_create_rejects (id cost : VALUE) (s q : Int) (ws : List VALUE) (junk : Dbl) :
    doc_create id cost (.fixnum s) (.fixnum q) (.array []) junk =
      .raise (.ArgError "Cannot create Document from empty arrays") ∧
    ((∀ w ∈ ws, reads_past_end w = false) →
      (∃ w ∈ ws, entry_bad_index w = true ∨ entry_bad_weight w = true) →
      (doc_create id cost (.fixnum s) (.fixnum q) (.array ws) junk =
          .raise (.ArgError "Feature weights must be numeric") ∧
        ∃ w ∈ ws, entry_bad_weight w = true) ∨
      (doc_create id cost (.fixnum s) (.fixnum q) (.array ws) junk =
          .raise (.ArgError "Feature number has to be greater than zero") ∧
        ∃ w ∈ ws, entry_bad_index w = true) ∨
      (∃ t, doc_create id cost (.fixnum s) (.fixnum q) (.array ws) junk =
          .raise (.TypeError t) ∧
        ∃ w ∈ ws, entry_has_index w = false)) := by
  refine ⟨rfl, ?_⟩
  intro hshape ⟨wb, hwb, hbad⟩
  have hne : ¬ ws.length = 0 := by
    intro h0
    rw [List.length_eq_zero] at h0
    rw [h0] at hwb
    exact absurd hwb (List.not_mem_nil _)
  unfold doc_create
  simp only [if_neg hne]
  rcases doc_create_words_cases ws hshape with ⟨-, hall⟩ | ⟨hr, hex⟩ | ⟨hr, hex⟩ | ⟨t, hr, hex⟩
  · obtain ⟨h1, h2⟩ := hall wb hwb
    rcases hbad with hbad | hbad
    · rw [h1] at hbad; exact absurd hbad (by decide)
    · rw [h2] at hbad; exact absurd hbad (by decide)
  · left; exact ⟨by rw [hr]; rfl, hex⟩
  · right; left; exact ⟨by rw [hr]; rfl, hex⟩
  · right; right; exact ⟨t, by rw [hr]; rfl, hex⟩

/-- Witness of C9: the feature list `[[3, 1.5], [0, 2]]`, whose second entry
has the feature number 0, is rejected with the message about feature
numbers. -/
theorem doc_create_rejects_witness :
    entry_bad_index (.array [.fixnum 0, .fixnum 2]) = true ∧
    doc_create (.fixnum 1) (.fixnum 1) (.fixnum 0) (.fixnum 0)
        (.array [.array [.fixnum 3, .float (Dbl.fin (3 / 2)) 0], .array [.fixnum 0, .fixnum 2]])
        Dbl.nan =
      .raise (.ArgError "Feature number has to be greater than zero") := by
  refine ⟨rfl, ?_⟩
  rcases (doc_create_rejects (.fixnum 1) (.fixnum 1) 0 0
      [.array [.fixnum 3, .float (Dbl.fin (3 / 2)) 0], .array [.fixnum 0, .fixnum 2]]
      Dbl.nan).2
      (by intro w hw; simp at hw; rcases hw with rfl | rfl <;> rfl)
      ⟨_, List.mem_cons_of_mem _ (List.mem_cons_self _ _), Or.inl rfl⟩ with
    ⟨-, w, hw, hb⟩ | ⟨h, -⟩ | ⟨t, -, w, hw, hb⟩
  · simp at hw; rcases hw with rfl | rfl <;> simp [entry_bad_weight, is_numeric] at hb
  · exact h
  · simp at hw; rcases hw with rfl | rfl <;> simp [entry_has_index] at hb

/-- Counterexample to C10 as stated: `doc_create` succeeds on the feature list
`[[2, 1], [1, 1]]` and the stored vector lists feature 2 before feature 1. -/
theorem doc_create_keeps_caller_order :
    doc_create (.fixnum 1) (.fixnum 1) (.fixnum 0) (.fixnum 0) unsorted_features Dbl.nan =
      .ok { docnum := 1, queryid := 0, slackid := 0, costfactor := Dbl.fin 1,
            fvec := { words := [{ wnum := 2, weight := Dbl.fin 1 },
                                { wnum := 1, weight := Dbl.fin 1 },
                                { wnum := 0, weight := Dbl.nan }],
                      userdefined := "", factor := Dbl.fin 1 } } ∧
    ¬ List.Pairwise (fun a b : Int => a ≤ b) [2, 1] := by
  decide

/-- C10 (amended). After a successful `doc_create` the stored vector holds the
caller's features in the caller's order, each with a positive feature number,
followed by one sentinel word with `wnum = 0`; so it is in ascending order of
feature number exactly when the caller's list is. -/
theorem doc_create_stores_in_order (id cost slackid queryid words_ary : VALUE) (junk : Dbl)
    (d : DOC) (h : doc_create id cost slackid queryid words_ary junk = .ok d) :
    ∃ ws : List VALUE, words_ary = .array ws ∧ ws ≠ [] ∧
      d.fvec.words = ws.map entry_word ++ [{ wnum := 0, weight := junk }] ∧
      (∀ w ∈ ws, 0 < entry_index w) ∧
      d.fvec.words.dropLast.map WORD.wnum = ws.map entry_index ∧
      d.fvec.words.getLast? = some { wnum := 0, weight := junk } ∧
      (List.Pairwise (fun a b : Int => a < b) (d.fvec.words.dropLast.map WORD.wnum) ↔
        List.Pairwise (fun a b : Int => a < b) (ws.map entry_index)) := by
  unfold doc_create at h
  rcases words_ary with _ | _ | _ | _ | _ | _ | ws | _ | _ | _ <;>
    first
      | exact absurd h (fun h' => Outcome.noConfusion h')
      | skip
  rcases slackid with _ | _ | _ | sl | _ | _ | _ | _ | _ | _ <;>
    first
      | exact absurd h (fun h' => Outcome.noConfusion h')
      | skip
  rcases queryid with _ | _ | _ | qu | _ | _ | _ | _ | _ | _ <;>
    first
      | exact absurd h (fun h' => Outcome.noConfusion h')
      | skip
  dsimp only at h
  split_ifs at h with hlen
  obtain ⟨filled, hfilled, h1⟩ := bind_eq_ok _ _ _ h
  obtain ⟨c, -, h2⟩ := bind_eq_ok _ _ _ h1
  obtain ⟨docnum, -, h3⟩ := bind_eq_ok _ _ _ h2
  obtain ⟨hmap, hpos⟩ := doc_create_words_ok ws filled hfilled
  have hd : d = _ := (Outcome.ok.inj h3).symm
  have hnz : ∀ w ∈ filled, w.wnum ≠ 0 := by
    intro w hw
    rw [hmap] at hw
    obtain ⟨v, hv, rfl⟩ := List.mem_map.mp hw
    have := hpos v hv
    simp only [entry_word]
    omega
  have hwords : d.fvec.words = ws.map entry_word ++ [{ wnum := 0, weight := junk }] := by
    rw [hd]
    simp only [create_example, create_svector]
    rw [copy_through_sentinel filled junk hnz, hmap]
  have hdrop : d.fvec.words.dropLast.map WORD.wnum = ws.map entry_index := by
    rw [hwords, List.dropLast_concat, List.map_map]
    rfl
  refine ⟨ws, rfl, ?_, hwords, hpos, hdrop, ?_, ?_⟩
  · intro hnil; apply hlen; rw [hnil]; rfl
  · rw [hwords, List.getLast?_concat]
  · rw [hdrop]

/-- Witness of C10 (amended): the document built from `[[2, 1], [1, 1]]`
stores the feature numbers 2, 1 in that order before the sentinel. -/
theorem doc_create_stores_in_order_witness :
    ∃ ws : List VALUE, unsorted_features = .array ws ∧ ws ≠ [] ∧
      [({ wnum := 2, weight := Dbl.fin 1 } : WORD), { wnum := 1, weight := Dbl.fin 1 },
        { wnum := 0, weight := Dbl.nan }] =
        ws.map entry_word ++ [{ wnum := 0, weight := Dbl.nan }] :=
  let ⟨ws, h1, h2, h3, _⟩ :=
    doc_create_stores_in_order (.fixnum 1) (.fixnum 1) (.fixnum 0) (.fixnum 0)
      unsorted_features Dbl.nan
      { docnum := 1, queryid := 0, slackid := 0, costfactor := Dbl.fin 1,
        fvec := { words := [{ wnum := 2, weight := Dbl.fin 1 },
                            { wnum := 1, weight := Dbl.fin 1 },
                            { wnum := 0, weight := Dbl.nan }],
                  userdefined := "", factor := Dbl.fin 1 } }
      (by decide)
  ⟨ws, h1, h2, h3⟩

/-! ## Theorems: documents and training -/

/-- What a successful `doc_create` has gone through. -/
theorem doc_create_ok (id cost slackid queryid words_ary : VALUE) (junk : Dbl) (d : DOC)
    (h : doc_create id cost slackid queryid words_ary junk = .ok d) :
    ∃ (ws : List VALUE) (s q : Int) (filled : List WORD) (c : Dbl) (docnum : Int),
      words_ary = .array ws ∧ slackid = .fixnum s ∧ queryid = .fixnum q ∧ ws ≠ [] ∧
      doc_create_words ws = .ok filled ∧ NUM2DBL cost = .ok c ∧ FIX2INT id = .ok docnum ∧
      d = create_example docnum q s c
        (create_svector (filled ++ [{ wnum := 0, weight := junk }]) "" (Dbl.dec 1 0)) := by
  unfold doc_create at h
  rcases words_ary with _ | _ | _ | _ | _ | _ | ws | _ | _ | _ <;>
    first
      | exact absurd h (fun h' => Outcome.noConfusion h')
      | skip
  rcases slackid with _ | _ | _ | sl | _ | _ | _ | _ | _ | _ <;>
    first
      | exact absurd h (fun h' => Outcome.noConfusion h')
      | skip
  rcases queryid with _ | _ | _ | qu | _ | _ | _ | _ | _ | _ <;>
    first
      | exact absurd h (fun h' => Outcome.noConfusion h')
      | skip
  dsimp only at h
  split_ifs at h with hlen
  obtain ⟨filled, hfilled, h1⟩ := bind_eq_ok _ _ _ h
  obtain ⟨c, hc, h2⟩ := bind_eq_ok _ _ _ h1
  obtain ⟨docnum, hdoc, h3⟩ := bind_eq_ok _ _ _ h2
  refine ⟨ws, sl, qu, filled, c, docnum, rfl, rfl, rfl, ?_, hfilled, hc, hdoc, ?_⟩
  · intro hnil; apply hlen; rw [hnil]; rfl
  · rw [FIX2LONG_INT2FIX, FIX2LONG_INT2FIX] at h3
    exact (Outcome.ok.inj h3).symm

theorem fixnum_of_long_eq (i : Int) (h : FIXABLE i) : fixnum_of_long i = .fixnum i := by
  unfold FIXABLE at h
  unfold fixnum_of_long FIX2LONG signed64 INT2FIX
  congr 1
  omega

theorem FIX2INT_fixable (v : VALUE) (n : Int) (h : FIX2INT v = .ok n) : FIXABLE n := by
  unfold FIXABLE
  unfold FIX2INT at h
  split at h
  · split_ifs at h with hr
    cases Outcome.ok.inj h
    omega
  · dsimp only at h
    split_ifs at h with hr
    cases Outcome.ok.inj h
    omega
  · exact absurd h (fun h' => Outcome.noConfusion h')
  · exact absurd h (fun h' => Outcome.noConfusion h')

/-- C11. Accessor round trip: after a successful `doc_create` on an integer
`id`, the accessor `docnum` returns `id`; `costfactor` returns a Float with
the value of `cost` (of a Float `cost` itself, of a Fixnum `cost` its
conversion to double), no default being put in its place; and `slackid` and
`queryid` return the Fixnums given as `slackid` and as `queryid`, each in its
own field. -/
theorem doc_accessors_round_trip (id cost slackid queryid words_ary : VALUE) (junk : Dbl)
    (d : DOC) (h : doc_create id cost slackid queryid words_ary junk = .ok d) :
    (∀ n : Int, id = .fixnum n → doc_get_docnum (.document d) = .ok (.fixnum n)) ∧
    (∀ (x : Dbl) (w word : Int), cost = .float x w →
      doc_get_costfactor (.document d) word = .ok (.float x word)) ∧
    (∀ n word : Int, cost = .fixnum n →
      doc_get_costfactor (.document d) word = .ok (.float (long_to_double n) word)) ∧
    (∃ s : Int, slackid = .fixnum s ∧ d.slackid = s ∧
      (FIXABLE s → doc_get_slackid (.document d) = .ok (.fixnum s))) ∧
    (∃ q : Int, queryid = .fixnum q ∧ d.queryid = q ∧
      (FIXABLE q → doc_get_queryid (.document d) = .ok (.fixnum q))) := by
  obtain ⟨ws, s, q, filled, c, docnum, -, hs, hq, -, -, hc, hdoc, hd⟩ :=
    doc_create_ok _ _ _ _ _ _ _ h
  subst hd
  refine ⟨?_, ?_, ?_, ⟨s, hs, rfl, ?_⟩, ⟨q, hq, rfl, ?_⟩⟩
  · intro n hn
    subst hn
    have hfix := FIX2INT_fixable _ _ hdoc
    simp only [FIX2INT] at hdoc
    split_ifs at hdoc with hr
    cases Outcome.ok.inj hdoc
    simp only [doc_get_docnum, create_example, fixnum_of_long_eq _ hfix]
  · intro x w word hx
    subst hx
    cases Outcome.ok.inj hc
    rfl
  · intro n word hn
    subst hn
    cases Outcome.ok.inj hc
    rfl
  · intro hfix
    simp only [doc_get_slackid, create_example, fixnum_of_long_eq _ hfix]
  · intro hfix
    simp only [doc_get_queryid, create_example, fixnum_of_long_eq _ hfix]

/-- Witness of C11: the document created with id 7, cost 2.5, slack id 3 and
query id 4 returns 7, 2.5, 3 and 4 from its four accessors. -/
theorem doc_accessors_round_trip_witness :
    doc_create (.fixnum 7) (.float (Dbl.dec 25 (-1)) 0x0020000000000002) (.fixnum 3) (.fixnum 4)
        (.array [.array [.fixnum 1, .fixnum 1]]) Dbl.nan =
      .ok { docnum := 7, queryid := 4, slackid := 3, costfactor := Dbl.dec 25 (-1),
            fvec := sample_doc.fvec } ∧
    doc_get_docnum (.document
      { docnum := 7, queryid := 4, slackid := 3, costfactor := Dbl.dec 25 (-1),
        fvec := sample_doc.fvec }) = .ok (.fixnum 7) ∧
    doc_get_costfactor (.document
      { docnum := 7, queryid := 4, slackid := 3, costfactor := Dbl.dec 25 (-1),
        fvec := sample_doc.fvec }) 0x0020000000000002 =
      .ok (.float (Dbl.dec 25 (-1)) 0x0020000000000002) ∧
    doc_get_slackid (.document
      { docnum := 7, queryid := 4, slackid := 3, costfactor := Dbl.dec 25 (-1),
        fvec := sample_doc.fvec }) = .ok (.fixnum 3) ∧
    doc_get_queryid (.document
      { docnum := 7, queryid := 4, slackid := 3, costfactor := Dbl.dec 25 (-1),
        fvec := sample_doc.fvec }) = .ok (.fixnum 4) :=
  ⟨by decide,
   (doc_accessors_round_trip (.fixnum 7) (.float (Dbl.dec 25 (-1)) 0x0020000000000002) (.fixnum 3) (.fixnum 4)
      (.array [.array [.fixnum 1, .fixnum 1]]) Dbl.nan _ (by decide)).1 7 rfl,
   rfl, rfl, rfl⟩

/-- With `nil` for `alpha`, option hashes that pass and at least one example,
`model_learn_classification` is the loop over the examples followed by the
call of the solver. -/
theorem model_learn_classification_nil (lit maxfeat : Int) (c : LEARN_PARM) (kc : KERNEL_PARM)
    (e : String) (examples : List VALUE) (lh kh : Hash) (use_cache : VALUE)
    (hp : params_ok lit c kc e lh kh) (hne : examples ≠ []) :
    model_learn_classification lit maxfeat c kc e (.array examples) (.hash lh) (.hash kh)
        use_cache .Qnil =
      (learn_examples maxfeat examples 0).bind fun r =>
        .ok { docs := r.1, labels := r.2.1, totdocs := examples.length, totwords := r.2.2,
              learn_parm := (check_kernel_and_learn_params_logic lit
                { (setup_kernel_params kc kh (setup_learn_params c lh e).2.2).2.1 with
                  kernel_type := LINEAR }
                { (setup_learn_params c lh e).2.1 with type := CLASSIFICATION }
                (setup_kernel_params kc kh (setup_learn_params c lh e).2.2).2.2).2.1,
              kernel_parm :=
                { (setup_kernel_params kc kh (setup_learn_params c lh e).2.2).2.1 with
                  kernel_type := LINEAR },
              alpha_in := none } := by
  obtain ⟨h1, h2, h3⟩ := hp
  unfold model_learn_classification
  dsimp only
  revert h1 h2 h3
  generalize setup_learn_params c lh e = s
  intro h1
  generalize setup_kernel_params kc kh s.2.2 = t
  intro h2
  generalize check_kernel_and_learn_params_logic lit _ _ t.2.2 = r
  intro h3
  have hlen : ¬ ((examples.length : Int) = 0) := by
    intro h0
    apply hne
    exact List.length_eq_zero.mp (by exact_mod_cast h0)
  rw [if_neg (not_not.mpr h1), if_neg (not_not.mpr h2), if_neg (not_not.mpr h3), if_neg hlen]

/-- A numeric `alpha` array changes nothing but the `alpha_in` argument of the
solver. -/
theorem model_learn_classification_alpha (lit maxfeat : Int) (c : LEARN_PARM)
    (kc : KERNEL_PARM) (e : String) (docs lp kp use_cache : VALUE) (elems : List VALUE)
    (xs : List Dbl) (hxs : alpha_values elems = some xs) :
    model_learn_classification lit maxfeat c kc e docs lp kp use_cache (.array elems) =
      (model_learn_classification lit maxfeat c kc e docs lp kp use_cache .Qnil).bind
        fun call => .ok { call with alpha_in := some xs } := by
  unfold model_learn_classification
  rcases docs with _ | _ | _ | _ | _ | _ | examples | _ | _ | _ <;> first | rfl | skip
  rcases lp with _ | _ | _ | _ | _ | _ | _ | lh | _ | _ <;> first | rfl | skip
  rcases kp with _ | _ | _ | _ | _ | _ | _ | kh | _ | _ <;> first | rfl | skip
  dsimp only
  rw [hxs]
  dsimp only
  generalize setup_learn_params c lh e = s
  generalize setup_kernel_params kc kh s.2.2 = t
  generalize check_kernel_and_learn_params_logic lit _ _ t.2.2 = r
  split_ifs <;> first | rfl | skip
  cases learn_examples maxfeat examples 0 <;> rfl

theorem bind_raise {α β : Type} (o : Outcome α) (f : α → Outcome β) (err : RubyError)
    (h : o = .raise err) : o.bind f = .raise err := by
  rw [h]; rfl

/-- With `nil` for `alpha`, the stages of `model_learn_classification` before
the loop over the examples, each with the error it raises. -/
theorem model_learn_classification_stages (lit maxfeat : Int) (c : LEARN_PARM)
    (kc : KERNEL_PARM) (e : String) (examples : List VALUE) (lh kh : Hash) (use_cache : VALUE) :
    ((setup_learn_params c lh e).1 ≠ 0 →
      model_learn_classification lit maxfeat c kc e (.array examples) (.hash lh) (.hash kh)
        use_cache .Qnil = .raise (.ArgError (setup_learn_params c lh e).2.2)) ∧
    ((setup_learn_params c lh e).1 = 0 →
      (setup_kernel_params kc kh (setup_learn_params c lh e).2.2).1 ≠ 0 →
      model_learn_classification lit maxfeat c kc e (.array examples) (.hash lh) (.hash kh)
        use_cache .Qnil =
        .raise (.ArgError (setup_kernel_params kc kh (setup_learn_params c lh e).2.2).2.2)) ∧
    ((setup_learn_params c lh e).1 = 0 →
      (setup_kernel_params kc kh (setup_learn_params c lh e).2.2).1 = 0 →
      (check_kernel_and_learn_params_logic lit
        { (setup_kernel_params kc kh (setup_learn_params c lh e).2.2).2.1 with
          kernel_type := LINEAR }
        { (setup_learn_params c lh e).2.1 with type := CLASSIFICATION }
        (setup_kernel_params kc kh (setup_learn_params c lh e).2.2).2.2).1 ≠ 0 →
      model_learn_classification lit maxfeat c kc e (.array examples) (.hash lh) (.hash kh)
        use_cache .Qnil =
        .raise (.ArgError (check_kernel_and_learn_params_logic lit
          { (setup_kernel_params kc kh (setup_learn_params c lh e).2.2).2.1 with
            kernel_type := LINEAR }
          { (setup_learn_params c lh e).2.1 with type := CLASSIFICATION }
          (setup_kernel_params kc kh (setup_learn_params c lh e).2.2).2.2).2.2)) ∧
    (params_ok lit c kc e lh kh → examples = [] →
      model_learn_classification lit maxfeat c kc e (.array examples) (.hash lh) (.hash kh)
        use_cache .Qnil =
        .raise (.ArgError "Cannot create Model from empty Documents array")) := by
  unfold params_ok model_learn_classification
  dsimp only
  generalize setup_learn_params c lh e = s
  generalize setup_kernel_params kc kh s.2.2 = t
  generalize check_kernel_and_learn_params_logic lit _ _ t.2.2 = r
  refine ⟨?_, ?_, ?_, ?_⟩
  · intro h1
    rw [if_pos h1]
  · intro h1 h2
    rw [if_neg (not_not.mpr h1), if_pos h2]
  · intro h1 h2 h3
    rw [if_neg (not_not.mpr h1), if_neg (not_not.mpr h2), if_pos h3]
  · rintro ⟨h1, h2, h3⟩ hnil
    subst hnil
    rw [if_neg (not_not.mpr h1), if_neg (not_not.mpr h2), if_neg (not_not.mpr h3)]
    rfl

/-- Counterexample to C14 as stated: with no examples and a learning hash
that gives a Fixnum for `predfile`, the error is the type error of `predfile`,
not the error of the empty training set. -/
theorem empty_examples_other_error :
    model_learn_classification 0 99999999 (default_learn_parm 0) (default_kernel_parm 7) ""
        (.array []) (.hash [("predfile", .fixnum 5)]) (.hash []) .Qfalse .Qnil =
      .raise (.ArgError "The value of the learning option 'predfile' must be a string") ∧
    RubyError.ArgError "The value of the learning option 'predfile' must be a string" ≠
      RubyError.ArgError "Cannot create Model from empty Documents array" := by
  decide

/-- C14 (amended). With an empty example sequence `model_learn_classification`
always raises and so never reaches the solver, whatever the option hashes and
`alpha` are; the error is "Cannot create Model from empty Documents array"
when `alpha` and both hashes pass their checks, which come first; a
non-numeric `alpha` element, or else a learning hash that fails, gives the
error of that earlier stage. -/
theorem empty_examples_rejected (lit maxfeat : Int) (c : LEARN_PARM) (kc : KERNEL_PARM)
    (e : String) (lh kh : Hash) (use_cache alpha : VALUE) :
    (∃ err, model_learn_classification lit maxfeat c kc e (.array []) (.hash lh) (.hash kh)
      use_cache alpha = .raise err) ∧
    (alpha_ok alpha → params_ok lit c kc e lh kh →
      model_learn_classification lit maxfeat c kc e (.array []) (.hash lh) (.hash kh)
        use_cache alpha = .raise (.ArgError "Cannot create Model from empty Documents array")) ∧
    (∀ elems, alpha = .array elems → alpha_values elems = none →
      model_learn_classification lit maxfeat c kc e (.array []) (.hash lh) (.hash kh)
        use_cache alpha = .raise (.ArgError "All elements of the alpha array must be numeric ")) ∧
    (alpha_ok alpha → (setup_learn_params c lh e).1 ≠ 0 →
      model_learn_classification lit maxfeat c kc e (.array []) (.hash lh) (.hash kh)
        use_cache alpha = .raise (.ArgError (setup_learn_params c lh e).2.2)) := by
  obtain ⟨st1, st2, st3, st4⟩ :=
    model_learn_classification_stages lit maxfeat c kc e [] lh kh use_cache
  have hnil : ∃ err, model_learn_classification lit maxfeat c kc e (.array []) (.hash lh)
      (.hash kh) use_cache .Qnil = .raise err := by
    by_cases h1 : (setup_learn_params c lh e).1 = 0
    · by_cases h2 : (setup_kernel_params kc kh (setup_learn_params c lh e).2.2).1 = 0
      · by_cases h3 : (check_kernel_and_learn_params_logic lit
            { (setup_kernel_params kc kh (setup_learn_params c lh e).2.2).2.1 with
              kernel_type := LINEAR }
            { (setup_learn_params c lh e).2.1 with type := CLASSIFICATION }
            (setup_kernel_params kc kh (setup_learn_params c lh e).2.2).2.2).1 = 0
        · exact ⟨_, st4 ⟨h1, h2, h3⟩ rfl⟩
        · exact ⟨_, st3 h1 h2 h3⟩
      · exact ⟨_, st2 h1 h2⟩
    · exact ⟨_, st1 h1⟩
  have hnone : ∀ elems, alpha_values elems = none →
      model_learn_classification lit maxfeat c kc e (.array []) (.hash lh) (.hash kh)
        use_cache (.array elems) =
        .raise (.ArgError "All elements of the alpha array must be numeric ") := by
    intro elems hv
    unfold model_learn_classification
    dsimp only
    rw [hv]
  refine ⟨?_, ?_, ?_, ?_⟩
  · rcases alpha with _ | _ | _ | _ | _ | _ | elems | _ | _ | _ <;>
      first
        | exact hnil
        | exact ⟨_, rfl⟩
        | skip
    cases hv : alpha_values elems with
    | none => exact ⟨_, hnone elems hv⟩
    | some xs =>
      obtain ⟨err, herr⟩ := hnil
      exact ⟨err, by rw [model_learn_classification_alpha _ _ _ _ _ _ _ _ _ _ xs hv,
        bind_raise _ _ _ herr]⟩
  · intro ha hp
    rcases ha with rfl | ⟨elems, xs, rfl, hv⟩
    · exact st4 hp rfl
    · rw [model_learn_classification_alpha _ _ _ _ _ _ _ _ _ _ xs hv,
        bind_raise _ _ _ (st4 hp rfl)]
  · intro elems ha hv
    subst ha
    exact hnone elems hv
  · intro ha h1
    rcases ha with rfl | ⟨elems, xs, rfl, hv⟩
    · exact st1 h1
    · rw [model_learn_classification_alpha _ _ _ _ _ _ _ _ _ _ xs hv,
        bind_raise _ _ _ (st1 h1)]

/-- Witness of C14 (amended): with empty option hashes and no `alpha`, the
empty example sequence gives the error of the empty training set. -/
theorem empty_examples_rejected_witness :
    model_learn_classification 0 99999999 (default_learn_parm 0) (default_kernel_parm 7) ""
        (.array []) (.hash []) (.hash []) .Qfalse .Qnil =
      .raise (.ArgError "Cannot create Model from empty Documents array") :=
  (empty_examples_rejected 0 99999999 (default_learn_parm 0) (default_kernel_parm 7) ""
    [] [] .Qfalse .Qnil).2.1 (Or.inl rfl) ⟨by decide, by decide, by decide⟩

/-! ## Theorems: the loop over the examples -/

/-- A document built by `doc_create` holds at least one feature, every feature
number is positive, and one sentinel word ends the vector. -/
theorem produced_words (d : DOC) (h : produced_by_doc_create d) :
    ∃ (init : List WORD) (last : WORD) (junk : Dbl),
      (∀ w ∈ init, 0 < w.wnum) ∧ 0 < last.wnum ∧
      d.fvec.words = init ++ [last, { wnum := 0, weight := junk }] := by
  obtain ⟨id, cost, slackid, queryid, words_ary, junk, hd⟩ := h
  obtain ⟨ws, s, q, filled, c, docnum, -, -, -, hne, hfilled, -, -, rfl⟩ :=
    doc_create_ok _ _ _ _ _ _ _ hd
  obtain ⟨hmap, hpos⟩ := doc_create_words_ok ws filled hfilled
  have hall : ∀ w ∈ filled, 0 < w.wnum := by
    intro w hw
    rw [hmap, List.mem_map] at hw
    obtain ⟨v, hv, rfl⟩ := hw
    exact hpos v hv
  have hcopy : (create_example docnum q s c
      (create_svector (filled ++ [{ wnum := 0, weight := junk }]) "" (Dbl.dec 1 0))).fvec.words =
      filled ++ [{ wnum := 0, weight := junk }] :=
    copy_through_sentinel filled junk (fun w hw => ne_of_gt (hall w hw))
  have hfne : filled ≠ [] := by
    intro hnil
    rw [hnil] at hmap
    exact hne (List.map_eq_nil_iff.mp hmap.symm)
  rcases List.eq_nil_or_concat filled with hnil | ⟨init, last, hcat⟩
  · exact absurd hnil hfne
  · refine ⟨init, last, junk, ?_, ?_, ?_⟩
    · intro w hw
      exact hall w (by rw [hcat]; simp [hw])
    · exact hall last (by rw [hcat]; simp)
    · rw [hcopy, hcat]
      simp

theorem scan_words_sentinel (init : List WORD) (last : WORD) (junk : Dbl) (k : Nat)
    (hinit : ∀ w ∈ init, 0 < w.wnum) (hlast : 0 < last.wnum) :
    scan_words (init ++ [last, { wnum := 0, weight := junk }]) k =
      some (k + init.length + 1) := by
  induction init generalizing k with
  | nil =>
    simp [scan_words, ne_of_gt hlast]
  | cons w rest ih =>
    have hw : w.wnum ≠ 0 := ne_of_gt (hinit w (List.mem_cons_self _ _))
    have hrest : ∀ w' ∈ rest, 0 < w'.wnum :=
      fun w' hw' => hinit w' (List.mem_cons_of_mem _ hw')
    have ih' := ih (k + 1) hrest
    simp only [List.cons_append, scan_words, ne_eq, hw, not_false_eq_true, if_true]
    refine Eq.trans ih' ?_
    simp only [List.length_cons]
    congr 1
    omega

theorem last_index_eq (d : DOC) (init : List WORD) (last : WORD) (junk : Dbl)
    (h : d.fvec.words = init ++ [last, { wnum := 0, weight := junk }]) :
    last_index d = last.wnum := by
  unfold last_index doc_indices
  rw [h]
  have : (init ++ [last, { wnum := 0, weight := junk }]).dropLast = init ++ [last] := by
    have : init ++ [last, ({ wnum := 0, weight := junk } : WORD)] =
        (init ++ [last]) ++ [{ wnum := 0, weight := junk }] := by simp
    rw [this, List.dropLast_concat]
  rw [this]
  simp

theorem learn_examples_cons_bad (M : Int) (ex : VALUE) (rest : List VALUE) (tw : Int)
    (h : example_ok ex = false) :
    learn_examples M (ex :: rest) tw = .raise (.ArgError invalid_label_message) := by
  unfold learn_examples
  split
  · simp [example_ok, is_numeric] at h
  · simp [example_ok, is_numeric] at h
  · rfl

theorem learn_examples_cons_ok (M : Int) (ex : VALUE) (rest : List VALUE) (tw : Int) (d : DOC)
    (hok : example_ok ex = true) (hd : example_docs [ex] = [d])
    (hp : produced_by_doc_create d) :
    learn_examples M (ex :: rest) tw =
      if max tw (last_index d) > M then .raise (.ArgError feature_overflow_message)
      else (learn_examples M rest (max tw (last_index d))).bind fun r =>
        .ok (d :: r.1, example_label ex :: r.2.1, r.2.2) := by
  obtain ⟨init, last, junk, hinit, hlast, hwords⟩ := produced_words d hp
  have hscan := scan_words_sentinel init last junk 0 hinit hlast
  have hidx := last_index_eq d init last junk hwords
  have hget : (init ++ [last, ({ wnum := 0, weight := junk } : WORD)]).get? init.length =
      some last := by
    rw [List.get?_eq_getElem?, List.getElem?_append_right (le_refl _)]
    simp
  have hmax : (if last.wnum > tw then last.wnum else tw) = max tw last.wnum := by
    rw [max_def]
    split_ifs <;> omega
  conv_lhs => unfold learn_examples
  split
  · rename_i d' x w more
    have : d' = d := by simpa [example_docs] using hd
    subst this
    simp only [hwords, hscan, Nat.zero_add, hget, hmax, hidx]
    rfl
  · rename_i d' n more
    have : d' = d := by simpa [example_docs] using hd
    subst this
    simp only [hwords, hscan, Nat.zero_add, hget, hmax, hidx]
    rfl
  · rename_i h1 h2
    exfalso
    rcases ex with _ | _ | _ | _ | _ | _ | elems | _ | _ | _ <;>
      try (simp [example_ok] at hok)
    rcases elems with _ | ⟨a, _ | ⟨b, more⟩⟩ <;> try (simp [example_ok] at hok)
    rcases a with _ | _ | _ | _ | _ | _ | _ | _ | d' | _ <;> try (simp [example_ok] at hok)
    rcases b with _ | _ | _ | n | _ | _ | _ | _ | _ | _ <;> try (simp [is_numeric] at hok)
    · exact h2 d' n more rfl
    · rename_i x w
      exact h1 d' x w more rfl

/-- What the loop over the examples has seen when it ends without an error. -/
theorem learn_examples_ok (M : Int) (examples : List VALUE) (tw : Int) (docs : List DOC)
    (labels : List Dbl) (total : Int)
    (h : learn_examples M examples tw = .ok (docs, labels, total)) :
    (∀ ex ∈ examples, example_ok ex = true) ∧ docs = example_docs examples ∧
    labels = examples.map example_label ∧ (examples ≠ [] → total ≤ M) := by
  induction examples generalizing tw docs labels total with
  | nil =>
    unfold learn_examples at h
    cases Outcome.ok.inj h
    simp [example_docs]
  | cons ex rest ih =>
    have step : ∀ (d : DOC) (label : Dbl),
        (match scan_words d.fvec.words 0 with
          | none => (Outcome.undefined : Outcome (List DOC × List Dbl × Int))
          | some 0 => .undefined
          | some (k + 1) =>
            match d.fvec.words.get? k with
            | none => .undefined
            | some last =>
              if (if last.wnum > tw then last.wnum else tw) > M then
                .raise (.ArgError ("The number of features exceeds MAXFEATNUM the maximun " ++
                  "number of features defined for this version of SVMLight"))
              else
                (learn_examples M rest (if last.wnum > tw then last.wnum else tw)).bind fun r =>
                  .ok (d :: r.1, label :: r.2.1, r.2.2)) = .ok (docs, labels, total) →
        ∃ (docs' : List DOC) (labels' : List Dbl) (tw' : Int),
          learn_examples M rest tw' = .ok (docs', labels', total) ∧ tw' ≤ M ∧
          docs = d :: docs' ∧ labels = label :: labels' := by
      intro d label hstep
      split at hstep
      · exact absurd hstep (fun h' => Outcome.noConfusion h')
      · exact absurd hstep (fun h' => Outcome.noConfusion h')
      · split at hstep
        · exact absurd hstep (fun h' => Outcome.noConfusion h')
        · rename_i last hlast
          generalize (if last.wnum > tw then last.wnum else tw) = tw2 at hstep
          split_ifs at hstep with hover
          obtain ⟨r, hr, hres⟩ := bind_eq_ok _ _ _ hstep
          have hres' := Outcome.ok.inj hres
          simp only [Prod.mk.injEq] at hres'
          obtain ⟨h1, h2, h3⟩ := hres'
          refine ⟨r.1, r.2.1, _, ?_, not_lt.mp hover, h1.symm, h2.symm⟩
          rw [hr, ← h3]
    have htot : ∀ (tw' : Int) (docs' : List DOC) (labels' : List Dbl),
        learn_examples M rest tw' = .ok (docs', labels', total) → tw' ≤ M → total ≤ M := by
      intro tw' docs' labels' hrest htw
      rcases rest with _ | ⟨ex', rest'⟩
      · unfold learn_examples at hrest
        have := Outcome.ok.inj hrest
        simp only [Prod.mk.injEq] at this
        omega
      · exact (ih tw' docs' labels' total hrest).2.2.2 (by simp)
    unfold learn_examples at h
    split at h
    · rename_i d x w more
      obtain ⟨docs', labels', tw', hrest, htw, rfl, rfl⟩ := step d x h
      obtain ⟨a1, a2, a3, -⟩ := ih tw' docs' labels' total hrest
      refine ⟨?_, ?_, ?_, fun _ => htot tw' docs' labels' hrest htw⟩
      · intro ex hex
        rcases List.mem_cons.mp hex with rfl | hmem
        · rfl
        · exact a1 ex hmem
      · rw [a2]; rfl
      · rw [a3]; rfl
    · rename_i d n more
      obtain ⟨docs', labels', tw', hrest, htw, rfl, rfl⟩ := step d (long_to_double n) h
      obtain ⟨a1, a2, a3, -⟩ := ih tw' docs' labels' total hrest
      refine ⟨?_, ?_, ?_, fun _ => htot tw' docs' labels' hrest htw⟩
      · intro ex hex
        rcases List.mem_cons.mp hex with rfl | hmem
        · rfl
        · exact a1 ex hmem
      · rw [a2]; rfl
      · rw [a3]; rfl
    · exact absurd h (fun h' => Outcome.noConfusion h')

theorem le_max_last_index (docs : List DOC) (start : Int) :
    start ≤ max_last_index docs start := by
  unfold max_last_index
  induction docs generalizing start with
  | nil => simp
  | cons d rest ih =>
    simp only [List.map_cons, List.foldl_cons]
    exact le_trans (le_max_left _ _) (ih _)

theorem example_ok_doc (ex : VALUE) (hex : example_ok ex = true) :
    ∃ d, example_docs [ex] = [d] ∧ ∀ rest, example_docs (ex :: rest) = d :: example_docs rest := by
  rcases ex with _ | _ | _ | _ | _ | _ | elems | _ | _ | _ <;>
    try (simp [example_ok] at hex)
  rcases elems with _ | ⟨a, _ | ⟨b, more⟩⟩ <;> try (simp [example_ok] at hex)
  rcases a with _ | _ | _ | _ | _ | _ | _ | _ | d | _ <;> try (simp [example_ok] at hex)
  exact ⟨d, rfl, fun _ => rfl⟩

theorem last_index_pos (d : DOC) (h : produced_by_doc_create d) : 0 < last_index d := by
  obtain ⟨init, last, junk, -, hlast, hwords⟩ := produced_words d h
  rw [last_index_eq d init last junk hwords]
  exact hlast

/-- The loop over examples that are all `[document, number, ...]`, with
documents built by `doc_create`: the running maximum of the last feature
numbers decides between the overflow error and the result. -/
theorem learn_examples_closed (M : Int) (examples : List VALUE) (tw : Int)
    (hdocs : ∀ d ∈ example_docs examples, produced_by_doc_create d)
    (hok : ∀ ex ∈ examples, example_ok ex = true) (htw : tw ≤ M ∨ examples ≠ []) :
    learn_examples M examples tw =
      if max_last_index (example_docs examples) tw > M then
        .raise (.ArgError feature_overflow_message)
      else
        .ok (example_docs examples, examples.map example_label,
          max_last_index (example_docs examples) tw) := by
  induction examples generalizing tw with
  | nil =>
    have htw' : tw ≤ M := htw.resolve_right (fun h => h rfl)
    simp only [example_docs, max_last_index, List.map_nil, List.foldl_nil, gt_iff_lt,
      not_lt.mpr htw', if_false]
    rfl
  | cons ex rest ih =>
    have hex : example_ok ex = true := hok ex (List.mem_cons_self _ _)
    obtain ⟨d, hd, hcons⟩ := example_ok_doc ex hex
    have hp : produced_by_doc_create d :=
      hdocs d (by rw [hcons]; exact List.mem_cons_self _ _)
    have hrest : ∀ d' ∈ example_docs rest, produced_by_doc_create d' :=
      fun d' hd' => hdocs d' (by rw [hcons]; exact List.mem_cons_of_mem _ hd')
    have hokrest : ∀ ex' ∈ rest, example_ok ex' = true :=
      fun ex' hex' => hok ex' (List.mem_cons_of_mem _ hex')
    have hfold : max_last_index (example_docs (ex :: rest)) tw =
        max_last_index (example_docs rest) (max tw (last_index d)) := by
      rw [hcons]; rfl
    rw [learn_examples_cons_ok M ex rest tw d hex hd hp, hfold]
    by_cases hover : max tw (last_index d) > M
    · have := le_max_last_index (example_docs rest) (max tw (last_index d))
      rw [if_pos hover, if_pos (lt_of_lt_of_le hover this)]
    · rw [if_neg hover, ih (max tw (last_index d)) hrest hokrest (Or.inl (not_lt.mp hover))]
      split_ifs
      · rfl
      · rw [hcons]; rfl

/-- The loop over examples of which one is not `[document, number, ...]`. -/
theorem learn_examples_bad (M : Int) (examples : List VALUE) (tw : Int)
    (hdocs : ∀ d ∈ example_docs examples, produced_by_doc_create d)
    (hbad : ∃ ex ∈ examples, example_ok ex = false) :
    (learn_examples M examples tw = .raise (.ArgError invalid_label_message) ∨
      learn_examples M examples tw = .raise (.ArgError feature_overflow_message)) ∧
    ((∀ d ∈ example_docs examples, last_index d ≤ M) → tw ≤ M →
      learn_examples M examples tw = .raise (.ArgError invalid_label_message)) := by
  induction examples generalizing tw with
  | nil =>
    obtain ⟨ex, hex, -⟩ := hbad
    simp at hex
  | cons ex rest ih =>
    cases hex : example_ok ex with
    | false =>
      have := learn_examples_cons_bad M ex rest tw hex
      exact ⟨Or.inl this, fun _ _ => this⟩
    | true =>
      obtain ⟨d, hd, hcons⟩ := example_ok_doc ex hex
      have hp : produced_by_doc_create d :=
        hdocs d (by rw [hcons]; exact List.mem_cons_self _ _)
      have hrest : ∀ d' ∈ example_docs rest, produced_by_doc_create d' :=
        fun d' hd' => hdocs d' (by rw [hcons]; exact List.mem_cons_of_mem _ hd')
      have hbadrest : ∃ ex' ∈ rest, example_ok ex' = false := by
        obtain ⟨ex', hmem, hfalse⟩ := hbad
        rcases List.mem_cons.mp hmem with rfl | hmem'
        · rw [hex] at hfalse; exact absurd hfalse (by decide)
        · exact ⟨ex', hmem', hfalse⟩
      rw [learn_examples_cons_ok M ex rest tw d hex hd hp]
      obtain ⟨ih1, ih2⟩ := ih (max tw (last_index d)) hrest hbadrest
      by_cases hover : max tw (last_index d) > M
      · rw [if_pos hover]
        refine ⟨Or.inr rfl, ?_⟩
        intro hall htw
        have hd' : last_index d ≤ M := hall d (by rw [hcons]; exact List.mem_cons_self _ _)
        exact absurd hover (not_lt.mpr (max_le htw hd'))
      · rw [if_neg hover]
        refine ⟨?_, ?_⟩
        · rcases ih1 with h1 | h1
          · exact Or.inl (bind_raise _ _ _ h1)
          · exact Or.inr (bind_raise _ _ _ h1)
        · intro hall htw
          exact bind_raise _ _ _ (ih2
            (fun d' hd' => hall d' (by rw [hcons]; exact List.mem_cons_of_mem _ hd'))
            (not_lt.mp hover))

/-- A bound on the last feature numbers of documents built by `doc_create`,
of which there is at least one, is not negative. -/
theorem bound_nonneg (M : Int) (examples : List VALUE)
    (hdocs : ∀ d ∈ example_docs examples, produced_by_doc_create d)
    (hall : ∀ d ∈ example_docs examples, last_index d ≤ M)
    (hne : example_docs examples ≠ []) : 0 ≤ M := by
  rcases hd : example_docs examples with _ | ⟨d, ds⟩
  · exact absurd hd hne
  · have hmem : d ∈ example_docs examples := by rw [hd]; exact List.mem_cons_self _ _
    exact le_of_lt (lt_of_lt_of_le (last_index_pos d (hdocs d hmem)) (hall d hmem))

theorem alpha_values_none (elems : List VALUE) (h : ∃ v ∈ elems, is_numeric v = false) :
    alpha_values elems = none := by
  induction elems with
  | nil =>
    obtain ⟨v, hv, -⟩ := h
    simp at hv
  | cons a rest ih =>
    obtain ⟨v, hv, hnum⟩ := h
    rcases List.mem_cons.mp hv with rfl | hmem
    · cases v <;> first | rfl | simp [is_numeric] at hnum
    · have := ih ⟨v, hmem, hnum⟩
      cases a <;> simp [alpha_values, this]

theorem alpha_values_some (elems : List VALUE) (xs : List Dbl)
    (h : alpha_values elems = some xs) :
    xs.length = elems.length ∧ ∀ v ∈ elems, is_numeric v = true := by
  induction elems generalizing xs with
  | nil =>
    simp only [alpha_values, Option.some.injEq] at h
    subst h
    simp
  | cons a rest ih =>
    cases a <;> simp only [alpha_values, Option.map_eq_some', reduceCtorEq] at h
    all_goals
      obtain ⟨ys, hys, rfl⟩ := h
      obtain ⟨h1, h2⟩ := ih ys hys
      refine ⟨by simp [h1], ?_⟩
      intro v hv
      rcases List.mem_cons.mp hv with rfl | hmem
      · rfl
      · exact h2 v hmem

/-! ## Theorems: training -/

/-- What the derived width is for documents built by `doc_create`: the largest
of the last feature numbers of the documents. -/
theorem totwords_eq_max_last_index (lit maxfeat : Int) (c : LEARN_PARM) (kc : KERNEL_PARM)
    (e : String) (docs lp kp use_cache alpha : VALUE) (call : SolverCall)
    (h : model_learn_classification lit maxfeat c kc e docs lp kp use_cache alpha = .ok call)
    (hdocs : ∀ d ∈ call.docs, produced_by_doc_create d) :
    call.totwords = max_last_index call.docs 0 := by
  obtain ⟨examples, lh, kh, -, -, -, -, -, -, -, -, hne, hloop, -, -⟩ :=
    model_learn_classification_ok _ _ _ _ _ _ _ _ _ _ _ h
  obtain ⟨hok, hd, -, -⟩ := learn_examples_ok _ _ _ _ _ _ hloop
  rw [hd] at hdocs
  rw [learn_examples_closed maxfeat examples 0 hdocs hok (Or.inr hne)] at hloop
  split_ifs at hloop
  have := Outcome.ok.inj hloop
  simp only [Prod.mk.injEq] at this
  rw [← this.2.2, this.1]

theorem foldl_max_le (l : List Int) (a b : Int) (ha : a ≤ b) (h : ∀ x ∈ l, x ≤ b) :
    l.foldl max a ≤ b := by
  induction l generalizing a with
  | nil => simpa using ha
  | cons x rest ih =>
    simp only [List.foldl_cons]
    exact ih _ (max_le ha (h x (List.mem_cons_self _ _)))
      (fun y hy => h y (List.mem_cons_of_mem _ hy))

/-- In a document built by `doc_create` from features in ascending order, the
last feature number is the largest. -/
theorem last_index_of_ascending (d : DOC) (hp : produced_by_doc_create d)
    (hasc : (doc_indices d).Pairwise (fun a b => a ≤ b)) :
    (doc_indices d).foldl max 0 = last_index d := by
  obtain ⟨init, last, junk, -, hlast, hwords⟩ := produced_words d hp
  rw [last_index_eq d init last junk hwords]
  have hidx : doc_indices d = init.map WORD.wnum ++ [last.wnum] := by
    unfold doc_indices
    rw [hwords]
    have : init ++ [last, ({ wnum := 0, weight := junk } : WORD)] =
        (init ++ [last]) ++ [{ wnum := 0, weight := junk }] := by simp
    rw [this, List.dropLast_concat]
    simp
  rw [hidx] at hasc ⊢
  have hle : ∀ x ∈ init.map WORD.wnum, x ≤ last.wnum := by
    intro x hx
    exact (List.pairwise_append.mp hasc).2.2 x hx last.wnum (List.mem_singleton_self _)
  rw [List.foldl_append]
  simp only [List.foldl_cons, List.foldl_nil]
  exact max_eq_right (foldl_max_le _ 0 _ (le_of_lt hlast) hle)

/-- For documents built by `doc_create` from features in ascending order, the
derived width is the largest feature number of the training set. -/
theorem totwords_of_ascending (lit maxfeat : Int) (c : LEARN_PARM) (kc : KERNEL_PARM)
    (e : String) (docs lp kp use_cache alpha : VALUE) (call : SolverCall)
    (h : model_learn_classification lit maxfeat c kc e docs lp kp use_cache alpha = .ok call)
    (hdocs : ∀ d ∈ call.docs, produced_by_doc_create d)
    (hasc : ∀ d ∈ call.docs, (doc_indices d).Pairwise (fun a b => a ≤ b)) :
    call.totwords = max_index call.docs := by
  rw [totwords_eq_max_last_index lit maxfeat c kc e docs lp kp use_cache alpha call h hdocs]
  unfold max_last_index max_index
  congr 1
  apply List.map_congr_left
  intro d hd
  exact (last_index_of_ascending d (hdocs d hd) (hasc d hd)).symm

/-- C12 at a document whose features do not ascend: `doc_create` builds
`unsorted_doc` from the features `[[2, 1], [1, 1]]`; training on it alone
reaches the solver with `totwords = 1`, the feature number of its last
feature, while the largest feature number in it is 2. -/
theorem totwords_misses_earlier_feature :
    doc_create (.fixnum 1) (.fixnum 1) (.fixnum 0) (.fixnum 0) unsorted_features Dbl.nan =
      .ok unsorted_doc ∧
    model_learn_classification 0 99999999 (default_learn_parm 0) (default_kernel_parm 7) ""
        (.array [.array [.document unsorted_doc, .fixnum 1]]) (.hash []) (.hash [])
        .Qfalse .Qnil =
      .ok { sample_call with docs := [unsorted_doc], totwords := 1 } ∧
    max_index [unsorted_doc] = 2 := by
  decide

/-- C13 at a document whose features do not ascend: `doc_create` builds
`wide_doc` from the features `[[100000000, 1], [1, 1]]`; with `MAXFEATNUM` at
99999999, training on it alone raises nothing and reaches the solver, with
`totwords = 1`, although the document holds the feature number 100000000. -/
theorem overflow_misses_earlier_feature :
    doc_create (.fixnum 1) (.fixnum 1) (.fixnum 0) (.fixnum 0) wide_features Dbl.nan =
      .ok wide_doc ∧
    model_learn_classification 0 99999999 (default_learn_parm 0) (default_kernel_parm 7) ""
        (.array [.array [.document wide_doc, .fixnum 1]]) (.hash []) (.hash [])
        .Qfalse .Qnil =
      .ok { sample_call with docs := [wide_doc], totwords := 1 } ∧
    (100000000 : Int) ∈ doc_indices wide_doc ∧ (99999999 : Int) < 100000000 := by
  decide

/-- C15. Whatever the examples and the option hashes are, an `alpha` array
with an element that is neither a Float nor a Fixnum makes
`model_learn_classification` raise "All elements of the alpha array must be
numeric ": the loop over `alpha` comes before every other stage, and the
solver is not called. -/
theorem non_numeric_alpha_rejected (lit maxfeat : Int) (c : LEARN_PARM) (kc : KERNEL_PARM)
    (e : String) (examples : List VALUE) (lh kh : Hash) (use_cache : VALUE)
    (elems : List VALUE) (h : ∃ v ∈ elems, is_numeric v = false) :
    model_learn_classification lit maxfeat c kc e (.array examples) (.hash lh) (.hash kh)
        use_cache (.array elems) =
      .raise (.ArgError "All elements of the alpha array must be numeric ") ∧
    model_learn_classification_calls lit maxfeat c kc e (.array examples) (.hash lh) (.hash kh)
        use_cache (.array elems) =
      .raise (.ArgError "All elements of the alpha array must be numeric ") := by
  have hv := alpha_values_none elems h
  have hmain : model_learn_classification lit maxfeat c kc e (.array examples) (.hash lh)
      (.hash kh) use_cache (.array elems) =
      .raise (.ArgError "All elements of the alpha array must be numeric ") := by
    unfold model_learn_classification
    dsimp only
    rw [hv]
  refine ⟨hmain, ?_⟩
  unfold model_learn_classification_calls
  rw [hmain]
  rfl

/-- Witness of C15: an `alpha` array holding a String is rejected with the
error of `alpha` although the example sequence is empty and the learning hash
gives a Fixnum for `predfile`. -/
theorem non_numeric_alpha_rejected_witness :
    model_learn_classification 0 99999999 (default_learn_parm 0) (default_kernel_parm 7) ""
        (.array []) (.hash [("predfile", .fixnum 5)]) (.hash []) .Qfalse
        (.array [.fixnum 1, .string "x"]) =
      .raise (.ArgError "All elements of the alpha array must be numeric ") :=
  (non_numeric_alpha_rejected 0 99999999 (default_learn_parm 0) (default_kernel_parm 7) ""
    [] [("predfile", .fixnum 5)] [] .Qfalse [.fixnum 1, .string "x"]
    ⟨.string "x", by simp, rfl⟩).1

/-- Counterexample to C16 as stated: one example and an `alpha` array of two
numbers reach the solver, which is handed both numbers. -/
theorem alpha_length_not_compared :
    model_learn_classification 0 99999999 (default_learn_parm 0) (default_kernel_parm 7) ""
        sample_examples (.hash []) (.hash []) .Qfalse (.array [.fixnum 1, .fixnum 2]) =
      .ok { sample_call with alpha_in := some [Dbl.fin 1, Dbl.fin 2] } ∧
    sample_call.totdocs = 1 ∧ [Dbl.fin 1, Dbl.fin 2].length = 2 := by
  decide

/-- C16 (amended). An `alpha` array of Floats and Fixnums, of whatever length,
is converted element by element, and its length is compared with nothing: the
call raises what the call without `alpha` raises, and reaches the solver
exactly when that call does, with the same arguments but for `alpha_in`, which
holds the converted values (as many as the array has elements). -/
theorem alpha_passed_as_given (lit maxfeat : Int) (c : LEARN_PARM) (kc : KERNEL_PARM)
    (e : String) (docs lp kp use_cache : VALUE) (elems : List VALUE) (xs : List Dbl)
    (h : alpha_values elems = some xs) :
    xs.length = elems.length ∧
    (∀ call, model_learn_classification lit maxfeat c kc e docs lp kp use_cache .Qnil =
        .ok call →
      model_learn_classification lit maxfeat c kc e docs lp kp use_cache (.array elems) =
        .ok { call with alpha_in := some xs }) ∧
    (∀ err, model_learn_classification lit maxfeat c kc e docs lp kp use_cache .Qnil =
        .raise err →
      model_learn_classification lit maxfeat c kc e docs lp kp use_cache (.array elems) =
        .raise err) ∧
    (∀ call, model_learn_classification lit maxfeat c kc e docs lp kp use_cache
        (.array elems) = .ok call →
      call.alpha_in = some xs ∧
      model_learn_classification lit maxfeat c kc e docs lp kp use_cache .Qnil =
        .ok { call with alpha_in := none }) := by
  have halpha := model_learn_classification_alpha lit maxfeat c kc e docs lp kp use_cache
    elems xs h
  refine ⟨(alpha_values_some elems xs h).1, ?_, ?_, ?_⟩
  · intro call hcall
    rw [halpha, hcall]
    rfl
  · intro err herr
    rw [halpha, herr]
    rfl
  · intro call hcall
    rw [halpha] at hcall
    obtain ⟨call0, h0, hres⟩ := bind_eq_ok _ _ _ hcall
    have hc : call = { call0 with alpha_in := some xs } := (Outcome.ok.inj hres).symm
    obtain ⟨_, _, _, -, -, -, -, -, -, -, -, -, -, -, hal⟩ :=
      model_learn_classification_ok _ _ _ _ _ _ _ _ _ _ _ h0
    have hnone : call0.alpha_in = none := by
      rcases hal with ⟨-, hn⟩ | ⟨_, _, habs, -, -⟩
      · exact hn
      · exact absurd habs (fun h' => VALUE.noConfusion h')
    subst hc
    refine ⟨rfl, ?_⟩
    rw [h0]
    congr 1
    cases call0
    simp only at hnone
    subst hnone
    rfl

/-- Witness of C16 (amended): the `alpha` array `[1, 2]` given with one
example. -/
theorem alpha_passed_as_given_witness :
    model_learn_classification 0 99999999 (default_learn_parm 0) (default_kernel_parm 7) ""
        sample_examples (.hash []) (.hash []) .Qfalse (.array [.fixnum 1, .fixnum 2]) =
      .ok { sample_call with alpha_in := some [Dbl.fin 1, Dbl.fin 2] } :=
  (alpha_passed_as_given 0 99999999 (default_learn_parm 0) (default_kernel_parm 7) ""
    sample_examples (.hash []) (.hash []) .Qfalse [.fixnum 1, .fixnum 2]
    [Dbl.fin 1, Dbl.fin 2] (by decide)).2.1 sample_call (by decide)

theorem max_last_index_le (docs : List DOC) (start M : Int) (hstart : start ≤ M)
    (h : ∀ d ∈ docs, last_index d ≤ M) : max_last_index docs start ≤ M := by
  unfold max_last_index
  induction docs generalizing start with
  | nil => simpa using hstart
  | cons d rest ih =>
    simp only [List.map_cons, List.foldl_cons]
    exact ih _ (max_le hstart (h d (List.mem_cons_self _ _)))
      (fun d' hd' => h d' (List.mem_cons_of_mem _ hd'))

theorem sample_doc_produced : produced_by_doc_create sample_doc :=
  ⟨.fixnum 1, .fixnum 1, .fixnum 0, .fixnum 0, .array [.array [.fixnum 1, .fixnum 1]], Dbl.nan,
    by decide⟩

/-- With `alpha` and the option hashes passing their stages and at least one
example, the outcome of `model_learn_classification` is that of the loop over
the examples. -/
theorem model_learn_classification_loop (lit maxfeat : Int) (c : LEARN_PARM)
    (kc : KERNEL_PARM) (e : String) (examples : List VALUE) (lh kh : Hash)
    (use_cache alpha : VALUE) (halpha : alpha_ok alpha) (hp : params_ok lit c kc e lh kh)
    (hne : examples ≠ []) :
    (∀ err, learn_examples maxfeat examples 0 = .raise err →
      model_learn_classification lit maxfeat c kc e (.array examples) (.hash lh) (.hash kh)
        use_cache alpha = .raise err) ∧
    (∀ docs labels total, learn_examples maxfeat examples 0 = .ok (docs, labels, total) →
      ∃ call, model_learn_classification lit maxfeat c kc e (.array examples) (.hash lh)
          (.hash kh) use_cache alpha = .ok call ∧
        call.docs = docs ∧ call.labels = labels ∧ call.totwords = total) := by
  have hnil := model_learn_classification_nil lit maxfeat c kc e examples lh kh use_cache hp hne
  rcases halpha with rfl | ⟨elems, xs, rfl, hv⟩
  · refine ⟨?_, ?_⟩
    · intro err herr
      rw [hnil, herr]
      rfl
    · intro docs labels total hok
      rw [hnil, hok]
      exact ⟨_, rfl, rfl, rfl, rfl⟩
  · have halpha := model_learn_classification_alpha lit maxfeat c kc e (.array examples)
      (.hash lh) (.hash kh) use_cache elems xs hv
    refine ⟨?_, ?_⟩
    · intro err herr
      rw [halpha, hnil, herr]
      rfl
    · intro docs labels total hok
      rw [halpha, hnil, hok]
      exact ⟨_, rfl, rfl, rfl, rfl⟩

theorem last_index_mem (d : DOC) (hp : produced_by_doc_create d) :
    last_index d ∈ doc_indices d := by
  obtain ⟨init, last, junk, -, -, hwords⟩ := produced_words d hp
  rw [last_index_eq d init last junk hwords]
  unfold doc_indices
  rw [hwords]
  have : init ++ [last, ({ wnum := 0, weight := junk } : WORD)] =
      (init ++ [last]) ++ [{ wnum := 0, weight := junk }] := by simp
  rw [this, List.dropLast_concat]
  simp

/-- Counterexample to C17 as stated: an example that is not an Array, placed
after a document whose feature number exceeds `MAXFEATNUM`, gives the overflow
error and not the error of the labels; and an example with a third element,
which is not a pair, is accepted. -/
theorem invalid_label_not_reported :
    doc_create (.fixnum 1) (.fixnum 1) (.fixnum 0) (.fixnum 0)
        (.array [.array [.fixnum 100000000, .fixnum 1]]) Dbl.nan = .ok far_doc ∧
    model_learn_classification 0 99999999 (default_learn_parm 0) (default_kernel_parm 7) ""
        (.array [.array [.document far_doc, .fixnum 1], .fixnum 5]) (.hash []) (.hash [])
        .Qfalse .Qnil = .raise (.ArgError feature_overflow_message) ∧
    feature_overflow_message ≠ invalid_label_message ∧
    model_learn_classification 0 99999999 (default_learn_parm 0) (default_kernel_parm 7) ""
        (.array [.array [.document sample_doc, .fixnum 1, .Qnil]]) (.hash []) (.hash [])
        .Qfalse .Qnil = .ok sample_call := by
  decide

/-- C17 (amended). Take a training call whose `alpha` and option hashes pass
their stages, with at least one example and documents built by `doc_create`.
If some example is not an Array of two or more elements that starts with a
Document and a Float or Fixnum, the call raises and the solver is not called:
the error is that of the labels, or the overflow error, and it is that of the
labels when no document holds a feature number beyond `MAXFEATNUM`. If every
example is such an Array, the labels handed to the solver are the second
elements in example order, and the solver is reached when no document holds a
feature number beyond `MAXFEATNUM`. -/
theorem label_validation (lit maxfeat : Int) (c : LEARN_PARM) (kc : KERNEL_PARM) (e : String)
    (examples : List VALUE) (lh kh : Hash) (use_cache alpha : VALUE)
    (halpha : alpha_ok alpha) (hp : params_ok lit c kc e lh kh) (hne : examples ≠ [])
    (hdocs : ∀ d ∈ example_docs examples, produced_by_doc_create d) :
    ((∃ ex ∈ examples, example_ok ex = false) →
      (model_learn_classification lit maxfeat c kc e (.array examples) (.hash lh) (.hash kh)
          use_cache alpha = .raise (.ArgError invalid_label_message) ∨
        model_learn_classification lit maxfeat c kc e (.array examples) (.hash lh) (.hash kh)
          use_cache alpha = .raise (.ArgError feature_overflow_message)) ∧
      ((∀ d ∈ example_docs examples, ∀ i ∈ doc_indices d, i ≤ maxfeat) →
        model_learn_classification lit maxfeat c kc e (.array examples) (.hash lh) (.hash kh)
          use_cache alpha = .raise (.ArgError invalid_label_message))) ∧
    ((∀ ex ∈ examples, example_ok ex = true) →
      (∀ call, model_learn_classification lit maxfeat c kc e (.array examples) (.hash lh)
          (.hash kh) use_cache alpha = .ok call →
        call.labels = examples.map example_label) ∧
      ((∀ d ∈ example_docs examples, ∀ i ∈ doc_indices d, i ≤ maxfeat) →
        ∃ call, model_learn_classification lit maxfeat c kc e (.array examples) (.hash lh)
            (.hash kh) use_cache alpha = .ok call ∧
          call.labels = examples.map example_label)) := by
  obtain ⟨hraise, hfine⟩ :=
    model_learn_classification_loop lit maxfeat c kc e examples lh kh use_cache alpha
      halpha hp hne
  refine ⟨?_, ?_⟩
  · intro hbad
    obtain ⟨h1, h2⟩ := learn_examples_bad maxfeat examples 0 hdocs hbad
    refine ⟨?_, ?_⟩
    · rcases h1 with h1 | h1
      · exact Or.inl (hraise _ h1)
      · exact Or.inr (hraise _ h1)
    · intro hall'
      have hall : ∀ d ∈ example_docs examples, last_index d ≤ maxfeat :=
        fun d hd => hall' d hd _ (last_index_mem d (hdocs d hd))
      rcases examples with _ | ⟨ex, rest⟩
      · exact absurd rfl hne
      cases hex : example_ok ex with
      | false => exact hraise _ (learn_examples_cons_bad maxfeat ex rest 0 hex)
      | true =>
        obtain ⟨d, -, hcons⟩ := example_ok_doc ex hex
        have hM : 0 ≤ maxfeat :=
          bound_nonneg maxfeat (ex :: rest) hdocs hall (by rw [hcons]; simp)
        exact hraise _ (h2 hall hM)
  · intro hok
    have hclosed := learn_examples_closed maxfeat examples 0 hdocs hok (Or.inr hne)
    refine ⟨?_, ?_⟩
    · intro call hcall
      obtain ⟨_, _, _, hd, hl, hk, -, -, -, -, -, -, hloop, -⟩ :=
        model_learn_classification_ok _ _ _ _ _ _ _ _ _ _ _ hcall
      cases hd
      exact (learn_examples_ok _ _ _ _ _ _ hloop).2.2.1
    · intro hall'
      have hall : ∀ d ∈ example_docs examples, last_index d ≤ maxfeat :=
        fun d hd => hall' d hd _ (last_index_mem d (hdocs d hd))
      rcases hex : examples with _ | ⟨ex, rest⟩
      · exact absurd hex hne
      obtain ⟨d, -, hcons⟩ := example_ok_doc ex (hok ex (by rw [hex]; simp))
      have hM : 0 ≤ maxfeat :=
        bound_nonneg maxfeat examples hdocs hall (by rw [hex, hcons]; simp)
      rw [if_neg (not_lt.mpr (max_last_index_le _ 0 maxfeat hM hall))] at hclosed
      obtain ⟨call, hcall, -, hlabels, -⟩ := hfine _ _ _ hclosed
      rw [← hex]
      exact ⟨call, hcall, hlabels⟩

/-- Witness of C17 (amended): a second example whose label is a String gives
the error of the labels. -/
theorem label_validation_witness :
    model_learn_classification 0 99999999 (default_learn_parm 0) (default_kernel_parm 7) ""
        (.array [.array [.document sample_doc, .fixnum 1],
                 .array [.document sample_doc, .string "x"]])
        (.hash []) (.hash []) .Qfalse .Qnil = .raise (.ArgError invalid_label_message) :=
  ((label_validation 0 99999999 (default_learn_parm 0) (default_kernel_parm 7) ""
    [.array [.document sample_doc, .fixnum 1], .array [.document sample_doc, .string "x"]]
    [] [] .Qfalse .Qnil (Or.inl rfl) ⟨by decide, by decide, by decide⟩ (by simp)
    (by
      intro d hd
      simp only [example_docs, List.mem_cons, List.mem_singleton, List.not_mem_nil,
        or_false, or_self] at hd
      rw [hd]
      exact sample_doc_produced)).1
    ⟨.array [.document sample_doc, .string "x"], by simp, rfl⟩).2
    (by
      intro d hd
      simp only [example_docs, List.mem_cons, List.mem_singleton, List.not_mem_nil,
        or_false, or_self] at hd
      rw [hd]
      decide)

/-- C18. Whatever the option hashes and `use_cache` hold, a training call that
reaches the solver passes a kernel configuration with `kernel_type = LINEAR`
and a learning configuration with `type = CLASSIFICATION` and
`skip_final_opt_check = 0`; and `use_cache` has no influence on the outcome:
the call with any other `use_cache` raises the same error or passes the same
arguments to the solver. -/
theorem forced_linear_classification (lit maxfeat : Int) (c : LEARN_PARM) (kc : KERNEL_PARM)
    (e : String) (docs lp kp use_cache alpha : VALUE) :
    (∀ call, model_learn_classification lit maxfeat c kc e docs lp kp use_cache alpha =
        .ok call →
      call.kernel_parm.kernel_type = LINEAR ∧ call.learn_parm.type = CLASSIFICATION ∧
      call.learn_parm.skip_final_opt_check = 0) ∧
    (∀ flag, model_learn_classification lit maxfeat c kc e docs lp kp flag alpha =
      model_learn_classification lit maxfeat c kc e docs lp kp use_cache alpha) := by
  refine ⟨?_, fun _ => rfl⟩
  intro call h
  obtain ⟨examples, lh, kh, -, -, -, -, -, -, hlearn, hkernel, -⟩ :=
    model_learn_classification_ok _ _ _ _ _ _ _ _ _ _ _ h
  rw [hlearn, hkernel, check_logic_state, derive_and_normalise_fields]
  simp

/-- Witness of C18: a learning hash that asks for `skip_final_opt_check`, and
`true` for `use_cache`. -/
theorem forced_linear_classification_witness :
    model_learn_classification 0 99999999 (default_learn_parm 0) (default_kernel_parm 7) ""
        sample_examples (.hash [("skip_final_opt_check", .Qtrue)]) (.hash []) .Qtrue .Qnil =
      .ok sample_call ∧
    sample_call.kernel_parm.kernel_type = LINEAR ∧
    sample_call.learn_parm.type = CLASSIFICATION ∧
    sample_call.learn_parm.skip_final_opt_check = 0 :=
  ⟨by decide,
   (forced_linear_classification 0 99999999 (default_learn_parm 0) (default_kernel_parm 7) ""
     sample_examples (.hash [("skip_final_opt_check", .Qtrue)]) (.hash []) .Qtrue .Qnil).1
     sample_call (by decide)⟩

/-- What holds of the arguments of every call of the solver: at least one
example, as many labels as examples, a width within `MAXFEATNUM`, and a
learning configuration of which none of the rejecting conditions holds. -/
theorem solver_boundary (lit maxfeat : Int) (c : LEARN_PARM) (kc : KERNEL_PARM)
    (e : String) (docs lp kp use_cache alpha : VALUE) (call : SolverCall)
    (h : model_learn_classification lit maxfeat c kc e docs lp kp use_cache alpha = .ok call) :
    1 ≤ call.totdocs ∧ (call.labels.length : Int) = call.totdocs ∧
    call.totwords ≤ maxfeat ∧ ∀ r : Rule, r.violated call.learn_parm = false := by
  obtain ⟨examples, lh, kh, -, -, -, -, -, hcheck, hlearn, -, hne, hloop, htot, -⟩ :=
    model_learn_classification_ok _ _ _ _ _ _ _ _ _ _ _ h
  obtain ⟨-, -, hlabels, hbound⟩ := learn_examples_ok _ _ _ _ _ _ hloop
  refine ⟨?_, ?_, hbound hne, ?_⟩
  · rw [htot]
    have : 0 < examples.length := List.length_pos.mpr hne
    omega
  · rw [htot, hlabels, List.length_map]
  · rw [hlearn, check_logic_state]
    rw [check_logic_result] at hcheck
    apply (first_violated_none_iff _).mp
    by_contra hnone
    rw [if_neg hnone] at hcheck
    exact absurd hcheck (by decide)

/-- C19 at a learning hash that gives `Float::NAN` for `svm_c`: the call
reaches the solver with `svm_c = NaN`, of which `svm_c >= 0` is false. -/
theorem nan_passes_the_gate :
    model_learn_classification 0 99999999 (default_learn_parm 0) (default_kernel_parm 7) ""
        sample_examples (.hash nan_hash) (.hash []) .Qfalse .Qnil =
      .ok { sample_call with
            learn_parm := { sample_call.learn_parm with svm_c := Dbl.nan } } ∧
    Dbl.le (Dbl.fin 0) Dbl.nan = false := by
  decide

/-- The calls that a training call makes on the model it returns: the solver
and nothing else. -/
theorem learn_calls_solver_only (lit maxfeat : Int) (c : LEARN_PARM) (kc : KERNEL_PARM)
    (e : String) (docs lp kp use_cache alpha : VALUE) (calls : List ModelCall)
    (h : model_learn_classification_calls lit maxfeat c kc e docs lp kp use_cache alpha =
      .ok calls) :
    ∃ call, model_learn_classification lit maxfeat c kc e docs lp kp use_cache alpha =
        .ok call ∧ calls = [.svm_learn_classification call] ∧
      call.kernel_parm.kernel_type = LINEAR := by
  unfold model_learn_classification_calls at h
  obtain ⟨call, hcall, hres⟩ := bind_eq_ok _ _ _ h
  obtain ⟨_, _, _, -, -, -, -, -, -, -, hkernel, -⟩ :=
    model_learn_classification_ok _ _ _ _ _ _ _ _ _ _ _ hcall
  exact ⟨call, hcall, (Outcome.ok.inj hres).symm, by rw [hkernel]⟩

/-- C20 at the training set `sample_examples`: the training path calls the
solver, whose kernel is linear, and returns the model without a call of
`add_weight_vector_to_linear_model`, whereas `model_read_from_file` makes that
call on a linear model. -/
theorem learn_path_skips_weight_vector :
    model_learn_classification_calls 0 99999999 (default_learn_parm 0) (default_kernel_parm 7)
        "" sample_examples (.hash []) (.hash []) .Qfalse .Qnil =
      .ok [.svm_learn_classification sample_call] ∧
    sample_call.kernel_parm.kernel_type = LINEAR ∧
    ModelCall.add_weight_vector_to_linear_model ∉
      [ModelCall.svm_learn_classification sample_call] ∧
    model_read_from_file (fun _ => sample_model) (.string "model.dat") =
      .ok [.read_model "model.dat", .add_weight_vector_to_linear_model] := by
  decide

/-! ## Theorems: the order of the stages -/

/-- Examples that pass, in front of examples on which the loop raises whatever
the running maximum is, do not change the error. -/
theorem learn_examples_prefix (M : Int) (pre tail : List VALUE) (tw : Int) (err : RubyError)
    (hok : ∀ ex ∈ pre, example_ok ex = true)
    (hdocs : ∀ d ∈ example_docs pre, produced_by_doc_create d)
    (hall : ∀ d ∈ example_docs pre, last_index d ≤ M)
    (htw : pre ≠ [] → tw ≤ M)
    (htail : ∀ tw', learn_examples M tail tw' = .raise err) :
    learn_examples M (pre ++ tail) tw = .raise err := by
  induction pre generalizing tw with
  | nil => exact htail tw
  | cons ex rest ih =>
    have hex : example_ok ex = true := hok ex (List.mem_cons_self _ _)
    obtain ⟨d, hd, hcons⟩ := example_ok_doc ex hex
    have hmem : d ∈ example_docs (ex :: rest) := by
      rw [hcons]; exact List.mem_cons_self _ _
    have hle : max tw (last_index d) ≤ M :=
      max_le (htw (List.cons_ne_nil _ _)) (hall d hmem)
    rw [List.cons_append, learn_examples_cons_ok M ex (rest ++ tail) tw d hex hd (hdocs d hmem),
      if_neg (not_lt.mpr hle)]
    exact bind_raise _ _ _ (ih (max tw (last_index d))
      (fun ex' hex' => hok ex' (List.mem_cons_of_mem _ hex'))
      (fun d' hd' => hdocs d' (by rw [hcons]; exact List.mem_cons_of_mem _ hd'))
      (fun d' hd' => hall d' (by rw [hcons]; exact List.mem_cons_of_mem _ hd'))
      (fun _ => hle))

/-- An `alpha` that passes its stage leaves the error of the call without
`alpha` as it is. -/
theorem model_learn_classification_raise (lit maxfeat : Int) (c : LEARN_PARM)
    (kc : KERNEL_PARM) (e : String) (docs lp kp use_cache alpha : VALUE) (err : RubyError)
    (halpha : alpha_ok alpha)
    (h : model_learn_classification lit maxfeat c kc e docs lp kp use_cache .Qnil =
      .raise err) :
    model_learn_classification lit maxfeat c kc e docs lp kp use_cache alpha = .raise err := by
  rcases halpha with rfl | ⟨elems, xs, rfl, hv⟩
  · exact h
  · rw [model_learn_classification_alpha _ _ _ _ _ _ _ _ _ _ xs hv]
    exact bind_raise _ _ _ h

/-- C21. The stages of `model_learn_classification` fail in a fixed order,
whatever the inputs of the later stages are: a non-numeric `alpha` element
gives the error of `alpha`; with `alpha` passing, a failing
`setup_learn_params` gives its message, then a failing `setup_kernel_params`
its message, then a failing `check_kernel_and_learn_params_logic` its
message, then an empty example sequence its error; and then the examples are
taken one by one: after examples that pass, the first example that is not
`[document, number, ...]` gives the error of the labels and the first
document whose last feature number exceeds `MAXFEATNUM` the overflow error,
whatever follows. Whenever the function raises, the solver is not called and
no model is returned. -/
theorem validation_stage_order (lit maxfeat : Int) (c : LEARN_PARM) (kc : KERNEL_PARM)
    (e : String) (examples : List VALUE) (lh kh : Hash) (use_cache alpha : VALUE) :
    (∀ elems, alpha = .array elems → (∃ v ∈ elems, is_numeric v = false) →
      model_learn_classification lit maxfeat c kc e (.array examples) (.hash lh) (.hash kh)
        use_cache alpha =
        .raise (.ArgError "All elements of the alpha array must be numeric ")) ∧
    (alpha_ok alpha →
      ((setup_learn_params c lh e).1 ≠ 0 →
        model_learn_classification lit maxfeat c kc e (.array examples) (.hash lh) (.hash kh)
          use_cache alpha = .raise (.ArgError (setup_learn_params c lh e).2.2)) ∧
      ((setup_learn_params c lh e).1 = 0 →
        (setup_kernel_params kc kh (setup_learn_params c lh e).2.2).1 ≠ 0 →
        model_learn_classification lit maxfeat c kc e (.array examples) (.hash lh) (.hash kh)
          use_cache alpha =
          .raise (.ArgError (setup_kernel_params kc kh (setup_learn_params c lh e).2.2).2.2)) ∧
      ((setup_learn_params c lh e).1 = 0 →
        (setup_kernel_params kc kh (setup_learn_params c lh e).2.2).1 = 0 →
        (check_kernel_and_learn_params_logic lit
          { (setup_kernel_params kc kh (setup_learn_params c lh e).2.2).2.1 with
            kernel_type := LINEAR }
          { (setup_learn_params c lh e).2.1 with type := CLASSIFICATION }
          (setup_kernel_params kc kh (setup_learn_params c lh e).2.2).2.2).1 ≠ 0 →
        model_learn_classification lit maxfeat c kc e (.array examples) (.hash lh) (.hash kh)
          use_cache alpha =
          .raise (.ArgError (check_kernel_and_learn_params_logic lit
            { (setup_kernel_params kc kh (setup_learn_params c lh e).2.2).2.1 with
              kernel_type := LINEAR }
            { (setup_learn_params c lh e).2.1 with type := CLASSIFICATION }
            (setup_kernel_params kc kh (setup_learn_params c lh e).2.2).2.2).2.2)) ∧
      (params_ok lit c kc e lh kh → examples = [] →
        model_learn_classification lit maxfeat c kc e (.array examples) (.hash lh) (.hash kh)
          use_cache alpha =
          .raise (.ArgError "Cannot create Model from empty Documents array")) ∧
      (params_ok lit c kc e lh kh →
        ∀ (pre : List VALUE) (failing : VALUE) (rest : List VALUE),
          examples = pre ++ failing :: rest →
          (∀ ex ∈ pre, example_ok ex = true) →
          (∀ d ∈ example_docs pre,
            produced_by_doc_create d ∧ ∀ i ∈ doc_indices d, i ≤ maxfeat) →
          (example_ok failing = false →
            model_learn_classification lit maxfeat c kc e (.array examples) (.hash lh)
              (.hash kh) use_cache alpha = .raise (.ArgError invalid_label_message)) ∧
          (∀ (d : DOC) (label : VALUE) (more : List VALUE),
            failing = .array (.document d :: label :: more) → is_numeric label = true →
            produced_by_doc_create d → maxfeat < last_index d →
            model_learn_classification lit maxfeat c kc e (.array examples) (.hash lh)
              (.hash kh) use_cache alpha = .raise (.ArgError feature_overflow_message)))) ∧
    (∀ err, model_learn_classification lit maxfeat c kc e (.array examples) (.hash lh)
        (.hash kh) use_cache alpha = .raise err →
      model_learn_classification_calls lit maxfeat c kc e (.array examples) (.hash lh)
        (.hash kh) use_cache alpha = .raise err) := by
  obtain ⟨st1, st2, st3, st4⟩ :=
    model_learn_classification_stages lit maxfeat c kc e examples lh kh use_cache
  refine ⟨?_, ?_, ?_⟩
  · intro elems ha hbad
    subst ha
    unfold model_learn_classification
    dsimp only
    rw [alpha_values_none elems hbad]
  · intro halpha
    refine ⟨?_, ?_, ?_, ?_, ?_⟩
    · intro h1
      exact model_learn_classification_raise _ _ _ _ _ _ _ _ _ _ _ halpha (st1 h1)
    · intro h1 h2
      exact model_learn_classification_raise _ _ _ _ _ _ _ _ _ _ _ halpha (st2 h1 h2)
    · intro h1 h2 h3
      exact model_learn_classification_raise _ _ _ _ _ _ _ _ _ _ _ halpha (st3 h1 h2 h3)
    · intro hp hnil
      exact model_learn_classification_raise _ _ _ _ _ _ _ _ _ _ _ halpha (st4 hp hnil)
    · intro hp pre failing rest hex hok hdocs
      have hne : examples ≠ [] := by rw [hex]; simp
      obtain ⟨hraise, -⟩ :=
        model_learn_classification_loop lit maxfeat c kc e examples lh kh use_cache alpha
          halpha hp hne
      have hprod : ∀ d ∈ example_docs pre, produced_by_doc_create d :=
        fun d hd => (hdocs d hd).1
      have hall : ∀ d ∈ example_docs pre, last_index d ≤ maxfeat :=
        fun d hd => (hdocs d hd).2 _ (last_index_mem d (hprod d hd))
      have htw : pre ≠ [] → (0 : Int) ≤ maxfeat := by
        intro hpre
        rcases pre with _ | ⟨ex, pre'⟩
        · exact absurd rfl hpre
        obtain ⟨d, -, hcons⟩ := example_ok_doc ex (hok ex (List.mem_cons_self _ _))
        exact bound_nonneg maxfeat (ex :: pre') hprod hall (by rw [hcons]; simp)
      refine ⟨?_, ?_⟩
      · intro hbad
        apply hraise
        rw [hex]
        exact learn_examples_prefix maxfeat pre (failing :: rest) 0 _ hok hprod hall htw
          (fun tw' => learn_examples_cons_bad maxfeat failing rest tw' hbad)
      · intro d label more hshape hnum hp' hover
        apply hraise
        rw [hex]
        refine learn_examples_prefix maxfeat pre (failing :: rest) 0 _ hok hprod hall htw ?_
        intro tw'
        subst hshape
        rw [learn_examples_cons_ok maxfeat (.array (.document d :: label :: more)) rest tw' d hnum
            rfl hp',
          if_pos (lt_of_lt_of_le hover (le_max_right _ _))]
  · intro err h
    unfold model_learn_classification_calls
    rw [h]
    rfl

/-- Witness of C21: with a String among the `alpha` elements, a Fixnum for
`predfile`, a String for `poly_degree` and no examples, the error is that of
`alpha`; without the `alpha` array it is that of `predfile`; and with the
learning hash passing its type checks and `svm_maxqpsize` at 1 it is that of
`poly_degree`. -/
theorem validation_stage_order_witness :
    model_learn_classification 0 99999999 (default_learn_parm 0) (default_kernel_parm 7) ""
        (.array []) (.hash [("predfile", .fixnum 5)]) (.hash [("poly_degree", .string "x")])
        .Qfalse (.array [.string "x"]) =
      .raise (.ArgError "All elements of the alpha array must be numeric ") ∧
    model_learn_classification 0 99999999 (default_learn_parm 0) (default_kernel_parm 7) ""
        (.array []) (.hash [("predfile", .fixnum 5)]) (.hash [("poly_degree", .string "x")])
        .Qfalse .Qnil =
      .raise (.ArgError "The value of the learning option 'predfile' must be a string") ∧
    model_learn_classification 0 99999999 (default_learn_parm 0) (default_kernel_parm 7) ""
        (.array []) (.hash [("svm_maxqpsize", .fixnum 1)]) (.hash [("poly_degree", .string "x")])
        .Qfalse .Qnil =
      .raise (.ArgError "The value of the learning option 'poly_degree' must be a numeric") :=
  ⟨(validation_stage_order 0 99999999 (default_learn_parm 0) (default_kernel_parm 7) ""
      [] [("predfile", .fixnum 5)] [("poly_degree", .string "x")] .Qfalse
      (.array [.string "x"])).1 [.string "x"] rfl ⟨.string "x", by simp, rfl⟩,
   (validation_stage_order 0 99999999 (default_learn_parm 0) (default_kernel_parm 7) ""
      [] [("predfile", .fixnum 5)] [("poly_degree", .string "x")] .Qfalse
      .Qnil).2.1 (Or.inl rfl) |>.1 (by decide),
   (validation_stage_order 0 99999999 (default_learn_parm 0) (default_kernel_parm 7) ""
      [] [("svm_maxqpsize", .fixnum 1)] [("poly_degree", .string "x")] .Qfalse
      .Qnil).2.1 (Or.inl rfl) |>.2.1 (by decide) (by decide)⟩

/-! ## Theorems: the word buffer of a document -/

/-- Every entry that the loop of `doc_create` has accepted is an Array that
starts with a Fixnum and a Float or Fixnum. -/
theorem doc_create_words_shape (ws : List VALUE) (words : List WORD)
    (h : doc_create_words ws = .ok words) :
    ∀ w ∈ ws, entry_has_index w = true ∧ entry_bad_weight w = false := by
  induction ws generalizing words with
  | nil => simp
  | cons w rest ih =>
    unfold doc_create_words at h
    split at h
    · exact absurd h (fun h' => Outcome.noConfusion h')
    · exact absurd h (fun h' => Outcome.noConfusion h')
    · split_ifs at h with hn
      obtain ⟨tlw, htl, -⟩ := bind_eq_ok _ _ _ h
      intro w' hw'
      rcases List.mem_cons.mp hw' with hw' | hw'
      · subst hw'; exact ⟨rfl, rfl⟩
      · exact ih tlw htl w' hw'
    · split_ifs at h with hn
      obtain ⟨tlw, htl, -⟩ := bind_eq_ok _ _ _ h
      intro w' hw'
      rcases List.mem_cons.mp hw' with hw' | hw'
      · subst hw'; exact ⟨rfl, rfl⟩
      · exact ih tlw htl w' hw'
    · exact absurd h (fun h' => Outcome.noConfusion h')
    · exact absurd h (fun h' => Outcome.noConfusion h')
    · exact absurd h (fun h' => Outcome.noConfusion h')

/-- The buffer that a successful `doc_create` fills and the vector that it
stores: the caller's features in order, then the sentinel. -/
theorem doc_create_stored_words (id cost slackid queryid : VALUE) (ws : List VALUE)
    (junk : Dbl) (d : DOC)
    (h : doc_create id cost slackid queryid (.array ws) junk = .ok d) :
    ws ≠ [] ∧ doc_create_words ws = .ok (ws.map entry_word) ∧
    d.fvec.words = ws.map entry_word ++ [{ wnum := 0, weight := junk }] ∧
    (∀ w ∈ ws, 0 < entry_index w) ∧
    ∀ w ∈ ws, entry_has_index w = true ∧ entry_bad_weight w = false := by
  obtain ⟨ws', s, q, filled, c, docnum, hws, -, -, hne, hfilled, -, -, rfl⟩ :=
    doc_create_ok _ _ _ _ _ _ _ h
  cases hws
  obtain ⟨hmap, hpos⟩ := doc_create_words_ok ws filled hfilled
  subst hmap
  refine ⟨hne, hfilled, ?_, hpos, doc_create_words_shape ws _ hfilled⟩
  refine copy_through_sentinel (ws.map entry_word) junk ?_
  intro w hw
  rw [List.mem_map] at hw
  obtain ⟨v, hv, rfl⟩ := hw
  exact ne_of_gt (hpos v hv)

theorem scan_words_all (l : List WORD) (junk : Dbl) (k : Nat) (h : ∀ w ∈ l, w.wnum ≠ 0) :
    scan_words (l ++ [{ wnum := 0, weight := junk }]) k = some (k + l.length) := by
  induction l generalizing k with
  | nil => simp [scan_words]
  | cons w rest ih =>
    have hw : w.wnum ≠ 0 := h w (List.mem_cons_self _ _)
    have ih' := ih (k + 1) (fun w' hw' => h w' (List.mem_cons_of_mem _ hw'))
    simp only [List.cons_append, scan_words, ne_eq, hw, not_false_eq_true, if_true]
    refine Eq.trans ih' ?_
    simp only [List.length_cons]
    congr 1
    omega

/-- C22. After a successful `doc_create` on a feature list of `n` entries,
`n` is at least 1 and the stored buffer, which is the buffer that the loop has
filled, holds `n + 1` words: word `i` below `n` carries the feature number and
the weight of the caller's entry `i`, an Array that starts with a Fixnum and a
Float or Fixnum, with a feature number above 0; word `n` is the sentinel with
feature number 0; so the first word with feature number 0 is at position
`n`. -/
theorem doc_create_buffer_layout (id cost slackid queryid : VALUE) (ws : List VALUE)
    (junk : Dbl) (d : DOC)
    (h : doc_create id cost slackid queryid (.array ws) junk = .ok d) :
    1 ≤ ws.length ∧
    (∃ filled, doc_create_words ws = .ok filled ∧
      d.fvec.words = filled ++ [{ wnum := 0, weight := junk }]) ∧
    d.fvec.words.length = ws.length + 1 ∧
    (∀ (i : Nat) (hi : i < ws.length),
      d.fvec.words.get? i =
        some { wnum := entry_index (ws.get ⟨i, hi⟩),
               weight := FVAL (entry_weight (ws.get ⟨i, hi⟩)) } ∧
      0 < entry_index (ws.get ⟨i, hi⟩) ∧
      entry_has_index (ws.get ⟨i, hi⟩) = true ∧ entry_bad_weight (ws.get ⟨i, hi⟩) = false) ∧
    d.fvec.words.get? ws.length = some { wnum := 0, weight := junk } ∧
    d.fvec.words.findIdx (fun w => decide (w.wnum = 0)) = ws.length := by
  obtain ⟨hne, hfilled, hwords, hpos, hshape⟩ :=
    doc_create_stored_words id cost slackid queryid ws junk d h
  refine ⟨List.length_pos.mpr hne, ⟨_, hfilled, hwords⟩, ?_, ?_, ?_, ?_⟩
  · rw [hwords]; simp
  · intro i hi
    have hmem : ws.get ⟨i, hi⟩ ∈ ws := List.get_mem ws i hi
    refine ⟨?_, hpos _ hmem, hshape _ hmem⟩
    rw [hwords, List.get?_eq_getElem?,
      List.getElem?_append_left (by rw [List.length_map]; exact hi), List.getElem?_map,
      List.getElem?_eq_getElem hi]
    rfl
  · rw [hwords, List.get?_eq_getElem?,
      List.getElem?_append_right (by rw [List.length_map])]
    simp
  · rw [hwords, List.findIdx_append]
    have hfalse : ∀ w ∈ ws.map entry_word, decide (w.wnum = 0) = false := by
      intro w hw
      rw [List.mem_map] at hw
      obtain ⟨v, hv, rfl⟩ := hw
      exact decide_eq_false (ne_of_gt (hpos v hv))
    have hs : List.findIdx (fun w : WORD => decide (w.wnum = 0))
        [{ wnum := 0, weight := junk }] = 0 := rfl
    rw [List.findIdx_eq_length_of_false hfalse, if_neg (lt_irrefl _), hs, List.length_map,
      Nat.zero_add]

/-- Witness of C22: the document built from `[[2, 1], [1, 1]]` stores three
words, the sentinel at position 2. -/
theorem doc_create_buffer_layout_witness :
    doc_create (.fixnum 1) (.fixnum 1) (.fixnum 0) (.fixnum 0) unsorted_features Dbl.nan =
      .ok unsorted_doc ∧
    unsorted_doc.fvec.words.length = 2 + 1 ∧
    unsorted_doc.fvec.words.get? 2 = some { wnum := 0, weight := Dbl.nan } :=
  ⟨by decide,
   (doc_create_buffer_layout (.fixnum 1) (.fixnum 1) (.fixnum 0) (.fixnum 0)
     [.array [.fixnum 2, .fixnum 1], .array [.fixnum 1, .fixnum 1]] Dbl.nan unsorted_doc
     (by decide)).2.2.1,
   (doc_create_buffer_layout (.fixnum 1) (.fixnum 1) (.fixnum 0) (.fixnum 0)
     [.array [.fixnum 2, .fixnum 1], .array [.fixnum 1, .fixnum 1]] Dbl.nan unsorted_doc
     (by decide)).2.2.2.2.1⟩

/-- C23. For a document that `doc_create` has built from `n` features, the
scan `while(words[fnum].wnum) fnum++` of `model_learn_classification` ends
inside the buffer with `fnum = n`, which is at least 1, so `words[fnum - 1]`
is a word of the buffer: the word of the caller's last feature. The step of
the loop over the examples is therefore defined on an example that holds the
document: it raises the overflow error or goes on to the next example. -/
theorem width_scan_safe (id cost slackid queryid : VALUE) (ws : List VALUE) (junk : Dbl)
    (d : DOC) (h : doc_create id cost slackid queryid (.array ws) junk = .ok d) :
    scan_words d.fvec.words 0 = some ws.length ∧ 1 ≤ ws.length ∧
    ws.length - 1 < d.fvec.words.length ∧
    (∃ last, ws.getLast? = some last ∧
      d.fvec.words.get? (ws.length - 1) = some (entry_word last) ∧
      0 < (entry_word last).wnum ∧
      ∀ (M : Int) (label : VALUE) (more rest : List VALUE) (tw : Int),
        is_numeric label = true →
        learn_examples M (.array (.document d :: label :: more) :: rest) tw =
          if max tw (entry_word last).wnum > M then
            .raise (.ArgError feature_overflow_message)
          else
            (learn_examples M rest (max tw (entry_word last).wnum)).bind fun r =>
              .ok (d :: r.1,
                example_label (.array (.document d :: label :: more)) :: r.2.1, r.2.2)) := by
  obtain ⟨hne, hfilled, hwords, hpos, -⟩ :=
    doc_create_stored_words id cost slackid queryid ws junk d h
  have hlen : 1 ≤ ws.length := List.length_pos.mpr hne
  have hnz : ∀ w ∈ ws.map entry_word, w.wnum ≠ 0 := by
    intro w hw
    rw [List.mem_map] at hw
    obtain ⟨v, hv, rfl⟩ := hw
    exact ne_of_gt (hpos v hv)
  have hscan : scan_words d.fvec.words 0 = some ws.length := by
    rw [hwords, scan_words_all _ junk 0 hnz]
    simp
  refine ⟨hscan, hlen, ?_, ?_⟩
  · rw [hwords]; simp; omega
  · rcases List.eq_nil_or_concat ws with hnil | ⟨init, last, hcat⟩
    · exact absurd hnil hne
    have hlastmem : last ∈ ws := by rw [hcat]; simp
    have hd : d.fvec.words =
        init.map entry_word ++ [entry_word last, { wnum := 0, weight := junk }] := by
      rw [hwords, hcat]; simp
    have hl : ws.length - 1 = init.length := by rw [hcat]; simp
    have hget : d.fvec.words.get? (ws.length - 1) = some (entry_word last) := by
      rw [hl, hd, List.get?_eq_getElem?,
        List.getElem?_append_right (by rw [List.length_map])]
      simp
    have hprod : produced_by_doc_create d := ⟨id, cost, slackid, queryid, .array ws, junk, h⟩
    refine ⟨last, by rw [hcat]; simp, hget, hpos last hlastmem, ?_⟩
    intro M label more rest tw hnum
    have hex : example_ok (.array (.document d :: label :: more)) = true := hnum
    rw [learn_examples_cons_ok M _ rest tw d hex rfl hprod,
      last_index_eq d _ _ junk hd]

/-- Witness of C23: on the document built from `[[2, 1], [1, 1]]` the scan
ends at `fnum = 2`. -/
theorem width_scan_safe_witness :
    doc_create (.fixnum 1) (.fixnum 1) (.fixnum 0) (.fixnum 0) unsorted_features Dbl.nan =
      .ok unsorted_doc ∧
    scan_words unsorted_doc.fvec.words 0 = some 2 :=
  ⟨by decide,
   (width_scan_safe (.fixnum 1) (.fixnum 1) (.fixnum 0) (.fixnum 0)
     [.array [.fixnum 2, .fixnum 1], .array [.fixnum 1, .fixnum 1]] Dbl.nan unsorted_doc
     (by decide)).1⟩

/-! ## Theorems: the new-variables option -/

theorem data_get_append_left (a b : String) (i : Nat) (ch : Char)
    (h : a.data.get? i = some ch) : (a ++ b).data.get? i = some ch := by
  rw [String.data_append]
  rw [List.get?_eq_getElem?] at h ⊢
  obtain ⟨hi, -⟩ := List.getElem?_eq_some.mp h
  rw [List.getElem?_append_left hi]
  exact h

theorem data_get_append_right (a b : String) (n i : Nat) (hn : a.data.length + i = n) :
    (a ++ b).data.get? n = b.data.get? i := by
  subst hn
  rw [String.data_append, List.get?_eq_getElem?, List.get?_eq_getElem?,
    List.getElem?_append_right (Nat.le_add_right _ _)]
  simp

/-- No rule other than rule 5 produces the message of rule 5. -/
theorem message_ne_rule5 (lit : Int) (r : Rule) (c : LEARN_PARM) (h : r ≠ .qp_newvars) :
    r.message lit c ≠
      "Maximum size of QP-subproblems [" ++ toString lit ++
        "] must be larger than the number of" := by
  intro hm
  have h0 := congrArg (fun s => s.data.get? 0) hm
  have h8 := congrArg (fun s => s.data.get? 8) hm
  have h31 := congrArg (fun s => s.data.get? 31) hm
  simp only [String.append_assoc] at h0 h8 h31
  rw [data_get_append_left "Maximum size of QP-subproblems [" _ 0 'M' rfl] at h0
  rw [data_get_append_left "Maximum size of QP-subproblems [" _ 8 's' rfl] at h8
  rw [data_get_append_left "Maximum size of QP-subproblems [" _ 31 '[' rfl] at h31
  cases r
  · simp only [Rule.message] at h0; revert h0; decide
  · simp only [Rule.message, String.append_assoc] at h31
    rw [data_get_append_right "Maximum size of QP-subproblems " _ 31 0 rfl,
      data_get_append_left "not in valid range: " _ 0 'n' rfl] at h31
    revert h31; decide
  · exact h rfl
  · simp only [Rule.message, String.append_assoc] at h8
    rw [data_get_append_left "Maximum number of iterations for shrinking not" _ 8 'n' rfl] at h8
    revert h8; decide
  all_goals (simp only [Rule.message] at h0; revert h0; decide)

/-- With `svm_newvarsinqp` at most 1, rule 5 is never the first rule broken:
rule 4 rejects every `svm_maxqpsize` below 2 before it. -/
theorem rule5_not_first (k : KERNEL_PARM) (l : LEARN_PARM) (h : l.svm_newvarsinqp ≤ 1) :
    first_violated (derive_and_normalise k l) ≠ some .qp_newvars := by
  intro hfv
  have h4 : (derive_and_normalise k l).svm_maxqpsize = l.svm_maxqpsize := by
    rw [derive_and_normalise_fields]
  have h5 : (derive_and_normalise k l).svm_newvarsinqp = l.svm_newvarsinqp := by
    rw [derive_and_normalise_fields]
  unfold first_violated rejecting_rules at hfv
  rw [List.find?_cons] at hfv
  split at hfv
  · exact absurd hfv (by decide)
  rw [List.find?_cons] at hfv
  split at hfv
  · exact absurd hfv (by decide)
  rename_i hr3 hr4
  rw [List.find?_cons] at hfv
  split at hfv
  · rename_i hr5
    simp only [Rule.violated, decide_eq_true_eq, decide_eq_false_iff_not, h4, h5] at hr4 hr5
    omega
  · have := List.mem_of_find?_eq_some hfv
    revert this
    decide

/-- C24. The option `svm_newvarsinqp` is read as a boolean: when
`setup_learn_params` succeeds the field holds 0 or 1 (1 for `true`, 0 for
`false` and for an absent option), so `check_kernel_and_learn_params_logic`
run on that output never has rule 5 as its first broken rule and never fails
with the message of rule 5, whatever the kernel is; and a Float or a Fixnum
for the option makes `setup_learn_params` fail, with the type error of
`svm_newvarsinqp` when the six options before it pass. -/
theorem newvars_read_as_boolean (c : LEARN_PARM) (h : Hash) (e : String) :
    ((setup_learn_params c h e).1 = 0 →
      (setup_learn_params c h e).2.1.svm_newvarsinqp =
        coerce_bool (rb_hash_aref h "svm_newvarsinqp") 0 ∧
      ((setup_learn_params c h e).2.1.svm_newvarsinqp = 0 ∨
        (setup_learn_params c h e).2.1.svm_newvarsinqp = 1) ∧
      ∀ (lit : Int) (k : KERNEL_PARM) (e' : String),
        first_violated (derive_and_normalise k (setup_learn_params c h e).2.1) ≠
          some .qp_newvars ∧
        ((check_kernel_and_learn_params_logic lit k (setup_learn_params c h e).2.1 e').1 ≠ 0 →
          (check_kernel_and_learn_params_logic lit k (setup_learn_params c h e).2.1 e').2.2 ≠
            "Maximum size of QP-subproblems [" ++ toString lit ++
              "] must be larger than the number of")) ∧
    (is_numeric (rb_hash_aref h "svm_newvarsinqp") = true →
      (setup_learn_params c h e).1 = 1 ∧
      ((∀ f ∈ learn_fields.take 6, f.2.accepts (rb_hash_aref h f.1) = true) →
        (setup_learn_params c h e).2.2 =
          "The value of the learning option 'svm_newvarsinqp' must be a true or false")) := by
  refine ⟨?_, ?_⟩
  · intro hs
    have hacc := setup_learn_params_accepts c h e hs
    have hclosed := setup_learn_params_closed c h e hacc
    have hfield : (setup_learn_params c h e).2.1.svm_newvarsinqp =
        coerce_bool (rb_hash_aref h "svm_newvarsinqp") 0 := by
      rw [hclosed]; rfl
    have hbool : (setup_learn_params c h e).2.1.svm_newvarsinqp = 0 ∨
        (setup_learn_params c h e).2.1.svm_newvarsinqp = 1 := by
      rw [hfield]
      have := hacc ("svm_newvarsinqp", .boolean) (by decide)
      cases hv : rb_hash_aref h "svm_newvarsinqp" <;>
        simp [hv, FieldKind.accepts, coerce_bool] at this ⊢
    refine ⟨hfield, hbool, ?_⟩
    intro lit k e'
    have hle : (setup_learn_params c h e).2.1.svm_newvarsinqp ≤ 1 := by
      rcases hbool with h0 | h1
      · rw [h0]; decide
      · rw [h1]
    have hnot := rule5_not_first k (setup_learn_params c h e).2.1 hle
    refine ⟨hnot, ?_⟩
    intro hfail
    rw [check_logic_eq] at hfail ⊢
    cases hfv : first_violated (derive_and_normalise k (setup_learn_params c h e).2.1) with
    | none => rw [hfv] at hfail; exact absurd rfl hfail
    | some r =>
      have hr : r ≠ .qp_newvars := by
        intro hr
        rw [hr] at hfv
        exact hnot hfv
      exact message_ne_rule5 lit r _ hr
  · intro hnum
    have hrej : FieldKind.accepts .boolean (rb_hash_aref h "svm_newvarsinqp") = false := by
      cases hv : rb_hash_aref h "svm_newvarsinqp" <;>
        simp [hv, is_numeric, FieldKind.accepts] at hnum ⊢
    have hspec := setup_learn_params_spec c h e
    refine ⟨?_, ?_⟩
    · cases hfb : first_bad learn_fields h with
      | none =>
        have := (first_bad_eq_none_iff learn_fields h).mp hfb
          ("svm_newvarsinqp", .boolean) (by decide)
        rw [hrej] at this
        exact absurd this (by decide)
      | some f =>
        rw [hfb] at hspec
        exact hspec.1
    · intro hpre
      have h1 := hpre ("predfile", .string) (by decide)
      have h2 := hpre ("alphafile", .string) (by decide)
      have h3 := hpre ("biased_hyperplane", .boolean) (by decide)
      have h4 := hpre ("sharedslack", .boolean) (by decide)
      have h5 := hpre ("remove_inconsistent", .boolean) (by decide)
      have h6 := hpre ("skip_final_opt_check", .boolean) (by decide)
      have hfb : first_bad learn_fields h = some ("svm_newvarsinqp", .boolean) := by
        unfold first_bad learn_fields
        simp only [List.find?_cons, h1, h2, h3, h4, h5, h6, hrej, Bool.not_true, Bool.not_false]
      rw [hfb] at hspec
      rw [hspec.2]
      decide

/-- Witness of C24: with `svm_newvarsinqp` true and `svm_maxqpsize` 0 the
setup succeeds with `svm_newvarsinqp = 1`, and the cross-field checks fail
with a message that is not that of rule 5. -/
theorem newvars_read_as_boolean_witness :
    (setup_learn_params (default_learn_parm 0)
      [("svm_newvarsinqp", .Qtrue), ("svm_maxqpsize", .fixnum 0)] "").2.1.svm_newvarsinqp = 1 ∧
    (check_kernel_and_learn_params_logic 0 (default_kernel_parm 0)
      (setup_learn_params (default_learn_parm 0)
        [("svm_newvarsinqp", .Qtrue), ("svm_maxqpsize", .fixnum 0)] "").2.1 "").2.2 ≠
      "Maximum size of QP-subproblems [" ++ toString (0 : Int) ++
        "] must be larger than the number of" :=
  ⟨by decide,
   ((newvars_read_as_boolean (default_learn_parm 0)
      [("svm_newvarsinqp", .Qtrue), ("svm_maxqpsize", .fixnum 0)] "").1 (by decide)).2.2
      0 (default_kernel_parm 0) "" |>.2 (by decide)⟩

end SvmRedLight
